import Mathlib

/-! A verification development of metalcloud-cli.

Shallow embedding of the command handlers of the MetalCloud command-line client
and of the blocking deploy orchestrator described by its specification.

* Part I   : the blocking deploy orchestrator (shutdown policy, confirmation
             guard, dispatcher, poller).
* Part II  : the flag-driven command handlers of `cmd_workflows.go`,
             `pkg/firewall`, `pkg/volumetemplate` and `pkg/datacenter`, run
             against a remote client whose answers are an explicit parameter and
             whose calls are recorded in a trace; and the infrastructure
             commands of `internal/infrastructure`, run against an API context
             that records the requests executed.
* Part III : lemmas and the theorems about both.
-/

namespace MetalcloudCli

/-! ## Part I. Blocking deploy orchestrator -/

/-- ShutdownPolicy of the data model: how running workloads are powered down
before a deploy. -/
structure ShutdownPolicy where
  attemptSoft : Bool
  softTimeoutSeconds : Int
  hardAfterTimeout : Bool
  forced : Bool
  deriving DecidableEq, Repr

/-- The flags of `infrastructure deploy`. The five shutdown and data-loss flags
are the package-level variables of `cmd/metalcloud-cli/cmd/infrastructure.go`
(`allowDataLoss`, `attemptSoftShutdown`, `attemptHardShutdown`,
`softShutdownTimeout`, `forceShutdown`); `autoconfirm` is the confirmation flag
of the parameter resolver. `resourceId` is the resolved resource identifier,
`none` when no identifier was given. -/
structure DeployFlags where
  resourceId : Option Int
  allowDataLoss : Bool
  attemptSoftShutdown : Bool
  attemptHardShutdown : Bool
  softShutdownTimeout : Int
  forceShutdown : Bool
  autoconfirm : Bool
  deriving DecidableEq, Repr

/-- The defaults registered by `init()` in `cmd/infrastructure.go`:
allow-data-loss false, attempt-soft-shutdown true, attempt-hard-shutdown true,
soft-shutdown-timeout 180, force-shutdown false. -/
def defaultDeployFlags (id : Int) : DeployFlags :=
  { resourceId := some id, allowDataLoss := false, attemptSoftShutdown := true,
    attemptHardShutdown := true, softShutdownTimeout := 180, forceShutdown := false,
    autoconfirm := false }

/-- Modelled from the spec: the body of `infrastructure.InfrastructureDeploy`
(and of the older `infrastructureDeployCmd`) is not among the sources; this is
the resolution rule of the Parameter Resolver. With `force-shutdown` the policy
has `forced = true` and `attemptSoft = false` whatever the soft-shutdown flags
are; otherwise the policy mirrors the soft / hard / timeout flags verbatim. The
rule fixes neither `hardAfterTimeout` nor `softTimeoutSeconds` of a forced
policy; they are carried over from the flags. -/
def resolveShutdownPolicy (attemptSoftShutdown attemptHardShutdown : Bool)
    (softShutdownTimeout : Int) (forceShutdown : Bool) : ShutdownPolicy :=
  if forceShutdown then
    { attemptSoft := false, softTimeoutSeconds := softShutdownTimeout,
      hardAfterTimeout := attemptHardShutdown, forced := true }
  else
    { attemptSoft := attemptSoftShutdown, softTimeoutSeconds := softShutdownTimeout,
      hardAfterTimeout := attemptHardShutdown, forced := false }

/-- DeployRequest of the data model: the target resource, the resolved shutdown
policy and the two independent guards. -/
structure DeployRequest where
  resourceId : Int
  policy : ShutdownPolicy
  allowDataLoss : Bool
  confirmed : Bool
  deriving DecidableEq, Repr

/-- The error taxonomy of the orchestrator. -/
inductive DeployError where
  | ValidationError (msg : String)
  | NotConfirmed
  | TransportError (msg : String)
  | DeployFailed (reason : String)
  | DeployTimeout
  deriving DecidableEq, Repr

/-- The text of an error as the command layer reports it. The wording of
`NotConfirmed` is the one the tests of `cmd_infrastructure_test.go` expect;
transport and validation errors are surfaced unchanged and a failed deploy
carries the remote reason. -/
def DeployError.text : DeployError → String
  | .ValidationError msg => msg
  | .NotConfirmed => "Operation not confirmed. Aborting"
  | .TransportError msg => msg
  | .DeployFailed reason => "deploy failed: " ++ reason
  | .DeployTimeout => "deploy timeout"

/-- Modelled from the spec: the Parameter Resolver turning the raw flags into a
`DeployRequest`. A missing resource identifier is a `ValidationError`. The
`confirmed` guard is the `autoconfirm` flag and `allowDataLoss` is copied; the
two guards never influence each other. -/
def resolveDeployRequest (f : DeployFlags) : Except DeployError DeployRequest :=
  match f.resourceId with
  | none => .error (.ValidationError "infrastructure id or label is required")
  | some id =>
    .ok { resourceId := id,
          policy := resolveShutdownPolicy f.attemptSoftShutdown f.attemptHardShutdown
                      f.softShutdownTimeout f.forceShutdown,
          allowDataLoss := f.allowDataLoss,
          confirmed := f.autoconfirm }

/-- The three destructive operations that sit behind the confirmation guard. -/
inductive Operation where
  | deploy
  | delete
  | revert
  deriving DecidableEq, Repr

/-- What the orchestrator does that is observable from outside, in order. -/
inductive Event where
  | readResource (id : Int)
  | prompt (message : String)
  | deploy (id : Int) (policy : ShutdownPolicy) (allowDataLoss : Bool)
  | delete (id : Int)
  | cancel (id : Int)
  | getResourceStatus (id : Int)
  | sleep (seconds : Nat)
  deriving DecidableEq, Repr

/-- The mutating endpoints of the remote API: Deploy, Delete and Cancel/Revert. -/
def Event.isMutating : Event → Bool
  | .deploy _ _ _ => true
  | .delete _ => true
  | .cancel _ => true
  | _ => false

/-- Status fetches of the poller. -/
def Event.isStatusFetch : Event → Bool
  | .getResourceStatus _ => true
  | _ => false

/-- Sleeps of the poller. -/
def Event.isSleep : Event → Bool
  | .sleep _ => true
  | _ => false

/-- Deploy calls. -/
def Event.isDeploy : Event → Bool
  | .deploy _ _ _ => true
  | _ => false

/-- Prompts shown to the operator. -/
def Event.isPrompt : Event → Bool
  | .prompt _ => true
  | _ => false

/-- The external collaborators of the orchestrator: the remote API and the
operator. `resourceLabel` is the read that gives the name of a resource for the
confirmation message. `status n` is the answer of the `n`-th `GetResourceStatus`
call (counted from 0); an `error` answer is a transport error. `deploy`,
`delete` and `cancel` answer `none` when the call is accepted and the error
otherwise. `operatorResponse` is what the operator types in reply to a
confirmation message. -/
structure Remote where
  resourceLabel : Int → String
  operatorResponse : String → String
  deploy : Int → ShutdownPolicy → Bool → Option String
  delete : Int → Option String
  cancel : Int → Option String
  status : Nat → Except String String

/-- What a command returns, `(outputText, error)`, together with the events it
caused. -/
structure CmdResult where
  output : String
  error : Option DeployError
  events : List Event
  deriving DecidableEq, Repr

/-- Classification of a fetched status against the terminal set. -/
inductive StatusClass where
  | succeeded
  | failed
  | nonTerminal
  deriving DecidableEq, Repr

/-- Modelled from the spec: the terminal set of the poller. `finished` is
terminal success, `error` and `failed` are terminal failure, every other
provider-defined status (`ongoing`, `not_started`, ...) is not terminal. -/
def classifyStatus (s : String) : StatusClass :=
  if s = "finished" then .succeeded
  else if s = "error" ∨ s = "failed" then .failed
  else .nonTerminal

/-- Modelled from the spec: the human-readable confirmation message, naming the
target resource and its identifier. -/
def confirmationMessage (op : Operation) (label : String) (id : Int) : String :=
  let verb := match op with
    | .deploy => "Deploying"
    | .delete => "Deleting"
    | .revert => "Reverting"
  verb ++ " infrastructure " ++ label ++ " (" ++ toString id ++
    ").  Are you sure? Type \"yes\" to continue:"

/-- Modelled from the spec: the Confirmation Guard. With `autoconfirm` it
proceeds without prompting and without any call. Otherwise it reads the resource
to build the confirmation message, presents it, and requires the exact
case-sensitive answer `yes`. Denying is its only failure. The result is the
decision and the events caused. -/
def confirmationGuard (env : Remote) (op : Operation) (id : Int) (autoconfirm : Bool) :
    Bool × List Event :=
  if autoconfirm then (true, [])
  else
    (env.operatorResponse (confirmationMessage op (env.resourceLabel id) id) == "yes",
      [.readResource id, .prompt (confirmationMessage op (env.resourceLabel id) id)])

/-- The outcome of the polling loop with the events it caused. -/
structure PollResult where
  error : Option DeployError
  events : List Event
  deriving DecidableEq, Repr

/-- Modelled from the spec: the polling loop of the Blocking Poller. One round
(a) fetches the status, (b) classifies it, (c) leaves the loop on a terminal
status, (d) otherwise sleeps for `interval` seconds and then compares the
elapsed time with `timeout`, leaving with `DeployTimeout` when it is exceeded.
Time is the mock clock of the spec: it advances by sleeping only. `n` is the
number of fetches made so far and `elapsed` the seconds slept so far. The loop
is run with `fuel` rounds at most; `none` is returned when the fuel runs out. -/
def pollLoop (env : Remote) (id : Int) (interval timeout : Nat) :
    (fuel : Nat) → (n : Nat) → (elapsed : Nat) → Option PollResult
  | 0, _, _ => none
  | fuel + 1, n, elapsed =>
    match env.status n with
    | .error e => some ⟨some (.TransportError e), [.getResourceStatus id]⟩
    | .ok s =>
      match classifyStatus s with
      | .succeeded => some ⟨none, [.getResourceStatus id]⟩
      | .failed => some ⟨some (.DeployFailed s), [.getResourceStatus id]⟩
      | .nonTerminal =>
        if elapsed + interval > timeout then
          some ⟨some .DeployTimeout, [.getResourceStatus id, .sleep interval]⟩
        else
          match pollLoop env id interval timeout fuel (n + 1) (elapsed + interval) with
          | none => none
          | some r => some ⟨r.error, .getResourceStatus id :: .sleep interval :: r.events⟩

/-- Modelled from the spec: the Blocking Poller. Both `checkIntervalSeconds` and
`timeoutSeconds` must be positive; otherwise a configuration error is reported
before the loop is entered. The first poll happens immediately. -/
def blockingPoller (env : Remote) (id : Int) (timeoutSeconds checkIntervalSeconds : Int)
    (fuel : Nat) : Option PollResult :=
  if checkIntervalSeconds ≤ 0 ∨ timeoutSeconds ≤ 0 then
    some ⟨some (.ValidationError "block timeout and check interval must be positive"), []⟩
  else
    pollLoop env id checkIntervalSeconds.toNat timeoutSeconds.toNat fuel 0 0

/-- Modelled from the spec: the entry point exposed to the CLI layer, taking a
resolved `DeployRequest` and the blocking parameters. The flow is: confirmation
guard, then exactly one non-blocking deploy call carrying the shutdown policy
and the data-loss flag, then, only when `blockUntilDeployed`, the poller. -/
def deployEntry (env : Remote) (req : DeployRequest) (blockUntilDeployed : Bool)
    (timeoutSeconds checkIntervalSeconds : Int) (fuel : Nat) : Option CmdResult :=
  match confirmationGuard env .deploy req.resourceId req.confirmed with
  | (false, evs) => some ⟨"", some .NotConfirmed, evs⟩
  | (true, evs) =>
    let call := Event.deploy req.resourceId req.policy req.allowDataLoss
    match env.deploy req.resourceId req.policy req.allowDataLoss with
    | some e => some ⟨"", some (.TransportError e), evs ++ [call]⟩
    | none =>
      if blockUntilDeployed then
        match blockingPoller env req.resourceId timeoutSeconds checkIntervalSeconds fuel with
        | none => none
        | some r => some ⟨"", r.error, evs ++ [call] ++ r.events⟩
      else
        some ⟨"", none, evs ++ [call]⟩

/-- Modelled from the spec: `infrastructure deploy` as the command layer runs it,
parameter resolution followed by the entry point. -/
def infrastructureDeployCmd (env : Remote) (f : DeployFlags) (blockUntilDeployed : Bool)
    (timeoutSeconds checkIntervalSeconds : Int) (fuel : Nat) : Option CmdResult :=
  match resolveDeployRequest f with
  | .error e => some ⟨"", some e, []⟩
  | .ok req => deployEntry env req blockUntilDeployed timeoutSeconds checkIntervalSeconds fuel

/-- Modelled from the spec: `infrastructure delete` behind the same confirmation
guard; `InfrastructureDelete` is its one mutating call. -/
def infrastructureDeleteCmd (env : Remote) (resourceId : Option Int) (autoconfirm : Bool) :
    CmdResult :=
  match resourceId with
  | none => ⟨"", some (.ValidationError "infrastructure id or label is required"), []⟩
  | some id =>
    match confirmationGuard env .delete id autoconfirm with
    | (false, evs) => ⟨"", some .NotConfirmed, evs⟩
    | (true, evs) =>
      match env.delete id with
      | some e => ⟨"", some (.TransportError e), evs ++ [.delete id]⟩
      | none => ⟨"", none, evs ++ [.delete id]⟩

/-- Modelled from the spec: `infrastructure revert` behind the same confirmation
guard; `InfrastructureOperationCancel` is its one mutating call. -/
def infrastructureRevertCmd (env : Remote) (resourceId : Option Int) (autoconfirm : Bool) :
    CmdResult :=
  match resourceId with
  | none => ⟨"", some (.ValidationError "infrastructure id or label is required"), []⟩
  | some id =>
    match confirmationGuard env .revert id autoconfirm with
    | (false, evs) => ⟨"", some .NotConfirmed, evs⟩
    | (true, evs) =>
      match env.cancel id with
      | some e => ⟨"", some (.TransportError e), evs ++ [.cancel id]⟩
      | none => ⟨"", none, evs ++ [.cancel id]⟩

/-- The flags of `TestInfrastructureDeployCmd` once confirmed: allow-data-loss,
soft shutdown disabled, soft-shutdown timeout 256, autoconfirm. -/
def testDeployFlags : DeployFlags :=
  { resourceId := some 10002, allowDataLoss := true, attemptSoftShutdown := false,
    attemptHardShutdown := true, softShutdownTimeout := 256, forceShutdown := false,
    autoconfirm := true }

/-- The request of `TestDeployBlocking`: infrastructure 1000, default shutdown
flags, autoconfirm. -/
def testBlockingRequest : DeployRequest :=
  { resourceId := 1000, policy := resolveShutdownPolicy true true 180 false,
    allowDataLoss := false, confirmed := true }

/-- The events of `k` unsuccessful rounds of the poller: a status fetch followed
by a sleep, `k` times. -/
def pollRounds (id : Int) (interval : Nat) : Nat → List Event
  | 0 => []
  | k + 1 => .getResourceStatus id :: .sleep interval :: pollRounds id interval k

/-- The mutating calls among the events of a result. -/
def mutatingCalls (evs : List Event) : List Event := evs.filter Event.isMutating

/-- The number of status fetches among the events. -/
def statusFetches (evs : List Event) : Nat := evs.countP Event.isStatusFetch

/-- The number of sleeps among the events. -/
def sleeps (evs : List Event) : Nat := evs.countP Event.isSleep

/-- A remote whose status answers are the given list, `ongoing` afterwards, and
whose operator answers every prompt with `answer`. -/
def scriptedRemote (statuses : List String) (answer : String) : Remote :=
  { resourceLabel := fun _ => "testinfra",
    operatorResponse := fun _ => answer,
    deploy := fun _ _ _ => none,
    delete := fun _ => none,
    cancel := fun _ => none,
    status := fun n => .ok (statuses.getD n "ongoing") }

/-! ## Part II. Command handlers

The handlers have the Go signature `func(c *Command, client MetalCloudClient)
(string, error)`. The remote client is a record of answers; every call made on
it is appended to a trace. A Go `error` is its text, `none` standing for `nil`.
-/

/-! ### Go library functions used by the handlers -/

/-- The value of a string of ASCII digits read in base 10. -/
def digitsValue (ds : List Char) : Nat :=
  ds.foldl (fun n c => 10 * n + (c.toNat - '0'.toNat)) 0

/-- The size of Go's `int` (`strconv.IntSize`) on the 64-bit platforms the
client is built for. -/
def intSize : Nat := 64

/-- The largest `int`. -/
def maxInt : Int := 2 ^ (intSize - 1) - 1

/-- The smallest `int`. -/
def minInt : Int := -(2 ^ (intSize - 1))

/-- The two errors of `strconv`: `ErrSyntax` and `ErrRange`. -/
inductive NumError where
  | syntaxError
  | rangeError
  deriving DecidableEq, Repr

/-- Go's `strconv.Atoi` (that is `ParseInt(s, 10, 0)`): an optional sign `+` or
`-` followed by one or more ASCII digits, nothing else. On a syntax error the
value is 0; when the number does not fit `int` the error is `ErrRange` and the
value is the nearest `int`. -/
def Atoi (s : String) : Int × Option NumError :=
  let body : Bool × List Char :=
    match s.data with
    | '-' :: rest => (true, rest)
    | '+' :: rest => (false, rest)
    | cs => (false, cs)
  if body.2 = [] ∨ ¬ body.2.all Char.isDigit = true then (0, some .syntaxError)
  else if body.1 then
    (if (2 : Int) ^ (intSize - 1) < digitsValue body.2 then (minInt, some .rangeError)
     else (-(digitsValue body.2 : Int), none))
  else
    (if (2 : Int) ^ (intSize - 1) ≤ digitsValue body.2 then (maxInt, some .rangeError)
     else ((digitsValue body.2 : Int), none))

/-- Go's `regexp.MustCompile("^(\d+)\-(\d+)$").FindStringSubmatch(s)`, giving the
two groups of the match: the pattern is anchored at both ends, `\d` is an ASCII
digit, and a digit is never a dash, so the first group is the whole run of
leading digits, followed by one dash and by digits up to the end of the text. -/
def findPortRangeSubmatch (s : String) : Option (String × String) :=
  match s.data.dropWhile Char.isDigit with
  | '-' :: rest =>
    if s.data.takeWhile Char.isDigit ≠ [] ∧ rest ≠ [] ∧ rest.all Char.isDigit = true then
      some (String.mk (s.data.takeWhile Char.isDigit), String.mk rest)
    else none
  | _ => none

/-- Go's `strings.Split(s, sep)` for a separator of one character, on the
characters of the string: the pieces between the separators, `n + 1` pieces for
`n` separators (one empty piece for the empty string). -/
def splitChars (sep : Char) : List Char → List (List Char)
  | [] => [[]]
  | c :: cs =>
    if c = sep then [] :: splitChars sep cs
    else
      match splitChars sep cs with
      | [] => [[c]]
      | piece :: pieces => (c :: piece) :: pieces

/-- Go's `strings.Split(s, sep)` for a separator of one character. -/
def stringsSplit (s : String) (sep : Char) : List String :=
  (splitChars sep s.data).map String.mk

/-- Go's `strings.Join`. -/
def stringsJoin (parts : List String) (sep : String) : String :=
  sep.intercalate parts

/-- Go's `strings.HasSuffix`. -/
def stringsHasSuffix (s suffix : String) : Bool :=
  suffix.data.isSuffixOf s.data

/-- Go's `strings.Contains`: `substr` starts at some position of `s`. -/
def stringsContains (s substr : String) : Bool :=
  s.data.tails.any (fun t => substr.data.isPrefixOf t)

/-! ### `pkg/firewall`: parsing of the `-port` flag -/

/-- `portStringToRange` of `pkg/firewall/cmd_firewall_rule.go`, returning
`(start, end, err)`. -/
def portStringToRange (s : String) : Int × Int × Option String :=
  if (Atoi s).2 = none ∧ (Atoi s).1 > 0 then
    ((Atoi s).1, (Atoi s).1, none)
  else
    match findPortRangeSubmatch s with
    | none => (0, 0, some ("Could not parse port definition " ++ s))
    | some (m1, m2) =>
      if (Atoi m1).2 ≠ none ∧ (Atoi m1).1 > 0 then
        (0, 0, some ("Could not parse port definition " ++ s))
      else if (Atoi m2).2 ≠ none ∧ (Atoi m2).1 > 0 then
        (0, 0, some ("Could not parse port definition " ++ s))
      else
        ((Atoi m1).1, (Atoi m2).1, none)

/-- `addressStringToRange` of `pkg/firewall/cmd_firewall_rule.go`, returning
`(start, end, err)`. -/
def addressStringToRange (s : String) : String × String × Option String :=
  if s = "" then ("", "", some "address cannot be empty")
  else
    match stringsSplit s '-' with
    | [c0] =>
      if c0 ≠ "" then (s, s, none)
      else ("", "", some ("cannot parse address " ++ s))
    | [c0, c1] =>
      if c0 = "" ∨ c1 = "" then ("", "", some ("cannot parse address " ++ s))
      else (c0, c1, none)
    | _ => ("", "", some ("cannot parse address " ++ s))

/-- A string is a decimal integer `n`: an optional sign followed by one or more
decimal digits, denoting `n`, with `n` in the range of `int`. -/
def IsDecimalInteger (s : String) (n : Int) : Prop :=
  ∃ ds : List Char, ds ≠ [] ∧ (∀ c ∈ ds, c.isDigit = true) ∧
    ((s.data = ds ∨ s.data = '+' :: ds) ∧ n = digitsValue ds ∨
      s.data = '-' :: ds ∧ n = -(digitsValue ds : Int)) ∧
    minInt ≤ n ∧ n ≤ maxInt

/-- A string has the form `a-b`, with `a` and `b` non-empty strings of decimal
digits whose values are in the range of `int`. -/
def IsPortRangeText (s : String) (a b : List Char) : Prop :=
  s.data = a ++ '-' :: b ∧ a ≠ [] ∧ b ≠ [] ∧
    (∀ c ∈ a, c.isDigit = true) ∧ (∀ c ∈ b, c.isDigit = true) ∧
    (digitsValue a : Int) ≤ maxInt ∧ (digitsValue b : Int) ≤ maxInt

/-! ### The SDK's data, as far as the handlers read or write it -/

/-- `metalcloud.Workflow`. -/
structure Workflow where
  WorkflowID : Int
  WorkflowLabel : String
  WorkflowTitle : String
  WorkflowUsage : String
  WorkflowDescription : String
  WorkflowIsDeprecated : Bool
  IconAssetDataURI : String
  deriving DecidableEq, Repr

/-- `metalcloud.WorkflowStageDefinitionReference`. -/
structure WorkflowStageDefinitionReference where
  WorkflowStageID : Int
  WorkflowID : Int
  StageDefinitionID : Int
  WorkflowStageRunLevel : Int
  deriving DecidableEq, Repr

/-- `metalcloud.StageDefinition`. -/
structure StageDefinition where
  StageDefinitionID : Int
  StageDefinitionLabel : String
  StageDefinitionTitle : String
  deriving DecidableEq, Repr

/-- `metalcloud.FirewallRule`. -/
structure FirewallRule where
  FirewallRuleDescription : String
  FirewallRulePortRangeStart : Int
  FirewallRulePortRangeEnd : Int
  FirewallRuleSourceIPAddressRangeStart : String
  FirewallRuleSourceIPAddressRangeEnd : String
  FirewallRuleDestinationIPAddressRangeStart : String
  FirewallRuleDestinationIPAddressRangeEnd : String
  FirewallRuleProtocol : String
  FirewallRuleIPAddressType : String
  FirewallRuleEnabled : Bool
  deriving DecidableEq, Repr

/-- `metalcloud.InstanceArrayOperation`. -/
structure InstanceArrayOperation where
  InstanceArrayID : Int
  InstanceArrayLabel : String
  InstanceArrayDeployType : String
  InstanceArrayDeployStatus : String
  InstanceArrayFirewallManaged : Bool
  InstanceArrayFirewallRules : List FirewallRule
  deriving DecidableEq, Repr

/-- `metalcloud.InstanceArray`; the SDK fills `InstanceArrayOperation` on every
instance array it returns. -/
structure InstanceArray where
  InstanceArrayID : Int
  InstanceArrayLabel : String
  InstanceArrayServiceStatus : String
  InstanceArrayOperation : InstanceArrayOperation
  deriving DecidableEq, Repr

/-- `metalcloud.OperatingSystem`. -/
structure OperatingSystem where
  OperatingSystemType : String
  OperatingSystemVersion : String
  OperatingSystemArchitecture : String
  deriving DecidableEq, Repr

/-- `metalcloud.NetworkOperatingSystem`. -/
structure NetworkOperatingSystem where
  OperatingSystemArchitecture : String
  OperatingSystemDatacenterName : String
  OperatingSystemMachine : String
  OperatingSystemSwitchDriver : String
  OperatingSystemSwitchRole : String
  OperatingSystemVendor : String
  OperatingSystemVersion : String
  deriving DecidableEq, Repr

/-- `metalcloud.VolumeTemplate`. -/
structure VolumeTemplate where
  VolumeTemplateID : Int
  VolumeTemplateLabel : String
  VolumeTemplateSizeMBytes : Int
  VolumeTemplateDisplayName : String
  VolumeTemplateDescription : String
  VolumeTemplateLocalDiskSupported : Bool
  VolumeTemplateBootMethodsSupported : String
  VolumeTemplateDeprecationStatus : String
  VolumeTemplateTags : List String
  VolumeTemplateBootType : String
  VolumeTemplateOsBootstrapFunctionName : String
  VolumeTemplateVersion : String
  VolumeTemplateOSReadyMethod : String
  VolumeTemplateOperatingSystem : OperatingSystem
  deriving DecidableEq, Repr

/-- The zero value of `metalcloud.OperatingSystem`. -/
def OperatingSystem.zero : OperatingSystem := ⟨"", "", ""⟩

/-- The zero value of `metalcloud.NetworkOperatingSystem`. -/
def NetworkOperatingSystem.zero : NetworkOperatingSystem := ⟨"", "", "", "", "", "", ""⟩

/-- The zero value of `metalcloud.VolumeTemplate`. -/
def VolumeTemplate.zero : VolumeTemplate :=
  ⟨0, "", 0, "", "", false, "", "", [], "", "", "", "", OperatingSystem.zero⟩

/-- The zero value of `metalcloud.FirewallRule`. -/
def FirewallRule.zero : FirewallRule := ⟨"", 0, 0, "", "", "", "", "", "", false⟩

/-- `metalcloud.User`. -/
structure User where
  UserID : Int
  UserEmail : String
  deriving DecidableEq, Repr

/-- `metalcloud.Datacenter`. -/
structure Datacenter where
  DatacenterName : String
  DatacenterDisplayName : String
  UserID : Int
  DatacenterIsMaster : Bool
  DatacenterIsMaintenance : Bool
  DatacenterHidden : Bool
  DatacenterTags : List String
  DatacenterNameParent : String
  DatacenterType : String
  DatacenterCreatedTimestamp : String
  DatacenterUpdatedTimestamp : String
  deriving DecidableEq, Repr

/-- `metalcloud.DatacenterConfig`. The handlers never look inside it: they pass it
between the client and the marshallers. It is kept as an uninterpreted value. -/
structure DatacenterConfig where
  raw : String
  deriving DecidableEq, Repr

/-! ### The command, the client and the ambient functions -/

/-- A non-nil value of `c.Arguments`: a pointer to an `int`, a `string` or a
`bool`, as `flag.FlagSet` and the tests store them. -/
inductive Arg where
  | int (n : Int)
  | str (s : String)
  | bool (b : Bool)
  deriving DecidableEq, Repr

/-- `command.Command`, of which the handlers read `Arguments` only; `none` is a
missing or nil entry. -/
structure Command where
  Arguments : String → Option Arg

/-- A cell of a table row (`interface{}`). -/
inductive Cell where
  | int (n : Int)
  | str (s : String)
  | bool (b : Bool)
  | config (c : DatacenterConfig)
  deriving DecidableEq, Repr

/-- The field types of `tableformatter`. -/
inductive FieldKind where
  | TypeInt
  | TypeString
  | TypeBool
  | TypeInterface
  deriving DecidableEq, Repr

/-- `tableformatter.SchemaField`. -/
structure SchemaField where
  FieldName : String
  FieldType : FieldKind
  FieldSize : Nat
  deriving DecidableEq, Repr

/-- `tableformatter.Table`. -/
structure Table where
  Data : List (List Cell)
  Schema : List SchemaField
  deriving DecidableEq, Repr

/-- A call a handler makes on its collaborators, with its arguments. All but
`requestConfirmation` are calls on the remote client. -/
inductive Call where
  | WorkflowGet (id : Int)
  | Workflows
  | WorkflowCreate (wf : Workflow)
  | WorkflowDelete (id : Int)
  | WorkflowStageGet (id : Int)
  | WorkflowStageDelete (id : Int)
  | StageDefinitionGet (id : Int)
  | InstanceArrayGet (id : Int)
  | InstanceArrayEdit (id : Int) (op : InstanceArrayOperation)
  | VolumeTemplateGet (id : Int)
  | VolumeTemplates
  | VolumeTemplateCreateFromDrive (driveID : Int) (vt : VolumeTemplate)
  | VolumeTemplateMakePublic (id : Int) (osBootstrapFunctionName : String)
  | UserGet (id : Int)
  | UserGetByEmail (email : String)
  | DatacenterCreate (dc : Datacenter) (conf : DatacenterConfig)
  | DatacenterGet (name : String)
  | DatacenterAgentsConfigJSONDownloadURL (name : String) (decrypt : Bool)
  | DatacenterConfigGet (name : String)
  | DatacenterConfigUpdate (name : String) (conf : DatacenterConfig)
  | requestConfirmation (message : String)
  deriving DecidableEq, Repr

/-- Calls on the remote client. -/
def Call.isRemote : Call → Bool
  | .requestConfirmation _ => false
  | _ => true

/-- The endpoints that change the remote state. -/
def Call.isMutating : Call → Bool
  | .WorkflowCreate _ => true
  | .WorkflowDelete _ => true
  | .WorkflowStageDelete _ => true
  | .InstanceArrayEdit _ _ => true
  | .VolumeTemplateCreateFromDrive _ _ => true
  | .VolumeTemplateMakePublic _ _ => true
  | .DatacenterCreate _ _ => true
  | .DatacenterConfigUpdate _ _ => true
  | _ => false

/-- Calls of `requestConfirmation`. -/
def Call.isConfirmation : Call → Bool
  | .requestConfirmation _ => true
  | _ => false

/-- `metalcloud.MetalCloudClient`: what the remote answers to each call. A
method returning `(T, error)` answers `Except String T`; one returning `error`
answers `Option String`, `none` being `nil`. -/
structure Client where
  WorkflowGet : Int → Except String Workflow
  Workflows : Except String (List Workflow)
  WorkflowCreate : Workflow → Except String Workflow
  WorkflowDelete : Int → Option String
  WorkflowStageGet : Int → Except String WorkflowStageDefinitionReference
  WorkflowStageDelete : Int → Option String
  StageDefinitionGet : Int → Except String StageDefinition
  InstanceArrayGet : Int → Except String InstanceArray
  InstanceArrayEdit : Int → InstanceArrayOperation → Except String InstanceArray
  VolumeTemplateGet : Int → Except String VolumeTemplate
  VolumeTemplates : Except String (List VolumeTemplate)
  VolumeTemplateCreateFromDrive : Int → VolumeTemplate → Except String VolumeTemplate
  VolumeTemplateMakePublic : Int → String → Option String
  UserGet : Int → Except String User
  UserGetByEmail : String → Except String User
  DatacenterCreate : Datacenter → DatacenterConfig → Except String Datacenter
  DatacenterGet : String → Except String Datacenter
  DatacenterAgentsConfigJSONDownloadURL : String → Bool → Except String String
  DatacenterConfigGet : String → Except String DatacenterConfig
  DatacenterConfigUpdate : String → DatacenterConfig → Option String

/-- The functions the handlers use that are declared outside the sources at
hand, taken as parameters: the helpers of package `command` (named
`getStringParam`, ... in the older `cmd_workflows.go`), `requestConfirmation`,
the readers of package `configuration`, `os.Args[0]`, the `json`, `yaml`, `jq`
and `tableformatter` libraries, and the text `fmt` gives a firewall rule under
the verb `%v`. A Go result `(T, error)` is `Except String
T` and a result `(T, bool)` is the pair. -/
structure World where
  NilDefaultStr : String
  GetStringParam : Option Arg → String
  GetStringParamOk : Option Arg → String × Bool
  GetBoolParam : Option Arg → Bool
  GetIntParamOk : Option Arg → Int × Bool
  GetParam : Command → String → String → Except String Arg
  IdOrLabel : Arg → Int × String × Bool
  IdOrLabelString : String → Int × String × Bool
  requestConfirmation : String → Bool × Option String
  osArgs0 : String
  ReadInputFromPipe : Except String (List UInt8)
  ReadInputFromFile : String → Except String (List UInt8)
  jsonUnmarshal : List UInt8 → Except String DatacenterConfig
  yamlUnmarshal : List UInt8 → Except String DatacenterConfig
  jsonMarshalIndent : DatacenterConfig → Except String String
  yamlMarshal : DatacenterConfig → Except String String
  jqParse : String → Except String (String → String)
  TableSort : List SchemaField → String → List (List Cell) → List (List Cell)
  RenderTable : Table → String → String → String → String × Option String
  RenderTableAsJSON : Table → String × Option String
  RenderTableAsCSV : Table → String × Option String
  RenderTableAsYAML : Table → String × Option String
  FormatFirewallRule : FirewallRule → String

/-- What a handler returns: `(string, error)`. -/
abbrev GoRet := String × Option String

/-- A computation that makes calls: from the trace of the calls made so far to
its result and the extended trace. The result is `none` when the computation
panics (a failed type assertion). -/
def M (α : Type) : Type := List Call → Option α × List Call

/-- Sequencing: a panic ends the computation. -/
def M.bind {α β : Type} (m : M α) (f : α → M β) : M β := fun t =>
  match m t with
  | (some a, t1) => f a t1
  | (none, t1) => (none, t1)

/-- A computation that makes no call. -/
def M.pure {α : Type} (a : α) : M α := fun t => (some a, t)

instance : Monad M where
  pure := M.pure
  bind := M.bind

/-- A call with its answer: the call is appended to the trace. -/
def remote {α : Type} (c : Call) (answer : α) : M α := fun t => (some answer, t ++ [c])

/-- A Go run-time panic. -/
def goPanic {α : Type} : M α := fun t => (none, t)

/-- Running a handler from the empty trace. -/
def M.run {α : Type} (m : M α) : Option α × List Call := m []

/-- The type assertion `*v.(*bool)`. -/
def Arg.asBool : Arg → M Bool
  | .bool b => pure b
  | _ => goPanic

/-! ### `cmd_workflows.go` -/

/-- `getWorkflowFromCommand` of `cmd_workflows.go`. The list answered by
`Workflows()` is in the order the `range` loop visits it. -/
def getWorkflowFromCommand (w : World) (paramName : String) (c : Command) (client : Client) :
    M (Except String Workflow) := do
  match w.GetParam c "workflow_id_or_label" paramName with
  | .error err => return .error err
  | .ok v =>
    if (w.IdOrLabel v).2.2 then
      return ← remote (.WorkflowGet (w.IdOrLabel v).1) (client.WorkflowGet (w.IdOrLabel v).1)
    match ← remote .Workflows client.Workflows with
    | .error err => return .error err
    | .ok list =>
      match list.find? (fun s => s.WorkflowLabel == (w.IdOrLabel v).2.1) with
      | some s => return .ok s
      | none =>
        if (w.IdOrLabel v).2.2 then
          return .error ("workflow " ++ toString (w.IdOrLabel v).1 ++ " not found")
        return .error ("workflow " ++ (w.IdOrLabel v).2.1 ++ " not found")

/-- `workflowDeleteCmd` of `cmd_workflows.go`. -/
def workflowDeleteCmd (w : World) (c : Command) (client : Client) : M GoRet := do
  match ← getWorkflowFromCommand w "id" c client with
  | .error err => return ("", some err)
  | .ok ret =>
    let mut confirm := false
    if w.GetBoolParam (c.Arguments "autoconfirm") then
      confirm := true
    else
      let mut confirmationMessage :=
        "Deleting workflow  " ++ ret.WorkflowTitle ++ " (" ++ toString ret.WorkflowID ++
          ").  Are you sure? Type \"yes\" to continue:"
      if stringsHasSuffix w.osArgs0 ".test" then
        confirmationMessage := ""
      let answer ← remote (.requestConfirmation confirmationMessage)
        (w.requestConfirmation confirmationMessage)
      confirm := answer.1
      if let some err := answer.2 then
        return ("", some err)
    if !confirm then
      return ("", some "Operation not confirmed. Aborting")
    let err ← remote (.WorkflowDelete ret.WorkflowID) (client.WorkflowDelete ret.WorkflowID)
    return ("", err)

/-- `workflowDeleteStageCmd` of `cmd_workflows.go`. -/
def workflowDeleteStageCmd (w : World) (c : Command) (client : Client) : M GoRet := do
  let (workflowStageID, ok) := w.GetIntParamOk (c.Arguments "workflow_stage_id")
  if !ok then
    return ("", some "-id is required (workflow-stage-id (WSI) number returned by get workflow")
  match ← remote (.WorkflowStageGet workflowStageID) (client.WorkflowStageGet workflowStageID) with
  | .error err => return ("", some err)
  | .ok workflowStage =>
    let mut confirm := w.GetBoolParam (c.Arguments "autoconfirm")
    if !confirm then
      match ← remote (.WorkflowGet workflowStage.WorkflowID)
          (client.WorkflowGet workflowStage.WorkflowID) with
      | .error err => return ("", some err)
      | .ok wf =>
        match ← remote (.StageDefinitionGet workflowStage.StageDefinitionID)
            (client.StageDefinitionGet workflowStage.StageDefinitionID) with
        | .error err => return ("", some err)
        | .ok sd =>
          let mut confirmationMessage :=
            "Deleting stage " ++ wf.WorkflowTitle ++ " (" ++ toString wf.WorkflowID ++
              ") from workflow " ++ sd.StageDefinitionTitle ++ " (" ++
              toString sd.StageDefinitionID ++ ").  Are you sure? Type \"yes\" to continue:"
          if stringsHasSuffix w.osArgs0 ".test" then
            confirmationMessage := ""
          let answer ← remote (.requestConfirmation confirmationMessage)
            (w.requestConfirmation confirmationMessage)
          confirm := answer.1
          if let some err := answer.2 then
            return ("", some err)
    if !confirm then
      return ("", some "Operation not confirmed. Aborting")
    let err ← remote (.WorkflowStageDelete workflowStageID)
      (client.WorkflowStageDelete workflowStageID)
    return ("", err)

/-! ### `pkg/firewall/cmd_firewall_rule.go` -/

/-- The schema of the table of `volumeTemplatesListCmd`. -/
def volumeTemplatesListSchema : List SchemaField :=
  [ ⟨"ID", .TypeInt, 6⟩, ⟨"LABEL", .TypeString, 20⟩, ⟨"NAME", .TypeString, 20⟩,
    ⟨"SIZE", .TypeInt, 6⟩, ⟨"STATUS", .TypeString, 20⟩, ⟨"FLAGS", .TypeString, 10⟩ ]

/-- The loop of `volumeTemplatesListCmd` that builds the rows. The list is in
the order the `range` loop visits it. -/
def volumeTemplatesListRows (localOnly pxeOnly : Bool) (vList : List VolumeTemplate) :
    List (List Cell) :=
  Id.run do
    let mut data : List (List Cell) := []
    for v in vList do
      if localOnly && !v.VolumeTemplateLocalDiskSupported then
        continue
      if pxeOnly && !stringsContains v.VolumeTemplateBootMethodsSupported "pxe_iscsi" then
        continue
      let mut flags : List String := []
      flags := flags ++ stringsSplit v.VolumeTemplateBootMethodsSupported ','
      if v.VolumeTemplateLocalDiskSupported then
        flags := flags ++ ["local"]
      data := data ++ [[
        .int v.VolumeTemplateID,
        .str v.VolumeTemplateLabel,
        .str v.VolumeTemplateDisplayName,
        .int v.VolumeTemplateSizeMBytes,
        .str v.VolumeTemplateDeprecationStatus,
        .str (stringsJoin flags ",")]]
    return data

/-- The expression `c.Arguments[key] != nil && *c.Arguments[key].(*bool)`. -/
def boolArgument (c : Command) (key : String) : M Bool :=
  match c.Arguments key with
  | none => pure false
  | some v => v.asBool

/-- `volumeTemplatesListCmd` of `pkg/volumetemplate/cmd_volume_templates.go`. -/
def volumeTemplatesListCmd (w : World) (c : Command) (client : Client) : M GoRet := do
  match ← remote .VolumeTemplates client.VolumeTemplates with
  | .error err => return ("", some err)
  | .ok vList =>
    let schema := volumeTemplatesListSchema
    let localOnly ← boolArgument c "local_only"
    let pxeOnly ← boolArgument c "pxe_only"
    let mut data := volumeTemplatesListRows localOnly pxeOnly vList
    data := w.TableSort schema "ID" data
    let table : Table := { Data := data, Schema := schema }
    return w.RenderTable table "Volume templates" "" (w.GetStringParam (c.Arguments "format"))

/-- `getOperatingSystemFromCommand` of
`pkg/volumetemplate/cmd_volume_templates.go`. -/
def getOperatingSystemFromCommand (w : World) (c : Command) : Except String OperatingSystem :=
  Id.run do
    let mut operatingSystem := OperatingSystem.zero
    let mut present := false
    if (w.GetStringParamOk (c.Arguments "os_type")).2 then
      present := true
      operatingSystem := { operatingSystem with
        OperatingSystemType := (w.GetStringParamOk (c.Arguments "os_type")).1 }
    if (w.GetStringParamOk (c.Arguments "os_version")).2 then
      if !present then
        return .error "some of the operating system flags are missing"
      operatingSystem := { operatingSystem with
        OperatingSystemVersion := (w.GetStringParamOk (c.Arguments "os_version")).1 }
    else if present then
      return .error "os-version is required"
    if (w.GetStringParamOk (c.Arguments "os_architecture")).2 then
      if !present then
        return .error "some of the operating system flags are missing"
      operatingSystem := { operatingSystem with
        OperatingSystemArchitecture := (w.GetStringParamOk (c.Arguments "os_architecture")).1 }
    else if present then
      return .error "os-architecture is required"
    return .ok operatingSystem

/-- `getNetworkOperatingSystemFromCommand` of
`pkg/volumetemplate/cmd_volume_templates.go`. -/
def getNetworkOperatingSystemFromCommand (w : World) (c : Command) :
    Except String NetworkOperatingSystem :=
  Id.run do
    let mut networkOperatingSystem := NetworkOperatingSystem.zero
    let nosSwitchDriver := w.GetStringParam (c.Arguments "network_os_switch_driver")
    if nosSwitchDriver ≠ "" then
      networkOperatingSystem := { networkOperatingSystem with
        OperatingSystemSwitchDriver := nosSwitchDriver }
    else
      return .error "network-os-switch-driver is required"
    let nosSwitchRole := w.GetStringParam (c.Arguments "network_os_switch_role")
    if nosSwitchRole ≠ "" then
      networkOperatingSystem := { networkOperatingSystem with
        OperatingSystemSwitchRole := nosSwitchRole }
    let nosVersion := w.GetStringParam (c.Arguments "network_os_version")
    if nosVersion ≠ "" then
      networkOperatingSystem := { networkOperatingSystem with
        OperatingSystemVersion := nosVersion }
    else
      return .error "network-os-version is required"
    let nosArchitecture := w.GetStringParam (c.Arguments "network_os_architecture")
    if nosArchitecture ≠ "" then
      networkOperatingSystem := { networkOperatingSystem with
        OperatingSystemArchitecture := nosArchitecture }
    else
      return .error "network-os-architecture is required"
    let nosVendor := w.GetStringParam (c.Arguments "network_os_vendor")
    if nosVendor ≠ "" then
      networkOperatingSystem := { networkOperatingSystem with
        OperatingSystemVendor := nosVendor }
    else
      return .error "network-os-vendor is required"
    let nosMachine := w.GetStringParam (c.Arguments "network_os_machine")
    if nosMachine ≠ "" then
      networkOperatingSystem := { networkOperatingSystem with
        OperatingSystemMachine := nosMachine }
    else
      return .error "network-os-machine is required"
    let nosDatacenterName := w.GetStringParam (c.Arguments "network_os_datacenter_name")
    if nosDatacenterName ≠ "" then
      networkOperatingSystem := { networkOperatingSystem with
        OperatingSystemDatacenterName := nosDatacenterName }
    return .ok networkOperatingSystem

/-- `volumeTemplateCreateFromDriveCmd` of
`pkg/volumetemplate/cmd_volume_templates.go`. -/
def volumeTemplateCreateFromDriveCmd (w : World) (c : Command) (client : Client) : M GoRet := do
  let mut objVolumeTemplate : VolumeTemplate :=
    { VolumeTemplate.zero with
      VolumeTemplateDeprecationStatus := w.GetStringParam (c.Arguments "deprecation_status"),
      VolumeTemplateBootMethodsSupported :=
        w.GetStringParam (c.Arguments "boot_methods_supported"),
      VolumeTemplateTags := stringsSplit (w.GetStringParam (c.Arguments "tags")) ',',
      VolumeTemplateBootType := w.GetStringParam (c.Arguments "boot_type"),
      VolumeTemplateOsBootstrapFunctionName :=
        w.GetStringParam (c.Arguments "os_bootstrap_function_name"),
      VolumeTemplateVersion := w.GetStringParam (c.Arguments "version"),
      VolumeTemplateOSReadyMethod := w.GetStringParam (c.Arguments "os_ready_method") }
  let (driveID, ok) := w.GetIntParamOk (c.Arguments "drive_id")
  if !ok then
    return ("", some "-id is required (drive id)")
  if (w.GetStringParamOk (c.Arguments "label")).2 then
    objVolumeTemplate := { objVolumeTemplate with
      VolumeTemplateLabel := (w.GetStringParamOk (c.Arguments "label")).1 }
  else
    return ("", some "-label is required")
  if (w.GetStringParamOk (c.Arguments "description")).2 then
    objVolumeTemplate := { objVolumeTemplate with
      VolumeTemplateDescription := (w.GetStringParamOk (c.Arguments "description")).1 }
  else
    return ("", some "-description is required")
  if (w.GetStringParamOk (c.Arguments "display_name")).2 then
    objVolumeTemplate := { objVolumeTemplate with
      VolumeTemplateDisplayName := (w.GetStringParamOk (c.Arguments "display_name")).1 }
  else
    return ("", some "-name is required")
  match getOperatingSystemFromCommand w c with
  | .error err => return ("", some err)
  | .ok os =>
    objVolumeTemplate := { objVolumeTemplate with VolumeTemplateOperatingSystem := os }
    match ← remote (.VolumeTemplateCreateFromDrive driveID objVolumeTemplate)
        (client.VolumeTemplateCreateFromDrive driveID objVolumeTemplate) with
    | .error err => return ("", some err)
    | .ok ret =>
      if w.GetBoolParam (c.Arguments "return_id") then
        return (toString ret.VolumeTemplateID, none)
      return ("", none)

/-- The first five columns of the table of `datacenterGetCmd`. -/
def datacenterGetSchema : List SchemaField :=
  [ ⟨"LABEL", .TypeString, 15⟩, ⟨"TITLE", .TypeString, 20⟩, ⟨"OWNER", .TypeString, 10⟩,
    ⟨"PARENT", .TypeString, 10⟩, ⟨"FLAGS", .TypeString, 20⟩ ]

/-- The assignment `data[0][5] = v` on the one-row table of `datacenterGetCmd`. -/
def setRow0Cell5 (data : List (List Cell)) (v : Cell) : List (List Cell) :=
  match data with
  | [] => []
  | row :: rest => row.set 5 v :: rest

/-- `datacenterGetCmd` of `pkg/datacenter/cmd_datacenter.go`. -/
def datacenterGetCmd (w : World) (c : Command) (client : Client) : M GoRet := do
  let (datacenterName, ok) := w.GetStringParamOk (c.Arguments "datacenter_name")
  if !ok then
    return ("", some "-id required")
  match ← remote (.DatacenterGet datacenterName) (client.DatacenterGet datacenterName) with
  | .error err => return ("", some err)
  | .ok retDC =>
    let mut schema := datacenterGetSchema
    let mut flags : List String := []
    if retDC.DatacenterIsMaster then
      flags := flags ++ ["MASTER"]
    if retDC.DatacenterIsMaintenance then
      flags := flags ++ ["MAINTENANCE"]
    if retDC.DatacenterHidden then
      flags := flags ++ ["HIDDEN"]
    flags := flags ++ retDC.DatacenterTags
    let mut userStr := ""
    if retDC.UserID ≠ 0 then
      match ← remote (.UserGet retDC.UserID) (client.UserGet retDC.UserID) with
      | .error err => return ("", some err)
      | .ok user => userStr := user.UserEmail ++ " #" ++ toString retDC.UserID
    let showSecretURL := w.GetBoolParam (c.Arguments "show_secret_config_url")
    let mut secretConfigURL := ""
    if showSecretURL || w.GetBoolParam (c.Arguments "return_config_url") then
      schema := schema ++ [⟨"CONFIG_URL", .TypeString, 15⟩]
      match ← remote (.DatacenterAgentsConfigJSONDownloadURL datacenterName true)
          (client.DatacenterAgentsConfigJSONDownloadURL datacenterName true) with
      | .error err => return ("", some err)
      | .ok url => secretConfigURL := url
    let format := w.GetStringParam (c.Arguments "format")
    schema := schema ++ [⟨"CONFIG", .TypeInterface, 15⟩]
    match ← remote (.DatacenterConfigGet datacenterName)
        (client.DatacenterConfigGet datacenterName) with
    | .error err => return ("", some err)
    | .ok config =>
      match w.yamlMarshal config with
      | .error err => return ("", some err)
      | .ok configStr =>
        let mut data : List (List Cell) :=
          [[ .str retDC.DatacenterName, .str retDC.DatacenterDisplayName, .str userStr,
             .str retDC.DatacenterNameParent, .str (stringsJoin flags " "),
             .str secretConfigURL, .config config ]]
        if format = "json" ∨ format = "JSON" then
          match w.jsonMarshalIndent config with
          | .error err => return ("", some err)
          | .ok configBytes =>
            let (jsonPath, ok) := w.GetStringParamOk (c.Arguments "json_path")
            if ok then
              match w.jqParse jsonPath with
              | .error err => return ("", some err)
              | .ok op => data := setRow0Cell5 data (.str (op configBytes))
            else
              data := setRow0Cell5 data (.str configBytes)
            let rendered := w.RenderTableAsJSON { Data := data, Schema := schema }
            if let some err := rendered.2 then
              return ("", some err)
            return (rendered.1, none)
        else if format = "csv" ∨ format = "CSV" then
          let rendered := w.RenderTableAsCSV { Data := data, Schema := schema }
          if let some err := rendered.2 then
            return ("", some err)
          return (rendered.1, none)
        else if format = "yaml" ∨ format = "YAML" then
          match w.yamlMarshal config with
          | .error err => return ("", some err)
          | .ok configBytes =>
            data := setRow0Cell5 data (.str configBytes)
            let rendered := w.RenderTableAsYAML { Data := data, Schema := schema }
            if let some err := rendered.2 then
              return ("", some err)
            return (rendered.1, none)
        else
          if w.GetBoolParam (c.Arguments "return_config_url") then
            return (secretConfigURL, none)
          let mut sb := "DATACENTER OVERVIEW\n"
          sb := sb ++ "-------------------\n"
          sb := sb ++ ("Datacenter name (label): " ++ retDC.DatacenterName ++ "\n")
          sb := sb ++ ("Datacenter display name (title): " ++ retDC.DatacenterDisplayName ++ "\n")
          sb := sb ++ ("User: " ++ userStr ++ "\n")
          sb := sb ++ ("Flags: " ++ stringsJoin flags " " ++ "\n")
          sb := sb ++ ("Parent: " ++ retDC.DatacenterNameParent ++ "\n")
          sb := sb ++ ("Type: " ++ retDC.DatacenterType ++ "\n")
          sb := sb ++ ("Created: " ++ retDC.DatacenterCreatedTimestamp ++ "\n")
          sb := sb ++ ("Updated: " ++ retDC.DatacenterUpdatedTimestamp ++ "\n")
          sb := sb ++ "\n"
          sb := sb ++ "Configuration\n"
          sb := sb ++ "---------------\n"
          sb := sb ++ configStr
          if showSecretURL then
            sb := sb ++ "---------------\n"
            sb := sb ++ ("Datacenter Agents Secret Config URL: " ++ secretConfigURL ++ "\n")
          return (sb, none)

/-- The flags `datacenterGetCmd` collects for a datacenter. -/
def datacenterGetFlags (retDC : Datacenter) : List String :=
  (if retDC.DatacenterIsMaster then ["MASTER"] else []) ++
    (if retDC.DatacenterIsMaintenance then ["MAINTENANCE"] else []) ++
    (if retDC.DatacenterHidden then ["HIDDEN"] else []) ++ retDC.DatacenterTags

/-- The text `datacenterGetCmd` shows for the owner `u` of a datacenter: empty
when the datacenter has no owner. -/
def datacenterGetUserText (retDC : Datacenter) (u : User) : String :=
  if retDC.UserID = 0 then "" else u.UserEmail ++ " #" ++ toString retDC.UserID

/-- The one row of the table of `datacenterGetCmd`, with `cell5` at index 5. -/
def datacenterGetRow (retDC : Datacenter) (u : User) (cell5 : Cell) (config : DatacenterConfig) :
    List Cell :=
  [ .str retDC.DatacenterName, .str retDC.DatacenterDisplayName,
    .str (datacenterGetUserText retDC u), .str retDC.DatacenterNameParent,
    .str (stringsJoin (datacenterGetFlags retDC) " "), cell5, .config config ]

/-- The reads of `datacenterGetCmd` when the config url is asked for. -/
def datacenterGetReads (retDC : Datacenter) (datacenterName : String) : List Call :=
  [.DatacenterGet datacenterName] ++
    (if retDC.UserID = 0 then [] else [.UserGet retDC.UserID]) ++
    [.DatacenterAgentsConfigJSONDownloadURL datacenterName true,
      .DatacenterConfigGet datacenterName]

/-- What `datacenterGetCmd` returns after a renderer: the error of the renderer,
or its text. -/
def renderReturn (r : String × Option String) : GoRet :=
  match r.2 with
  | some err => ("", some err)
  | none => (r.1, none)

/-! ### `internal/infrastructure/infrastructure.go` and `cmd/metalcloud-cli/cmd/infrastructure.go` -/

/-- A value of Go's `float32`, the type the SDK gives to numbers. Every finite
`float32` is `(-1)^s * m * 2^e` for a sign `s`, a natural number `m` below
`2^24` and an integer `e`; the other values are the two infinities and NaN. The
triples are not restricted to those of a `float32`: what is proved for every
triple holds for every `float32`. -/
inductive Float32 where
  | finite (negative : Bool) (mantissa : Nat) (exponent : Int)
  | infinite (negative : Bool)
  | nan
  deriving DecidableEq, Repr

/-- The zero value of `float32`. -/
def Float32.zero : Float32 := .finite false 0 0

/-- The `float32` of an integer, `float32(n)`; exact for `|n| < 2^24`. -/
def Float32.ofInt (n : Int) : Float32 := .finite (decide (n < 0)) n.natAbs 0

/-- Go's comparison `f == 0` on a `float32`: true of `+0` and `-0` only. -/
def Float32.isZero : Float32 → Bool
  | .finite _ mantissa _ => mantissa == 0
  | _ => false

/-- Go's conversion `int(f)` of a `float32`: the fraction is discarded
(truncation towards zero). When the value is NaN, infinite or outside the range
of `int`, the Go specification leaves the result to the implementation: it is
`unrepresentable f`, a parameter. -/
def Float32.toInt (unrepresentable : Float32 → Int) (f : Float32) : Int :=
  match f with
  | .finite negative mantissa exponent =>
    let magnitude : Nat :=
      if 0 ≤ exponent then mantissa * 2 ^ exponent.toNat
      else mantissa / 2 ^ (-exponent).toNat
    let value : Int := if negative then -(magnitude : Int) else (magnitude : Int)
    if minInt ≤ value ∧ value ≤ maxInt then value else unrepresentable f
  | _ => unrepresentable f

/-- `sdk.Infrastructure`, as far as these functions read it. The id is a
`float32` in the SDK, as are the other numbers. -/
structure Infrastructure where
  Id : Float32
  Label : String
  ServiceStatus : String
  UserIdOwner : Float32
  SiteId : Float32
  deriving DecidableEq, Repr

/-- The zero value of `sdk.Infrastructure` (`var infrastructureInfo
sdk.Infrastructure`). -/
def Infrastructure.zero : Infrastructure :=
  ⟨Float32.zero, "", "", Float32.zero, Float32.zero⟩

/-- The request `client.InfrastructureAPI.GetInfrastructures(ctx)` builds: each
builder method sets one field; `none` is a field no method has set. -/
structure GetInfrastructuresRequest where
  search : Option String
  filterUserIdOwner : Option (List String)
  filterServiceStatus : Option (List String)
  sortBy : Option (List String)
  deriving DecidableEq, Repr

/-- `client.InfrastructureAPI.GetInfrastructures(ctx)`: the request with nothing
set. -/
def GetInfrastructures : GetInfrastructuresRequest := ⟨none, none, none, none⟩

/-- The builder method `Search`. -/
def GetInfrastructuresRequest.Search (r : GetInfrastructuresRequest) (search : String) :
    GetInfrastructuresRequest :=
  { r with search := some search }

/-- The builder method `FilterUserIdOwner`. -/
def GetInfrastructuresRequest.FilterUserIdOwner (r : GetInfrastructuresRequest)
    (filter : List String) : GetInfrastructuresRequest :=
  { r with filterUserIdOwner := some filter }

/-- The builder method `FilterServiceStatus`. -/
def GetInfrastructuresRequest.FilterServiceStatus (r : GetInfrastructuresRequest)
    (filter : List String) : GetInfrastructuresRequest :=
  { r with filterServiceStatus := some filter }

/-- The builder method `SortBy`. -/
def GetInfrastructuresRequest.SortBy (r : GetInfrastructuresRequest) (sortBy : List String) :
    GetInfrastructuresRequest :=
  { r with sortBy := some sortBy }

/-- What the functions of package `infrastructure` take from outside the sources
at hand, as parameters: the user id of `api.GetUserId`, the answer of the API to
a request (`Execute()` followed by `response_inspector.InspectResponse`: the
inspected error, or the `Data` of the list), `formatter.PrintResult`, which
renders through reflection in the configured format and is taken as a function
of the value printed, and the value the platform gives to `int(f)` when the
`float32` `f` is NaN, infinite or outside the range of `int`. -/
structure ApiContext where
  GetUserId : String
  Execute : GetInfrastructuresRequest → Except String (List Infrastructure)
  PrintResultList : List Infrastructure → Option String
  PrintResult : Infrastructure → Option String
  intOfUnrepresentable : Float32 → Int

/-- What a function of package `infrastructure` returns, with the requests it
has sent, in order. -/
structure ApiRun (α : Type) where
  result : α
  requests : List GetInfrastructuresRequest

/-- Go's `strconv.Itoa`. -/
def Itoa (n : Int) : String := toString n

/-- `InfrastructureList` of `internal/infrastructure/infrastructure.go`; the
result is the `error` returned. -/
def InfrastructureList (ctx : ApiContext) (showOwnOnly showOrdered showDeleted : Bool) :
    ApiRun (Option String) :=
  Id.run do
    let mut request := GetInfrastructures
    if showOwnOnly then
      let userId := ctx.GetUserId
      request := request.FilterUserIdOwner ["$eq:" ++ userId]
    let mut statusFilters : List String := []
    if !showOrdered then
      statusFilters := statusFilters ++ ["$not:$eq:ordered"]
    if !showDeleted then
      statusFilters := statusFilters ++ ["$not:$eq:deleted"]
    if statusFilters.length > 0 then
      request := request.FilterServiceStatus statusFilters
    request := request.SortBy ["id:ASC"]
    match ctx.Execute request with
    | .error err => return ⟨some err, [request]⟩
    | .ok infrastructureList => return ⟨ctx.PrintResultList infrastructureList, [request]⟩

/-- The loop of `GetInfrastructureByIdOrLabel`: the first infrastructure of the
list whose label is the argument or whose id, converted with `int()` and written
in decimal, is the argument; the zero value when there is none. -/
def findInfrastructure (ctx : ApiContext) (data : List Infrastructure)
    (infrastructureIdOrLabel : String) : Infrastructure :=
  Id.run do
    let mut infrastructureInfo := Infrastructure.zero
    for infrastructure in data do
      if infrastructure.Label = infrastructureIdOrLabel then
        infrastructureInfo := infrastructure
        break
      if Itoa (infrastructure.Id.toInt ctx.intOfUnrepresentable) = infrastructureIdOrLabel then
        infrastructureInfo := infrastructure
        break
    return infrastructureInfo

/-- `GetInfrastructureByIdOrLabel` of
`internal/infrastructure/infrastructure.go`. -/
def GetInfrastructureByIdOrLabel (ctx : ApiContext) (infrastructureIdOrLabel : String) :
    ApiRun (Except String Infrastructure) :=
  match ctx.Execute (GetInfrastructures.Search infrastructureIdOrLabel) with
  | .error err => ⟨.error err, [GetInfrastructures.Search infrastructureIdOrLabel]⟩
  | .ok data =>
    if data.length = 0 then
      ⟨.error ("infrastructure '" ++ infrastructureIdOrLabel ++ "' not found"),
        [GetInfrastructures.Search infrastructureIdOrLabel]⟩
    else if (findInfrastructure ctx data infrastructureIdOrLabel).Id.isZero then
      ⟨.error ("infrastructure '" ++ infrastructureIdOrLabel ++ "' not found"),
        [GetInfrastructures.Search infrastructureIdOrLabel]⟩
    else
      ⟨.ok (findInfrastructure ctx data infrastructureIdOrLabel),
        [GetInfrastructures.Search infrastructureIdOrLabel]⟩

/-- `InfrastructureGet` of `internal/infrastructure/infrastructure.go`; the
result is the `error` returned. -/
def InfrastructureGet (ctx : ApiContext) (infrastructureIdOrLabel : String) :
    ApiRun (Option String) :=
  match GetInfrastructureByIdOrLabel ctx infrastructureIdOrLabel with
  | ⟨.error err, requests⟩ => ⟨some err, requests⟩
  | ⟨.ok infrastructureInfo, requests⟩ => ⟨ctx.PrintResult infrastructureInfo, requests⟩

/-- The flags of `infrastructure list`, the package-level variables `showAll`,
`showOrdered` and `showDeleted` of `cmd/metalcloud-cli/cmd/infrastructure.go`. -/
structure InfrastructureListFlags where
  showAll : Bool
  showOrdered : Bool
  showDeleted : Bool
  deriving DecidableEq, Repr

/-- The `RunE` of `infrastructureListCmd` in
`cmd/metalcloud-cli/cmd/infrastructure.go`. -/
def infrastructureListCmd (ctx : ApiContext) (flags : InfrastructureListFlags) :
    ApiRun (Option String) :=
  InfrastructureList ctx flags.showAll flags.showOrdered flags.showDeleted

/-- The `RunE` of `infrastructureGetCmd` in
`cmd/metalcloud-cli/cmd/infrastructure.go`, on its one argument. -/
def infrastructureGetCmd (ctx : ApiContext) (arg0 : String) : ApiRun (Option String) :=
  InfrastructureGet ctx arg0

/-- The list entry that satisfies the test of the loop of
`GetInfrastructureByIdOrLabel`: the label is the argument, or the id converted
with `int()` and written in decimal is. -/
def matchesIdOrLabel (ctx : ApiContext) (infrastructureIdOrLabel : String)
    (i : Infrastructure) : Bool :=
  i.Label == infrastructureIdOrLabel ||
    Itoa (i.Id.toInt ctx.intOfUnrepresentable) == infrastructureIdOrLabel

/-- A context whose API answers every request with `data`, for the user `42`,
whose printer never fails, and where `int(f)` of a `float32` outside the range
of `int` is the smallest `int`. -/
def exampleContext (data : List Infrastructure) : ApiContext :=
  { GetUserId := "42",
    Execute := fun _ => .ok data,
    PrintResultList := fun _ => none,
    PrintResult := fun _ => none,
    intOfUnrepresentable := fun _ => minInt }

/-- An infrastructure of the examples, with an integral id. -/
def exampleInfrastructure (id : Int) (label : String) : Infrastructure :=
  ⟨Float32.ofInt id, label, "active", Float32.ofInt 1, Float32.ofInt 1⟩

/-- The search result of the example of C12: `db` (5), `web` (7) and an
infrastructure labelled `7` (8). -/
def exampleInfrastructures : List Infrastructure :=
  [exampleInfrastructure 5 "db", exampleInfrastructure 7 "web", exampleInfrastructure 8 "7"]

/-- The request `InfrastructureList` sends, as a function of its three
parameters and of the user id. -/
def infrastructureListRequest (userId : String) (showOwnOnly showOrdered showDeleted : Bool) :
    GetInfrastructuresRequest :=
  { search := none,
    filterUserIdOwner := if showOwnOnly then some ["$eq:" ++ userId] else none,
    filterServiceStatus :=
      if showOrdered && showDeleted then none
      else some ((if showOrdered then [] else ["$not:$eq:ordered"]) ++
        (if showDeleted then [] else ["$not:$eq:deleted"])),
    sortBy := some ["id:ASC"] }

/-! ### Confirmation messages -/

/-- The message `workflowDeleteCmd` hands to `requestConfirmation` for the
workflow `wf`: the text it formats, or the empty text when `os.Args[0]` ends in
`.test`. -/
def workflowDeleteMessage (w : World) (wf : Workflow) : String :=
  if stringsHasSuffix w.osArgs0 ".test" then ""
  else
    "Deleting workflow  " ++ wf.WorkflowTitle ++ " (" ++ toString wf.WorkflowID ++
      ").  Are you sure? Type \"yes\" to continue:"

/-- The message `workflowDeleteStageCmd` hands to `requestConfirmation` for a
stage of the workflow `wf` with stage definition `sd`: the text it formats, or
the empty text when `os.Args[0]` ends in `.test`. -/
def workflowDeleteStageMessage (w : World) (wf : Workflow) (sd : StageDefinition) : String :=
  if stringsHasSuffix w.osArgs0 ".test" then ""
  else
    "Deleting stage " ++ wf.WorkflowTitle ++ " (" ++ toString wf.WorkflowID ++
      ") from workflow " ++ sd.StageDefinitionTitle ++ " (" ++
      toString sd.StageDefinitionID ++ ").  Are you sure? Type \"yes\" to continue:"

/-! ### Concrete commands, worlds and clients, to run the handlers on -/

/-- A command from the list of its arguments, like `MakeCommand` of the tests. -/
def Command.ofList (args : List (String × Arg)) : Command :=
  { Arguments := fun key => (args.find? (fun p => p.1 == key)).map (fun p => p.2) }

/-- One instance of the ambient functions: flags that are unset or hold the nil
default read as missing, an identifier is an `int` or a text `Atoi` accepts,
the operator answers `answer`, and the process is not a test binary. -/
def exampleWorld (answer : Bool) : World :=
  { NilDefaultStr := "__NIL__",
    GetStringParam := fun v =>
      match v with
      | some (.str s) => if s = "__NIL__" then "" else s
      | _ => "",
    GetStringParamOk := fun v =>
      match v with
      | some (.str s) => if s = "__NIL__" then ("", false) else (s, true)
      | _ => ("", false),
    GetBoolParam := fun v =>
      match v with
      | some (.bool b) => b
      | _ => false,
    GetIntParamOk := fun v =>
      match v with
      | some (.int n) => (n, true)
      | _ => (0, false),
    GetParam := fun c key name =>
      match c.Arguments key with
      | some v => .ok v
      | none => .error ("-" ++ name ++ " is required"),
    IdOrLabel := fun v =>
      match v with
      | .int n => (n, "", true)
      | .str s => if (Atoi s).2 = none then ((Atoi s).1, "", true) else (0, s, false)
      | .bool _ => (0, "", false),
    IdOrLabelString := fun s =>
      if (Atoi s).2 = none then ((Atoi s).1, "", true) else (0, s, false),
    requestConfirmation := fun _ => (answer, none),
    osArgs0 := "metalcloud-cli",
    ReadInputFromPipe := .error "no data piped to stdin",
    ReadInputFromFile := fun _ => .ok [123, 125],
    jsonUnmarshal := fun _ => .ok ⟨""⟩,
    yamlUnmarshal := fun _ => .ok ⟨""⟩,
    jsonMarshalIndent := fun conf => .ok conf.raw,
    yamlMarshal := fun conf => .ok conf.raw,
    jqParse := fun _ => .ok (fun s => s),
    TableSort := fun _ _ data => data,
    RenderTable := fun _ _ _ _ => ("", none),
    RenderTableAsJSON := fun _ => ("", none),
    RenderTableAsCSV := fun _ => ("", none),
    RenderTableAsYAML := fun _ => ("", none),
    FormatFirewallRule := fun _ => "" }

/-- One remote: workflow 10 with stage 103 of stage definition 30 (the data of
`cmd_workflows_test.go`), volume template 5, a user, a datacenter; every call
is accepted. -/
def exampleClient : Client :=
  { WorkflowGet := fun id => .ok ⟨id, "test", "Test workflow", "", "asdsd", false, ""⟩,
    Workflows := .ok [⟨10, "test", "Test workflow", "", "asdsd", false, ""⟩],
    WorkflowCreate := fun wf => .ok wf,
    WorkflowDelete := fun _ => none,
    WorkflowStageGet := fun id => .ok ⟨id, 10, 30, 1⟩,
    WorkflowStageDelete := fun _ => none,
    StageDefinitionGet := fun id => .ok ⟨id, "test", "Test"⟩,
    InstanceArrayGet := fun id =>
      .ok ⟨id, "testia", "active", ⟨id, "testia-edited", "edit", "not_started", true, []⟩⟩,
    InstanceArrayEdit := fun id op => .ok ⟨id, "testia", "active", op⟩,
    VolumeTemplateGet := fun id => .ok { VolumeTemplate.zero with VolumeTemplateID := id },
    VolumeTemplates := .ok [],
    VolumeTemplateCreateFromDrive := fun _ vt => .ok vt,
    VolumeTemplateMakePublic := fun _ _ => none,
    UserGet := fun id => .ok ⟨id, "user@example.com"⟩,
    UserGetByEmail := fun email => .ok ⟨7, email⟩,
    DatacenterCreate := fun dc _ => .ok dc,
    DatacenterGet := fun name => .ok ⟨name, "", 0, false, false, false, [], "", "", "", ""⟩,
    DatacenterAgentsConfigJSONDownloadURL := fun _ _ => .ok "https://example.com/config",
    DatacenterConfigGet := fun _ => .ok ⟨""⟩,
    DatacenterConfigUpdate := fun _ _ => none }

/-- The command `workflow delete -id test`. -/
def deleteWorkflowCommand : Command :=
  Command.ofList [("workflow_id_or_label", .str "test")]

/-- The command `workflow delete -id test -autoconfirm`. -/
def deleteWorkflowAutoconfirmCommand : Command :=
  Command.ofList [("workflow_id_or_label", .str "test"), ("autoconfirm", .bool true)]

/-- The command `workflow delete-stage -id 103`. -/
def deleteStageCommand : Command :=
  Command.ofList [("workflow_stage_id", .int 103)]

/-- The command `workflow delete-stage -id 103 -autoconfirm`. -/
def deleteStageAutoconfirmCommand : Command :=
  Command.ofList [("workflow_stage_id", .int 103), ("autoconfirm", .bool true)]

/-- The command `volume-template create -id 7 -label nos -description "NOS
template" -name NOS -network-os`, with none of the `-network-os-*` flags. -/
def createNetworkOsTemplateCommand : Command :=
  Command.ofList [("drive_id", .int 7), ("label", .str "nos"),
    ("description", .str "NOS template"), ("display_name", .str "NOS"),
    ("network_os", .bool true)]

/-- The arguments `getNetworkOperatingSystemFromCommand` reads, and the flag
`network_os`. -/
def networkOsKeys : List String :=
  ["network_os", "network_os_switch_driver", "network_os_switch_role",
    "network_os_datacenter_name", "network_os_version", "network_os_architecture",
    "network_os_vendor", "network_os_machine"]

/-- Three templates: one booting over iSCSI only, one with local disk only, and
one with both. -/
def exampleVolumeTemplates : List VolumeTemplate :=
  [ { VolumeTemplate.zero with
      VolumeTemplateID := 1, VolumeTemplateLabel := "centos",
      VolumeTemplateBootMethodsSupported := "pxe_iscsi" },
    { VolumeTemplate.zero with
      VolumeTemplateID := 2, VolumeTemplateLabel := "esxi",
      VolumeTemplateLocalDiskSupported := true,
      VolumeTemplateBootMethodsSupported := "local_drives" },
    { VolumeTemplate.zero with
      VolumeTemplateID := 3, VolumeTemplateLabel := "ubuntu",
      VolumeTemplateLocalDiskSupported := true,
      VolumeTemplateBootMethodsSupported := "pxe_iscsi,local_drives" } ]

/-- The remote of the examples, with the three templates. -/
def exampleTemplatesClient : Client :=
  { exampleClient with VolumeTemplates := .ok exampleVolumeTemplates }

/-- The command `volume-template list -local-only -pxe-only`. -/
def listLocalPxeCommand : Command :=
  Command.ofList [("local_only", .bool true), ("pxe_only", .bool true)]

/-- The text of a cell, for the renderer of the examples. -/
def Cell.text : Cell → String
  | .int n => toString n
  | .str s => s
  | .bool b => toString b
  | .config c => c.raw

/-- A renderer for the examples: the cells of each row separated by `|`. -/
def exampleRender (t : Table) : String × Option String :=
  (stringsJoin (t.Data.map (fun row => stringsJoin (row.map Cell.text) "|")) ";", none)

/-- The world of the examples with `exampleRender` as the renderer of every
format. -/
def exampleRenderingWorld : World :=
  { exampleWorld true with
    RenderTable := fun t _ _ _ => exampleRender t,
    RenderTableAsJSON := exampleRender,
    RenderTableAsCSV := exampleRender,
    RenderTableAsYAML := exampleRender }

/-- The remote of the examples, with a configuration that has a text. -/
def exampleDatacenterClient : Client :=
  { exampleClient with DatacenterConfigGet := fun _ => .ok ⟨"config of dc1"⟩ }

/-- The command `datacenter get -id dc1 -return-config-url -format json`. -/
def getDatacenterReturnUrlJsonCommand : Command :=
  Command.ofList [("datacenter_name", .str "dc1"), ("return_config_url", .bool true),
    ("format", .str "json")]

/-- The command `datacenter get -id dc1 -return-config-url`. -/
def getDatacenterReturnUrlCommand : Command :=
  Command.ofList [("datacenter_name", .str "dc1"), ("return_config_url", .bool true)]

/-- The command `datacenter get -id dc1 -show-config-url -format json`. -/
def getDatacenterShowUrlJsonCommand : Command :=
  Command.ofList [("datacenter_name", .str "dc1"), ("show_secret_config_url", .bool true),
    ("format", .str "json")]

/-- The command `datacenter get -id dc1 -show-config-url -format csv`. -/
def getDatacenterShowUrlCsvCommand : Command :=
  Command.ofList [("datacenter_name", .str "dc1"), ("show_secret_config_url", .bool true),
    ("format", .str "csv")]

/-- The world of the examples when the process is a test binary. -/
def exampleTestBinaryWorld (answer : Bool) : World :=
  { exampleWorld answer with osArgs0 := "metalcloud-cli.test" }

/-! ## Part III. Lemmas and theorems -/

/-! ### The poller -/

theorem statusFetches_pollRounds (id : Int) (interval k : Nat) :
    statusFetches (pollRounds id interval k) = k := by
  induction k with
  | zero => rfl
  | succ k ih =>
    simp only [pollRounds, statusFetches] at ih ⊢
    simp [List.countP_cons, Event.isStatusFetch, ih]

theorem sleeps_pollRounds (id : Int) (interval k : Nat) :
    sleeps (pollRounds id interval k) = k := by
  induction k with
  | zero => rfl
  | succ k ih =>
    simp only [pollRounds, sleeps] at ih ⊢
    simp [List.countP_cons, Event.isSleep, ih]

/-- After `k` rounds on a non-terminal status, with the clock still within the
timeout after each of them, a round that ends the loop at once (a terminal
status or a transport error) ends the whole loop with the same outcome; `k + 1`
rounds of fuel are enough. -/
theorem pollLoop_reaches_terminal (env : Remote) (id : Int) (interval timeout : Nat) :
    ∀ (k fuel n elapsed : Nat) (e : Option DeployError),
      (∀ j, j < k → ∃ s, env.status (n + j) = .ok s ∧ classifyStatus s = .nonTerminal) →
      elapsed + k * interval ≤ timeout →
      k + 1 ≤ fuel →
      pollLoop env id interval timeout 1 (n + k) (elapsed + k * interval) =
        some ⟨e, [.getResourceStatus id]⟩ →
      pollLoop env id interval timeout fuel n elapsed =
        some ⟨e, pollRounds id interval k ++ [.getResourceStatus id]⟩ := by
  intro k
  induction k with
  | zero =>
    intro fuel n elapsed e _ _ hfuel hlast
    obtain ⟨fuel, rfl⟩ : ∃ m, fuel = m + 1 := ⟨fuel - 1, by omega⟩
    simp only [Nat.zero_mul, Nat.add_zero, pollLoop] at hlast
    simp only [pollLoop, pollRounds, List.nil_append]
    cases hs : env.status n with
    | error err => simpa [hs] using hlast
    | ok s =>
      simp only [hs] at hlast ⊢
      cases hc : classifyStatus s with
      | succeeded => simpa [hc] using hlast
      | failed => simpa [hc] using hlast
      | nonTerminal =>
        simp only [hc] at hlast
        by_cases h : elapsed + interval > timeout
        · simp [h] at hlast
        · simp [h] at hlast
  | succ k ih =>
    intro fuel n elapsed e hnon htime hfuel hlast
    obtain ⟨fuel, rfl⟩ : ∃ m, fuel = m + 1 := ⟨fuel - 1, by omega⟩
    obtain ⟨s, hs, hc⟩ := hnon 0 (Nat.succ_pos k)
    have hk : (k + 1) * interval = k * interval + interval := Nat.succ_mul k interval
    rw [hk] at htime hlast
    have hle : ¬ (elapsed + interval > timeout) := by omega
    have hrec := ih fuel (n + 1) (elapsed + interval) e
      (fun j hj => by
        have := hnon (j + 1) (by omega)
        rwa [show n + (j + 1) = n + 1 + j by omega] at this)
      (by omega)
      (by omega)
      (by rwa [show n + 1 + k = n + (k + 1) by omega,
               show elapsed + interval + k * interval = elapsed + (k * interval + interval) by
                 omega])
    simp only [Nat.add_zero] at hs
    simp only [pollLoop, hs, hc, hle, if_false, hrec, pollRounds, List.cons_append]

/-- On a status that never becomes terminal the loop gives up after exactly `m`
rounds, where `m` is the number of sleeps after which the clock first exceeds
the timeout; `m` rounds of fuel are enough. -/
theorem pollLoop_times_out (env : Remote) (id : Int) (interval timeout : Nat) :
    ∀ (m fuel n elapsed : Nat),
      (∀ j, j < m + 1 → ∃ s, env.status (n + j) = .ok s ∧ classifyStatus s = .nonTerminal) →
      elapsed + m * interval ≤ timeout →
      timeout < elapsed + (m + 1) * interval →
      m + 1 ≤ fuel →
      pollLoop env id interval timeout fuel n elapsed =
        some ⟨some .DeployTimeout, pollRounds id interval (m + 1)⟩ := by
  intro m
  induction m with
  | zero =>
    intro fuel n elapsed hnon _ hover hfuel
    obtain ⟨fuel, rfl⟩ : ∃ m, fuel = m + 1 := ⟨fuel - 1, by omega⟩
    obtain ⟨s, hs, hc⟩ := hnon 0 (by omega)
    simp only [Nat.add_zero] at hs
    have hgt : elapsed + interval > timeout := by omega
    simp only [pollLoop, hs, hc, hgt, if_true, pollRounds]
  | succ m ih =>
    intro fuel n elapsed hnon htime hover hfuel
    obtain ⟨fuel, rfl⟩ : ∃ m, fuel = m + 1 := ⟨fuel - 1, by omega⟩
    obtain ⟨s, hs, hc⟩ := hnon 0 (by omega)
    simp only [Nat.add_zero] at hs
    have hm : (m + 1) * interval = m * interval + interval := Nat.succ_mul m interval
    have hm2 : (m + 1 + 1) * interval = m * interval + interval + interval := by
      rw [Nat.succ_mul, hm]
    rw [hm] at htime
    rw [hm2] at hover
    have hle : ¬ (elapsed + interval > timeout) := by omega
    have hrec := ih fuel (n + 1) (elapsed + interval)
      (fun j hj => by
        have := hnon (j + 1) (by omega)
        rwa [show n + (j + 1) = n + 1 + j by omega] at this)
      (by omega)
      (by rw [hm]; omega)
      (by omega)
    simp only [pollLoop, hs, hc, hle, if_false, hrec]
    rfl

/-- A confirmed blocking deploy whose deploy call is accepted is the deploy call
followed by the polling loop started at once. -/
theorem deployEntry_blocking (env : Remote) (req : DeployRequest) (interval timeout fuel : Nat)
    (hi : 0 < interval) (ht : 0 < timeout) (hconf : req.confirmed = true)
    (hacc : env.deploy req.resourceId req.policy req.allowDataLoss = none) :
    deployEntry env req true (timeout : Int) (interval : Int) fuel =
      match pollLoop env req.resourceId interval timeout fuel 0 0 with
      | none => none
      | some r =>
        some ⟨"", r.error,
          Event.deploy req.resourceId req.policy req.allowDataLoss :: r.events⟩ := by
  have h1 : ¬ ((interval : Int) ≤ 0 ∨ (timeout : Int) ≤ 0) := by omega
  simp only [deployEntry, confirmationGuard, hconf, if_true, hacc, blockingPoller, h1, if_false,
    Int.toNat_ofNat, List.nil_append]
  cases pollLoop env req.resourceId interval timeout fuel 0 0 <;> rfl

theorem statusFetches_deploy_cons (id : Int) (p : ShutdownPolicy) (a : Bool) (evs : List Event) :
    statusFetches (Event.deploy id p a :: evs) = statusFetches evs := by
  simp [statusFetches, List.countP_cons, Event.isStatusFetch]

theorem sleeps_deploy_cons (id : Int) (p : ShutdownPolicy) (a : Bool) (evs : List Event) :
    sleeps (Event.deploy id p a :: evs) = sleeps evs := by
  simp [sleeps, List.countP_cons, Event.isSleep]

theorem statusFetches_append (xs ys : List Event) :
    statusFetches (xs ++ ys) = statusFetches xs + statusFetches ys := by
  simp [statusFetches, List.countP_append]

theorem sleeps_append (xs ys : List Event) :
    sleeps (xs ++ ys) = sleeps xs + sleeps ys := by
  simp [sleeps, List.countP_append]

/-- The polling loop fetches and sleeps; it issues no deploy call. -/
theorem pollLoop_events_no_deploy (env : Remote) (id : Int) (interval timeout : Nat) :
    ∀ (fuel n elapsed : Nat) (r : PollResult),
      pollLoop env id interval timeout fuel n elapsed = some r →
      ∀ e ∈ r.events, e.isDeploy = false := by
  intro fuel
  induction fuel with
  | zero =>
    intro n elapsed r h
    simp [pollLoop] at h
  | succ fuel ih =>
    intro n elapsed r h
    simp only [pollLoop] at h
    cases hs : env.status n with
    | error err =>
      simp only [hs, Option.some.injEq] at h
      subst h
      simp [Event.isDeploy]
    | ok s =>
      simp only [hs] at h
      cases hc : classifyStatus s with
      | succeeded =>
        simp only [hc, Option.some.injEq] at h
        subst h
        simp [Event.isDeploy]
      | failed =>
        simp only [hc, Option.some.injEq] at h
        subst h
        simp [Event.isDeploy]
      | nonTerminal =>
        simp only [hc] at h
        by_cases hgt : elapsed + interval > timeout
        · simp only [hgt, if_true, Option.some.injEq] at h
          subst h
          simp [Event.isDeploy]
        · simp only [hgt, if_false] at h
          cases hrec : pollLoop env id interval timeout fuel (n + 1) (elapsed + interval) with
          | none => simp [hrec] at h
          | some r2 =>
            simp only [hrec, Option.some.injEq] at h
            subst h
            intro e he
            simp only [List.mem_cons] at he
            rcases he with he | he | he
            · subst he; rfl
            · subst he; rfl
            · exact ih (n + 1) (elapsed + interval) r2 hrec e he

/-- The blocking poller issues no deploy call. -/
theorem blockingPoller_events_no_deploy (env : Remote) (id : Int)
    (timeoutSeconds checkIntervalSeconds : Int) (fuel : Nat) (r : PollResult)
    (h : blockingPoller env id timeoutSeconds checkIntervalSeconds fuel = some r) :
    ∀ e ∈ r.events, e.isDeploy = false := by
  unfold blockingPoller at h
  split at h
  · simp only [Option.some.injEq] at h
    subst h
    simp
  · exact pollLoop_events_no_deploy env id _ _ fuel 0 0 r h

/-- Every deploy call `infrastructure deploy` issues, blocking or not, carries
the policy resolved from the flags, the allow-data-loss flag and the resource
id. -/
theorem deploy_events_carry_policy (env : Remote) (f : DeployFlags) (block : Bool)
    (timeoutSeconds checkIntervalSeconds : Int) (fuel : Nat) (r : CmdResult)
    (h : infrastructureDeployCmd env f block timeoutSeconds checkIntervalSeconds fuel = some r)
    (id : Int) (p : ShutdownPolicy) (a : Bool) (hmem : Event.deploy id p a ∈ r.events) :
    p = resolveShutdownPolicy f.attemptSoftShutdown f.attemptHardShutdown
          f.softShutdownTimeout f.forceShutdown ∧
      a = f.allowDataLoss ∧ f.resourceId = some id := by
  unfold infrastructureDeployCmd resolveDeployRequest at h
  cases hid : f.resourceId with
  | none =>
    simp only [hid, Option.some.injEq] at h
    subst h
    simp at hmem
  | some rid =>
    simp only [hid, deployEntry] at h
    have hguard : ∀ evs b, confirmationGuard env .deploy rid f.autoconfirm = (b, evs) →
        Event.deploy id p a ∉ evs := by
      intro evs b hg
      unfold confirmationGuard at hg
      split at hg
      · cases hg; simp
      · cases hg; simp
    rcases hg : confirmationGuard env .deploy rid f.autoconfirm with ⟨b, evs⟩
    have hno := hguard evs b hg
    rw [hg] at h
    cases b with
    | false =>
      simp only [Option.some.injEq] at h
      subst h
      exact absurd hmem hno
    | true =>
      simp only at h
      have key : ∀ rest : List Event, (∀ e ∈ rest, e.isDeploy = false) →
          Event.deploy id p a ∈ evs ++ [Event.deploy rid
            (resolveShutdownPolicy f.attemptSoftShutdown f.attemptHardShutdown
              f.softShutdownTimeout f.forceShutdown) f.allowDataLoss] ++ rest →
          p = resolveShutdownPolicy f.attemptSoftShutdown f.attemptHardShutdown
            f.softShutdownTimeout f.forceShutdown ∧ a = f.allowDataLoss ∧
            some rid = some id := by
        intro rest hrest hin
        simp only [List.mem_append, List.mem_singleton] at hin
        rcases hin with (hin | hin) | hin
        · exact absurd hin hno
        · cases hin
          exact ⟨rfl, rfl, rfl⟩
        · have := hrest _ hin
          simp [Event.isDeploy] at this
      cases hdep : env.deploy rid (resolveShutdownPolicy f.attemptSoftShutdown
          f.attemptHardShutdown f.softShutdownTimeout f.forceShutdown) f.allowDataLoss with
      | some e =>
        simp only [hdep, Option.some.injEq] at h
        subst h
        exact key [] (by simp) (by simpa using hmem)
      | none =>
        simp only [hdep] at h
        cases block with
        | false =>
          simp only [Bool.false_eq_true, if_false, Option.some.injEq] at h
          subst h
          exact key [] (by simp) (by simpa using hmem)
        | true =>
          simp only [if_true] at h
          cases hp : blockingPoller env rid timeoutSeconds checkIntervalSeconds fuel with
          | none => simp [hp] at h
          | some pr =>
            simp only [hp, Option.some.injEq] at h
            subst h
            exact key pr.events
              (blockingPoller_events_no_deploy env rid _ _ fuel pr hp) hmem

/-! ### C1 to C6: the deploy orchestrator -/

/-- C1: for every combination of the deploy flags, the shutdown policy sent with
the deploy request has `forced = true` and `attemptSoft = false` when
force-shutdown is set, and otherwise has `attemptSoft`, `hardAfterTimeout` and
`softTimeoutSeconds` equal to the flags verbatim; soft shutdown disabled with
timeout 256 gives hard-after-timeout true, attempt-soft false, timeout 256. The
request the parameter resolver builds carries exactly this policy, and so does
every deploy call the command issues. -/
theorem C1_shutdown_policy_resolution (f : DeployFlags) (id : Int) (soft hard : Bool)
    (t : Int) :
    (resolveShutdownPolicy soft hard t true).forced = true ∧
    (resolveShutdownPolicy soft hard t true).attemptSoft = false ∧
    (resolveShutdownPolicy soft hard t false).attemptSoft = soft ∧
    (resolveShutdownPolicy soft hard t false).hardAfterTimeout = hard ∧
    (resolveShutdownPolicy soft hard t false).softTimeoutSeconds = t ∧
    resolveShutdownPolicy false true 256 false =
      { attemptSoft := false, softTimeoutSeconds := 256, hardAfterTimeout := true,
        forced := false } ∧
    resolveDeployRequest { f with resourceId := some id } =
      .ok { resourceId := id,
            policy := resolveShutdownPolicy f.attemptSoftShutdown f.attemptHardShutdown
                        f.softShutdownTimeout f.forceShutdown,
            allowDataLoss := f.allowDataLoss,
            confirmed := f.autoconfirm } ∧
    (∀ (env : Remote) (block : Bool) (timeoutSeconds checkIntervalSeconds : Int) (fuel : Nat)
        (r : CmdResult) (rid : Int) (p : ShutdownPolicy) (a : Bool),
      infrastructureDeployCmd env f block timeoutSeconds checkIntervalSeconds fuel = some r →
      Event.deploy rid p a ∈ r.events →
      p = resolveShutdownPolicy f.attemptSoftShutdown f.attemptHardShutdown
            f.softShutdownTimeout f.forceShutdown) := by
  refine ⟨rfl, rfl, rfl, rfl, rfl, rfl, rfl, ?_⟩
  intro env block timeoutSeconds checkIntervalSeconds fuel r rid p a h hmem
  exact (deploy_events_carry_policy env f block timeoutSeconds checkIntervalSeconds fuel r h
    rid p a hmem).1

/-- C2: for infrastructure deploy, delete and revert, when autoconfirm is not set
and the operator gives no affirmative answer, the command returns empty output
and the error `Operation not confirmed. Aborting`, and makes no call to the
mutating endpoint, whatever the value of allow-data-loss. -/
theorem C2_unconfirmed_operations_do_not_mutate (env : Remote) (f : DeployFlags) (id : Int)
    (block : Bool) (timeoutSeconds checkIntervalSeconds : Int) (fuel : Nat)
    (hid : f.resourceId = some id) (hauto : f.autoconfirm = false)
    (hno : ∀ m, env.operatorResponse m ≠ "yes") :
    (∃ r, infrastructureDeployCmd env f block timeoutSeconds checkIntervalSeconds fuel = some r ∧
        r.output = "" ∧ r.error = some .NotConfirmed ∧ mutatingCalls r.events = []) ∧
    ((infrastructureDeleteCmd env (some id) false).output = "" ∧
      (infrastructureDeleteCmd env (some id) false).error = some .NotConfirmed ∧
      mutatingCalls (infrastructureDeleteCmd env (some id) false).events = []) ∧
    ((infrastructureRevertCmd env (some id) false).output = "" ∧
      (infrastructureRevertCmd env (some id) false).error = some .NotConfirmed ∧
      mutatingCalls (infrastructureRevertCmd env (some id) false).events = []) ∧
    DeployError.NotConfirmed.text = "Operation not confirmed. Aborting" := by
  have hg : ∀ op, confirmationGuard env op id false =
      (false, [.readResource id, .prompt (confirmationMessage op (env.resourceLabel id) id)]) := by
    intro op
    simp [confirmationGuard, hno]
  refine ⟨?_, ?_, ?_, rfl⟩
  · refine ⟨⟨"", some .NotConfirmed, [.readResource id,
      .prompt (confirmationMessage .deploy (env.resourceLabel id) id)]⟩, ?_, rfl, rfl, ?_⟩
    · simp only [infrastructureDeployCmd, resolveDeployRequest, hid, deployEntry, hauto, hg]
    · simp [mutatingCalls, List.filter_cons, Event.isMutating]
  · simp only [infrastructureDeleteCmd, hg]
    simp [mutatingCalls, List.filter_cons, Event.isMutating]
  · simp only [infrastructureRevertCmd, hg]
    simp [mutatingCalls, List.filter_cons, Event.isMutating]

/-- Witness of C2: deploy with allow-data-loss set, no autoconfirm, and an
operator who answers `no`. -/
theorem C2_unconfirmed_operations_do_not_mutate_witness :
    (∃ r, infrastructureDeployCmd (scriptedRemote [] "no")
        { defaultDeployFlags 10002 with allowDataLoss := true } false 0 0 0 = some r ∧
        r.output = "" ∧ r.error = some .NotConfirmed ∧ mutatingCalls r.events = []) :=
  (C2_unconfirmed_operations_do_not_mutate (scriptedRemote [] "no")
    { defaultDeployFlags 10002 with allowDataLoss := true } 10002 false 0 0 0 rfl rfl
    (fun _ => show "no" ≠ "yes" by decide)).1

/-- C3: for every `k ≥ 1` and positive interval and timeout such that the deploy
status is non-terminal on polls `1..k-1` and `finished` on poll `k`, with
`(k-1) * interval` below the timeout, the blocking deploy returns success after
exactly `k` status fetches and `k - 1` sleeps (no sleep at all for `k = 1`). -/
theorem C3_blocking_deploy_succeeds_after_k_polls (env : Remote) (req : DeployRequest)
    (k interval timeout fuel : Nat)
    (hk : 1 ≤ k) (hi : 0 < interval) (ht : 0 < timeout)
    (hconf : req.confirmed = true)
    (hacc : env.deploy req.resourceId req.policy req.allowDataLoss = none)
    (hnon : ∀ j, j < k - 1 → ∃ s, env.status j = .ok s ∧ classifyStatus s = .nonTerminal)
    (hfin : env.status (k - 1) = .ok "finished")
    (htime : (k - 1) * interval < timeout)
    (hfuel : k ≤ fuel) :
    ∃ r, deployEntry env req true (timeout : Int) (interval : Int) fuel = some r ∧
      r.error = none ∧ r.output = "" ∧
      statusFetches r.events = k ∧ sleeps r.events = k - 1 := by
  have hlast : pollLoop env req.resourceId interval timeout 1 (0 + (k - 1))
      (0 + (k - 1) * interval) = some ⟨none, [.getResourceStatus req.resourceId]⟩ := by
    simp only [Nat.zero_add, pollLoop, hfin]
    rfl
  have hloop := pollLoop_reaches_terminal env req.resourceId interval timeout (k - 1) fuel 0 0
    none (fun j hj => by simpa using hnon j hj) (by omega) (by omega) hlast
  refine ⟨⟨"", none, Event.deploy req.resourceId req.policy req.allowDataLoss ::
    (pollRounds req.resourceId interval (k - 1) ++ [.getResourceStatus req.resourceId])⟩,
    ?_, rfl, rfl, ?_, ?_⟩
  · rw [deployEntry_blocking env req interval timeout fuel hi ht hconf hacc, hloop]
  · rw [statusFetches_deploy_cons, statusFetches_append, statusFetches_pollRounds]
    simp [statusFetches, Event.isStatusFetch]
    omega
  · rw [sleeps_deploy_cons, sleeps_append, sleeps_pollRounds]
    simp [sleeps, Event.isSleep]

/-- Witness of C3: `ongoing` on poll 1 and `finished` on poll 2, interval 1 s and
timeout 3 s: success after exactly 2 fetches and 1 sleep. -/
theorem C3_blocking_deploy_succeeds_after_k_polls_witness :
    ∃ r, deployEntry (scriptedRemote ["ongoing", "finished"] "")
        testBlockingRequest true 3 1 2 = some r ∧
      r.error = none ∧ r.output = "" ∧ statusFetches r.events = 2 ∧ sleeps r.events = 2 - 1 :=
  C3_blocking_deploy_succeeds_after_k_polls (scriptedRemote ["ongoing", "finished"] "")
    testBlockingRequest 2 1 3 2
    (by decide) (by decide) (by decide) rfl rfl
    (fun j hj => ⟨"ongoing", by
      have : j = 0 := by omega
      subst this
      exact ⟨rfl, by decide⟩⟩)
    rfl (by decide) (by decide)

/-- C4: when the deploy status never becomes terminal, the blocking deploy with
a positive check interval not larger than the timeout (timeout 2 s and interval
1 s in particular) ends with the timeout error, after `timeout / interval + 1`
status checks, which is at least 2: the elapsed time is compared with the
timeout only after each sleep, never before the first poll. -/
theorem C4_never_terminal_times_out (env : Remote) (req : DeployRequest)
    (interval timeout fuel : Nat)
    (hi : 0 < interval) (hle : interval ≤ timeout)
    (hconf : req.confirmed = true)
    (hacc : env.deploy req.resourceId req.policy req.allowDataLoss = none)
    (hnever : ∀ n, ∃ s, env.status n = .ok s ∧ classifyStatus s = .nonTerminal)
    (hfuel : timeout / interval + 1 ≤ fuel) :
    ∃ r, deployEntry env req true (timeout : Int) (interval : Int) fuel = some r ∧
      r.error = some .DeployTimeout ∧
      statusFetches r.events = timeout / interval + 1 ∧
      2 ≤ statusFetches r.events ∧
      sleeps r.events = statusFetches r.events ∧
      r.events.head? = some (Event.deploy req.resourceId req.policy req.allowDataLoss) ∧
      r.events.tail.head? = some (Event.getResourceStatus req.resourceId) := by
  have ht : 0 < timeout := by omega
  have h1 : 0 + timeout / interval * interval ≤ timeout := by
    have := Nat.div_mul_le_self timeout interval
    omega
  have h2 : timeout < 0 + (timeout / interval + 1) * interval := by
    have := Nat.lt_div_mul_add (a := timeout) hi
    rw [Nat.succ_mul]
    omega
  have hloop := pollLoop_times_out env req.resourceId interval timeout (timeout / interval)
    fuel 0 0 (fun j _ => by simpa using hnever j) h1 h2 hfuel
  have hq : 1 ≤ timeout / interval := Nat.div_pos hle hi
  refine ⟨⟨"", some .DeployTimeout, Event.deploy req.resourceId req.policy req.allowDataLoss ::
    pollRounds req.resourceId interval (timeout / interval + 1)⟩, ?_, rfl, ?_, ?_, ?_, rfl, rfl⟩
  · rw [deployEntry_blocking env req interval timeout fuel hi ht hconf hacc, hloop]
  · rw [statusFetches_deploy_cons, statusFetches_pollRounds]
  · rw [statusFetches_deploy_cons, statusFetches_pollRounds]
    omega
  · rw [statusFetches_deploy_cons, statusFetches_pollRounds, sleeps_deploy_cons,
      sleeps_pollRounds]

/-- Witness of C4: timeout 2 s, interval 1 s, status `ongoing` for ever. -/
theorem C4_never_terminal_times_out_witness :
    ∃ r, deployEntry (scriptedRemote [] "")
        testBlockingRequest true 2 1 3 = some r ∧
      r.error = some .DeployTimeout ∧
      statusFetches r.events = 2 / 1 + 1 ∧
      2 ≤ statusFetches r.events ∧
      sleeps r.events = statusFetches r.events ∧
      r.events.head? = some (Event.deploy 1000 testBlockingRequest.policy false) ∧
      r.events.tail.head? = some (Event.getResourceStatus 1000) :=
  C4_never_terminal_times_out (scriptedRemote [] "")
    testBlockingRequest 1 2 3
    (by decide) (by decide) rfl rfl (fun _ => ⟨"ongoing", rfl, by decide⟩) (by decide)

/-- C6: every confirmed, non-blocking infrastructure deploy (autoconfirm set, or
the operator answering `yes`) issues exactly one deploy call, carrying the
resolved shutdown policy and the allow-data-loss flag unchanged, and no other
mutating call; when that call is accepted the command returns empty output and
no error. -/
theorem C6_confirmed_deploy_issues_one_call (env : Remote) (f : DeployFlags) (id : Int)
    (timeoutSeconds checkIntervalSeconds : Int) (fuel : Nat)
    (hid : f.resourceId = some id)
    (hconfirmed : f.autoconfirm = true ∨
      env.operatorResponse (confirmationMessage .deploy (env.resourceLabel id) id) = "yes") :
    ∃ r, infrastructureDeployCmd env f false timeoutSeconds checkIntervalSeconds fuel = some r ∧
      r.events.filter Event.isDeploy =
        [Event.deploy id (resolveShutdownPolicy f.attemptSoftShutdown f.attemptHardShutdown
          f.softShutdownTimeout f.forceShutdown) f.allowDataLoss] ∧
      mutatingCalls r.events =
        [Event.deploy id (resolveShutdownPolicy f.attemptSoftShutdown f.attemptHardShutdown
          f.softShutdownTimeout f.forceShutdown) f.allowDataLoss] ∧
      statusFetches r.events = 0 ∧ sleeps r.events = 0 ∧
      r.output = "" ∧
      (env.deploy id (resolveShutdownPolicy f.attemptSoftShutdown f.attemptHardShutdown
          f.softShutdownTimeout f.forceShutdown) f.allowDataLoss = none → r.error = none) := by
  have hg : ∃ evs, confirmationGuard env .deploy id f.autoconfirm = (true, evs) ∧
      evs.filter Event.isDeploy = [] ∧ mutatingCalls evs = [] ∧
      statusFetches evs = 0 ∧ sleeps evs = 0 := by
    by_cases ha : f.autoconfirm = true
    · exact ⟨[], by simp [confirmationGuard, ha], rfl, rfl, rfl, rfl⟩
    · have hyes := hconfirmed.resolve_left ha
      refine ⟨[.readResource id,
        .prompt (confirmationMessage .deploy (env.resourceLabel id) id)], ?_, ?_, ?_, ?_, ?_⟩
      · simp [confirmationGuard, ha, hyes]
      · simp [List.filter_cons, Event.isDeploy]
      · simp [mutatingCalls, List.filter_cons, Event.isMutating]
      · simp [statusFetches, Event.isStatusFetch]
      · simp [sleeps, Event.isSleep]
  obtain ⟨evs, hgd, hd, hm, hsf, hsl⟩ := hg
  cases hdep : env.deploy id (resolveShutdownPolicy f.attemptSoftShutdown f.attemptHardShutdown
      f.softShutdownTimeout f.forceShutdown) f.allowDataLoss with
  | none =>
    refine ⟨⟨"", none, evs ++ [Event.deploy id (resolveShutdownPolicy f.attemptSoftShutdown
      f.attemptHardShutdown f.softShutdownTimeout f.forceShutdown) f.allowDataLoss]⟩,
      ?_, ?_, ?_, ?_, ?_, rfl, fun _ => rfl⟩
    · simp only [infrastructureDeployCmd, resolveDeployRequest, hid, deployEntry, hgd, hdep]
      simp
    · simp [List.filter_append, hd, Event.isDeploy]
    · simp only [mutatingCalls] at hm ⊢
      simp [List.filter_append, hm, Event.isMutating]
    · rw [statusFetches_append, hsf]; simp [statusFetches, Event.isStatusFetch]
    · rw [sleeps_append, hsl]; simp [sleeps, Event.isSleep]
  | some e =>
    refine ⟨⟨"", some (.TransportError e), evs ++ [Event.deploy id (resolveShutdownPolicy
      f.attemptSoftShutdown f.attemptHardShutdown f.softShutdownTimeout f.forceShutdown)
      f.allowDataLoss]⟩, ?_, ?_, ?_, ?_, ?_, rfl, fun h => by cases h⟩
    · simp only [infrastructureDeployCmd, resolveDeployRequest, hid, deployEntry, hgd, hdep]
    · simp [List.filter_append, hd, Event.isDeploy]
    · simp only [mutatingCalls] at hm ⊢
      simp [List.filter_append, hm, Event.isMutating]
    · rw [statusFetches_append, hsf]; simp [statusFetches, Event.isStatusFetch]
    · rw [sleeps_append, hsl]; simp [sleeps, Event.isSleep]

/-- Witness of C6: the flags of `TestInfrastructureDeployCmd` (allow-data-loss,
soft shutdown disabled, timeout 256) with autoconfirm. -/
theorem C6_confirmed_deploy_issues_one_call_witness :
    ∃ r, infrastructureDeployCmd (scriptedRemote [] "")
        testDeployFlags false 0 0 0 = some r ∧
      r.events = [Event.deploy 10002 ⟨false, 256, true, false⟩ true] ∧
      r.output = "" ∧ r.error = none := by
  obtain ⟨r, hr, -, -, -, -, hout, herr⟩ :=
    C6_confirmed_deploy_issues_one_call (scriptedRemote [] "")
      testDeployFlags 10002 0 0 0 rfl (Or.inl rfl)
  refine ⟨r, hr, ?_, hout, herr rfl⟩
  have h2 : infrastructureDeployCmd (scriptedRemote [] "")
        testDeployFlags false 0 0 0 =
      some ⟨"", none, [Event.deploy 10002 ⟨false, 256, true, false⟩ true]⟩ := rfl
  rw [h2] at hr
  cases hr
  rfl

/-! ### Running the handlers -/

theorem M_bind_apply {α β : Type} (m : M α) (f : α → M β) (t : List Call) :
    (m >>= f) t = match m t with
      | (some a, t1) => f a t1
      | (none, t1) => (none, t1) := rfl

theorem M_pure_apply {α : Type} (a : α) (t : List Call) : (pure a : M α) t = (some a, t) := rfl

theorem remote_apply {α : Type} (c : Call) (a : α) (t : List Call) :
    remote c a t = (some a, t ++ [c]) := rfl

/-- `getWorkflowFromCommand` never panics and makes at most one call, a read:
none when the parameter is missing, `WorkflowGet` for an id, `Workflows` for a
label. -/
theorem getWorkflowFromCommand_run (w : World) (p : String) (c : Command) (client : Client)
    (t : List Call) :
    ∃ r reads, getWorkflowFromCommand w p c client t = (some r, t ++ reads) ∧
      ((reads = [] ∧ ∃ e, r = .error e) ∨ reads = [.Workflows] ∨
        ∃ id, reads = [.WorkflowGet id]) := by
  unfold getWorkflowFromCommand
  cases hg : w.GetParam c "workflow_id_or_label" p with
  | error e => exact ⟨.error e, [], by simp [M_pure_apply], Or.inl ⟨rfl, e, rfl⟩⟩
  | ok v =>
    by_cases hid : (w.IdOrLabel v).2.2 = true
    · exact ⟨client.WorkflowGet (w.IdOrLabel v).1, [.WorkflowGet (w.IdOrLabel v).1],
        by simp [hid, M_bind_apply, M_pure_apply, remote_apply], Or.inr (Or.inr ⟨_, rfl⟩)⟩
    · cases hl : client.Workflows with
      | error e =>
        exact ⟨.error e, [.Workflows],
          by simp [hid, hl, M_bind_apply, M_pure_apply, remote_apply], Or.inr (Or.inl rfl)⟩
      | ok list =>
        cases hf : list.find? (fun s => s.WorkflowLabel == (w.IdOrLabel v).2.1) with
        | none =>
          exact ⟨.error ("workflow " ++ (w.IdOrLabel v).2.1 ++ " not found"), [.Workflows],
            by simp [hid, hl, hf, M_bind_apply, M_pure_apply, remote_apply],
            Or.inr (Or.inl rfl)⟩
        | some s =>
          exact ⟨.ok s, [.Workflows],
            by simp [hid, hl, hf, M_bind_apply, M_pure_apply, remote_apply],
            Or.inr (Or.inl rfl)⟩

/-- `workflowDeleteCmd` once the workflow is resolved, without autoconfirm: one
`requestConfirmation` and, on `(true, nil)` only, one `WorkflowDelete`. -/
theorem workflowDeleteCmd_prompting (w : World) (c : Command) (client : Client)
    (wf : Workflow) (reads : List Call)
    (hget : getWorkflowFromCommand w "id" c client [] = (some (.ok wf), reads))
    (hauto : w.GetBoolParam (c.Arguments "autoconfirm") = false) :
    (workflowDeleteCmd w c client).run =
      match w.requestConfirmation (workflowDeleteMessage w wf) with
      | (_, some e) =>
        (some ("", some e), reads ++ [.requestConfirmation (workflowDeleteMessage w wf)])
      | (false, none) =>
        (some ("", some "Operation not confirmed. Aborting"),
          reads ++ [.requestConfirmation (workflowDeleteMessage w wf)])
      | (true, none) =>
        (some ("", client.WorkflowDelete wf.WorkflowID),
          reads ++ [.requestConfirmation (workflowDeleteMessage w wf),
            .WorkflowDelete wf.WorkflowID]) := by
  unfold workflowDeleteMessage
  by_cases hs : stringsHasSuffix w.osArgs0 ".test" = true
  · simp only [workflowDeleteCmd, M.run, M_bind_apply, hget, hauto, hs, if_true]
    rcases hrc : w.requestConfirmation "" with ⟨b, e⟩
    cases e <;> cases b <;>
      simp [hrc, M_bind_apply, M_pure_apply, remote_apply, hs]
  · simp only [workflowDeleteCmd, M.run, M_bind_apply, hget, hauto, hs, if_false]
    rcases hrc : w.requestConfirmation ("Deleting workflow  " ++ wf.WorkflowTitle ++ " (" ++
      toString wf.WorkflowID ++ ").  Are you sure? Type \"yes\" to continue:") with ⟨b, e⟩
    cases e <;> cases b <;>
      simp [hrc, M_bind_apply, M_pure_apply, remote_apply, hs]

/-- `workflowDeleteCmd` once the workflow is resolved, with autoconfirm: no
prompt and one `WorkflowDelete`, whose error is returned. -/
theorem workflowDeleteCmd_autoconfirm (w : World) (c : Command) (client : Client)
    (wf : Workflow) (reads : List Call)
    (hget : getWorkflowFromCommand w "id" c client [] = (some (.ok wf), reads))
    (hauto : w.GetBoolParam (c.Arguments "autoconfirm") = true) :
    (workflowDeleteCmd w c client).run =
      (some ("", client.WorkflowDelete wf.WorkflowID),
        reads ++ [.WorkflowDelete wf.WorkflowID]) := by
  simp [workflowDeleteCmd, M.run, M_bind_apply, hget, hauto, M_pure_apply, remote_apply]

/-- `workflowDeleteCmd` when the workflow is not resolved: the error of the
resolution, and nothing after it. -/
theorem workflowDeleteCmd_unresolved (w : World) (c : Command) (client : Client)
    (e : String) (reads : List Call)
    (hget : getWorkflowFromCommand w "id" c client [] = (some (.error e), reads)) :
    (workflowDeleteCmd w c client).run = (some ("", some e), reads) := by
  simp [workflowDeleteCmd, M.run, M_bind_apply, hget, M_pure_apply]

/-- The reads of `getWorkflowFromCommand` are neither mutating calls nor
prompts. -/
theorem workflow_reads_filter {α : Type} (r : Except String α) (reads : List Call)
    (h : (reads = [] ∧ ∃ e, r = .error e) ∨ reads = [.Workflows] ∨
      ∃ id, reads = [.WorkflowGet id]) :
    reads.filter Call.isMutating = [] ∧ reads.filter Call.isConfirmation = [] ∧
      reads.filter Call.isRemote = reads := by
  rcases h with ⟨h, -⟩ | h | ⟨id, h⟩ <;> subst h <;>
    simp [List.filter_cons, Call.isMutating, Call.isConfirmation, Call.isRemote]

/-- `workflowDeleteStageCmd` on all its paths. -/
theorem workflowDeleteStageCmd_run (w : World) (c : Command) (client : Client) :
    (workflowDeleteStageCmd w c client).run =
      if (w.GetIntParamOk (c.Arguments "workflow_stage_id")).2 = false then
        (some ("", some
          "-id is required (workflow-stage-id (WSI) number returned by get workflow"), [])
      else
        match client.WorkflowStageGet (w.GetIntParamOk (c.Arguments "workflow_stage_id")).1 with
        | .error e =>
          (some ("", some e),
            [.WorkflowStageGet (w.GetIntParamOk (c.Arguments "workflow_stage_id")).1])
        | .ok st =>
          if w.GetBoolParam (c.Arguments "autoconfirm") = true then
            (some ("", client.WorkflowStageDelete
                (w.GetIntParamOk (c.Arguments "workflow_stage_id")).1),
              [.WorkflowStageGet (w.GetIntParamOk (c.Arguments "workflow_stage_id")).1,
               .WorkflowStageDelete (w.GetIntParamOk (c.Arguments "workflow_stage_id")).1])
          else
            match client.WorkflowGet st.WorkflowID with
            | .error e =>
              (some ("", some e),
                [.WorkflowStageGet (w.GetIntParamOk (c.Arguments "workflow_stage_id")).1,
                 .WorkflowGet st.WorkflowID])
            | .ok wf =>
              match client.StageDefinitionGet st.StageDefinitionID with
              | .error e =>
                (some ("", some e),
                  [.WorkflowStageGet (w.GetIntParamOk (c.Arguments "workflow_stage_id")).1,
                   .WorkflowGet st.WorkflowID, .StageDefinitionGet st.StageDefinitionID])
              | .ok sd =>
                match w.requestConfirmation (workflowDeleteStageMessage w wf sd) with
                | (_, some e) =>
                  (some ("", some e),
                    [.WorkflowStageGet (w.GetIntParamOk (c.Arguments "workflow_stage_id")).1,
                     .WorkflowGet st.WorkflowID, .StageDefinitionGet st.StageDefinitionID,
                     .requestConfirmation (workflowDeleteStageMessage w wf sd)])
                | (false, none) =>
                  (some ("", some "Operation not confirmed. Aborting"),
                    [.WorkflowStageGet (w.GetIntParamOk (c.Arguments "workflow_stage_id")).1,
                     .WorkflowGet st.WorkflowID, .StageDefinitionGet st.StageDefinitionID,
                     .requestConfirmation (workflowDeleteStageMessage w wf sd)])
                | (true, none) =>
                  (some ("", client.WorkflowStageDelete
                      (w.GetIntParamOk (c.Arguments "workflow_stage_id")).1),
                    [.WorkflowStageGet (w.GetIntParamOk (c.Arguments "workflow_stage_id")).1,
                     .WorkflowGet st.WorkflowID, .StageDefinitionGet st.StageDefinitionID,
                     .requestConfirmation (workflowDeleteStageMessage w wf sd),
                     .WorkflowStageDelete
                       (w.GetIntParamOk (c.Arguments "workflow_stage_id")).1]) := by
  rcases hid : w.GetIntParamOk (c.Arguments "workflow_stage_id") with ⟨id, ok⟩
  cases ok
  · simp [workflowDeleteStageCmd, M.run, hid, M_pure_apply]
  · cases hst : client.WorkflowStageGet id with
    | error e =>
      simp [workflowDeleteStageCmd, M.run, hid, hst, M_bind_apply, M_pure_apply, remote_apply]
    | ok st =>
      by_cases hauto : w.GetBoolParam (c.Arguments "autoconfirm") = true
      · simp [workflowDeleteStageCmd, M.run, hid, hst, hauto, M_bind_apply, M_pure_apply,
          remote_apply]
      · cases hwf : client.WorkflowGet st.WorkflowID with
        | error e =>
          simp [workflowDeleteStageCmd, M.run, hid, hst, hauto, hwf, M_bind_apply,
            M_pure_apply, remote_apply]
        | ok wf =>
          cases hsd : client.StageDefinitionGet st.StageDefinitionID with
          | error e =>
            simp [workflowDeleteStageCmd, M.run, hid, hst, hauto, hwf, hsd, M_bind_apply,
              M_pure_apply, remote_apply]
          | ok sd =>
            unfold workflowDeleteStageMessage
            by_cases hs : stringsHasSuffix w.osArgs0 ".test" = true
            · rcases hrc : w.requestConfirmation "" with ⟨b, e⟩
              cases e <;> cases b <;>
                simp [workflowDeleteStageCmd, M.run, hid, hst, hauto, hwf, hsd, hs, hrc,
                  M_bind_apply, M_pure_apply, remote_apply]
            · rcases hrc : w.requestConfirmation ("Deleting stage " ++ wf.WorkflowTitle ++
                " (" ++ toString wf.WorkflowID ++ ") from workflow " ++
                sd.StageDefinitionTitle ++ " (" ++ toString sd.StageDefinitionID ++
                ").  Are you sure? Type \"yes\" to continue:") with ⟨b, e⟩
              cases e <;> cases b <;>
                simp [workflowDeleteStageCmd, M.run, hid, hst, hauto, hwf, hsd, hs, hrc,
                  M_bind_apply, M_pure_apply, remote_apply]

/-! ### C7 and C8: the confirmation gate of the workflow deletions -/

/-- C7: for `workflowDeleteCmd` and `workflowDeleteStageCmd`, whenever
autoconfirm is false and `requestConfirmation` (called with the message `msg`)
returns `(false, nil)`, the command returns `("", "Operation not confirmed.
Aborting")` and never calls the mutating endpoint; the only remote calls are
the reads that resolve the target and build the message: `WorkflowGet` or
`Workflows` for the one, `WorkflowStageGet`, `WorkflowGet` and
`StageDefinitionGet` for the other. -/
theorem C7_denied_workflow_delete_does_not_mutate (w : World) (c : Command) (client : Client)
    (msg : String)
    (hauto : w.GetBoolParam (c.Arguments "autoconfirm") = false)
    (hanswer : w.requestConfirmation msg = (false, none)) :
    (Call.requestConfirmation msg ∈ (workflowDeleteCmd w c client).run.2 →
      (workflowDeleteCmd w c client).run.1 = some ("", some "Operation not confirmed. Aborting") ∧
      (workflowDeleteCmd w c client).run.2.filter Call.isMutating = [] ∧
      ∃ reads, (reads = [.Workflows] ∨ ∃ id, reads = [.WorkflowGet id]) ∧
        (workflowDeleteCmd w c client).run.2 = reads ++ [.requestConfirmation msg]) ∧
    (Call.requestConfirmation msg ∈ (workflowDeleteStageCmd w c client).run.2 →
      (workflowDeleteStageCmd w c client).run.1 =
        some ("", some "Operation not confirmed. Aborting") ∧
      (workflowDeleteStageCmd w c client).run.2.filter Call.isMutating = [] ∧
      ∃ id wfid sdid, (workflowDeleteStageCmd w c client).run.2 =
        [.WorkflowStageGet id, .WorkflowGet wfid, .StageDefinitionGet sdid,
          .requestConfirmation msg]) := by
  constructor
  · intro hmem
    obtain ⟨r, reads, hget, hreads⟩ := getWorkflowFromCommand_run w "id" c client []
    rw [List.nil_append] at hget
    obtain ⟨hmut, hconf, -⟩ := workflow_reads_filter r reads hreads
    have hnot : Call.requestConfirmation msg ∉ reads := by
      intro hin
      have : Call.requestConfirmation msg ∈ reads.filter Call.isConfirmation :=
        List.mem_filter.mpr ⟨hin, rfl⟩
      rw [hconf] at this
      exact absurd this (List.not_mem_nil _)
    cases r with
    | error e =>
      rw [workflowDeleteCmd_unresolved w c client e reads hget] at hmem
      exact absurd hmem hnot
    | ok wf =>
      have hrun := workflowDeleteCmd_prompting w c client wf reads hget hauto
      have hmsg : msg = workflowDeleteMessage w wf := by
        rw [hrun] at hmem
        rcases hrc : w.requestConfirmation (workflowDeleteMessage w wf) with ⟨b, e⟩
        rw [hrc] at hmem
        have hor : Call.requestConfirmation msg ∈ reads ∨ msg = workflowDeleteMessage w wf := by
          cases e <;> cases b <;> simpa using hmem
        exact hor.resolve_left hnot
      subst hmsg
      rw [hanswer] at hrun
      simp only at hrun
      rw [hrun]
      refine ⟨rfl, ?_, reads, ?_, rfl⟩
      · simp [List.filter_append, hmut, Call.isMutating]
      · rcases hreads with ⟨-, e, he⟩ | h | h
        · cases he
        · exact Or.inl h
        · exact Or.inr h
  · intro hmem
    rw [workflowDeleteStageCmd_run] at hmem ⊢
    split at hmem
    · simp at hmem
    · rename_i hok
      rw [if_neg hok]
      cases hst : client.WorkflowStageGet
          (w.GetIntParamOk (c.Arguments "workflow_stage_id")).1 with
      | error e => simp [hst] at hmem
      | ok st =>
        simp only [hst, hauto, Bool.false_eq_true, if_false] at hmem ⊢
        cases hwf : client.WorkflowGet st.WorkflowID with
        | error e => simp [hwf] at hmem
        | ok wf =>
          simp only [hwf] at hmem ⊢
          cases hsd : client.StageDefinitionGet st.StageDefinitionID with
          | error e => simp [hsd] at hmem
          | ok sd =>
            simp only [hsd] at hmem ⊢
            have hmsg : msg = workflowDeleteStageMessage w wf sd := by
              rcases hrc : w.requestConfirmation (workflowDeleteStageMessage w wf sd) with ⟨b, e⟩
              rw [hrc] at hmem
              cases e <;> cases b <;> simp at hmem <;> exact hmem
            subst hmsg
            rw [hanswer]
            refine ⟨rfl, ?_, _, _, _, rfl⟩
            simp [List.filter_cons, Call.isMutating]

/-- Witness of C7: `workflow delete -id test` and `workflow delete-stage -id
103` with an operator who declines. -/
theorem C7_denied_workflow_delete_does_not_mutate_witness :
    ((workflowDeleteCmd (exampleWorld false) deleteWorkflowCommand exampleClient).run.1 =
        some ("", some "Operation not confirmed. Aborting") ∧
      (workflowDeleteCmd (exampleWorld false) deleteWorkflowCommand exampleClient).run.2.filter
        Call.isMutating = [] ∧
      ∃ reads, (reads = [.Workflows] ∨ ∃ id, reads = [.WorkflowGet id]) ∧
        (workflowDeleteCmd (exampleWorld false) deleteWorkflowCommand exampleClient).run.2 =
          reads ++ [.requestConfirmation
            "Deleting workflow  Test workflow (10).  Are you sure? Type \"yes\" to continue:"]) ∧
    ((workflowDeleteStageCmd (exampleWorld false) deleteStageCommand exampleClient).run.1 =
        some ("", some "Operation not confirmed. Aborting") ∧
      (workflowDeleteStageCmd (exampleWorld false) deleteStageCommand
        exampleClient).run.2.filter Call.isMutating = [] ∧
      ∃ id wfid sdid,
        (workflowDeleteStageCmd (exampleWorld false) deleteStageCommand exampleClient).run.2 =
          [.WorkflowStageGet id, .WorkflowGet wfid, .StageDefinitionGet sdid,
            .requestConfirmation (workflowDeleteStageMessage (exampleWorld false)
              ⟨10, "test", "Test workflow", "", "asdsd", false, ""⟩ ⟨30, "test", "Test"⟩)]) :=
  ⟨(C7_denied_workflow_delete_does_not_mutate (exampleWorld false) deleteWorkflowCommand
      exampleClient
      "Deleting workflow  Test workflow (10).  Are you sure? Type \"yes\" to continue:"
      rfl rfl).1 (by decide),
    (C7_denied_workflow_delete_does_not_mutate (exampleWorld false) deleteStageCommand
      exampleClient
      (workflowDeleteStageMessage (exampleWorld false)
        ⟨10, "test", "Test workflow", "", "asdsd", false, ""⟩ ⟨30, "test", "Test"⟩)
      rfl rfl).2 (by decide)⟩

/-- C8: for `workflowDeleteCmd` and `workflowDeleteStageCmd`, whenever
autoconfirm is true and the target resolves, `requestConfirmation` is never
called and the delete endpoint is called exactly once, with the resolved id; the
command returns `""` with that call's error; and `workflowDeleteStageCmd` calls
neither `WorkflowGet` nor `StageDefinitionGet`. -/
theorem C8_autoconfirmed_workflow_delete (w : World) (c : Command) (client : Client)
    (hauto : w.GetBoolParam (c.Arguments "autoconfirm") = true) :
    (∀ wf reads, getWorkflowFromCommand w "id" c client [] = (some (.ok wf), reads) →
      (workflowDeleteCmd w c client).run =
        (some ("", client.WorkflowDelete wf.WorkflowID),
          reads ++ [.WorkflowDelete wf.WorkflowID]) ∧
      (workflowDeleteCmd w c client).run.2.filter Call.isConfirmation = [] ∧
      (workflowDeleteCmd w c client).run.2.filter Call.isMutating =
        [.WorkflowDelete wf.WorkflowID]) ∧
    (∀ id st, w.GetIntParamOk (c.Arguments "workflow_stage_id") = (id, true) →
      client.WorkflowStageGet id = .ok st →
      (workflowDeleteStageCmd w c client).run =
        (some ("", client.WorkflowStageDelete id),
          [.WorkflowStageGet id, .WorkflowStageDelete id])) := by
  constructor
  · intro wf reads hget
    have hrun := workflowDeleteCmd_autoconfirm w c client wf reads hget hauto
    obtain ⟨r, reads2, hget2, hreads⟩ := getWorkflowFromCommand_run w "id" c client []
    rw [List.nil_append, hget] at hget2
    have hr : reads = reads2 := (Prod.mk.inj hget2).2
    subst hr
    obtain ⟨hmut, hconf, -⟩ := workflow_reads_filter r reads hreads
    rw [hrun]
    refine ⟨rfl, ?_, ?_⟩
    · simp [List.filter_append, hconf, Call.isConfirmation]
    · simp [List.filter_append, hmut, Call.isMutating]
  · intro id st hid hst
    rw [workflowDeleteStageCmd_run]
    simp [hid, hst, hauto]

/-- Witness of C8: `workflow delete -id test -autoconfirm` and `workflow
delete-stage -id 103 -autoconfirm`. -/
theorem C8_autoconfirmed_workflow_delete_witness :
    ((workflowDeleteCmd (exampleWorld false) deleteWorkflowAutoconfirmCommand
        exampleClient).run = (some ("", none), [.Workflows, .WorkflowDelete 10]) ∧
      (workflowDeleteCmd (exampleWorld false) deleteWorkflowAutoconfirmCommand
        exampleClient).run.2.filter Call.isConfirmation = [] ∧
      (workflowDeleteCmd (exampleWorld false) deleteWorkflowAutoconfirmCommand
        exampleClient).run.2.filter Call.isMutating = [.WorkflowDelete 10]) ∧
    (workflowDeleteStageCmd (exampleWorld false) deleteStageAutoconfirmCommand
      exampleClient).run =
      (some ("", none), [.WorkflowStageGet 103, .WorkflowStageDelete 103]) :=
  ⟨(C8_autoconfirmed_workflow_delete (exampleWorld false) deleteWorkflowAutoconfirmCommand
      exampleClient rfl).1 ⟨10, "test", "Test workflow", "", "asdsd", false, ""⟩ [.Workflows]
      rfl,
    (C8_autoconfirmed_workflow_delete (exampleWorld false) deleteStageAutoconfirmCommand
      exampleClient rfl).2 103 ⟨103, 10, 30, 1⟩ rfl rfl⟩

/-! ### C9: required flags -/

theorem isDigit_ne_minus (c : Char) (h : c.isDigit = true) : c ≠ '-' := by
  rintro rfl
  exact absurd h (by decide)

theorem isDigit_ne_plus (c : Char) (h : c.isDigit = true) : c ≠ '+' := by
  rintro rfl
  exact absurd h (by decide)

theorem maxInt_pos : (0 : Int) < maxInt := by decide

/-- The sign and digits `Atoi` reads from a text that starts with a digit. -/
theorem Atoi_of_digits (ds : List Char) (hne : ds ≠ []) (hall : ∀ c ∈ ds, c.isDigit = true) :
    Atoi (String.mk ds) =
      if (2 : Int) ^ (intSize - 1) ≤ digitsValue ds then (maxInt, some .rangeError)
      else ((digitsValue ds : Int), none) := by
  cases ds with
  | nil => exact absurd rfl hne
  | cons c cs =>
    have hc := hall c (List.mem_cons_self c cs)
    have h1 := isDigit_ne_minus c hc
    have h2 := isDigit_ne_plus c hc
    have hall2 : (c :: cs).all Char.isDigit = true := List.all_eq_true.mpr hall
    unfold Atoi
    split
    · rename_i rest heq
      simp at heq
      exact absurd heq.1 h1
    · rename_i rest heq
      simp at heq
      exact absurd heq.1 h2
    · simp [hall2]

theorem Atoi_of_plus_digits (ds : List Char) (hne : ds ≠ [])
    (hall : ∀ c ∈ ds, c.isDigit = true) :
    Atoi (String.mk ('+' :: ds)) =
      if (2 : Int) ^ (intSize - 1) ≤ digitsValue ds then (maxInt, some .rangeError)
      else ((digitsValue ds : Int), none) := by
  have hall2 : ds.all Char.isDigit = true := List.all_eq_true.mpr hall
  simp [Atoi, hne, hall2]

theorem Atoi_of_minus_digits (ds : List Char) (hne : ds ≠ [])
    (hall : ∀ c ∈ ds, c.isDigit = true) :
    Atoi (String.mk ('-' :: ds)) =
      if (2 : Int) ^ (intSize - 1) < digitsValue ds then (minInt, some .rangeError)
      else (-(digitsValue ds : Int), none) := by
  have hall2 : ds.all Char.isDigit = true := List.all_eq_true.mpr hall
  simp [Atoi, hne, hall2]

theorem minInt_eq : minInt = -((2 : Int) ^ (intSize - 1)) := rfl

theorem maxInt_eq : maxInt = (2 : Int) ^ (intSize - 1) - 1 := rfl

/-- What `Atoi` accepts is a decimal integer. -/
theorem Atoi_ok_isDecimalInteger (s : String) (n : Int) (h : Atoi s = (n, none)) :
    IsDecimalInteger s n := by
  unfold Atoi at h
  split at h
  · rename_i rest heq
    simp only at h
    split at h
    · simp at h
    · rename_i hbody
      simp only [if_true] at h
      have hne : rest ≠ [] := fun hh => hbody (Or.inl hh)
      have hall : rest.all Char.isDigit = true := by
        by_contra hh
        exact hbody (Or.inr hh)
      split at h
      · simp at h
      · rename_i hr
        simp only [Prod.mk.injEq, and_true] at h
        refine ⟨rest, hne, List.all_eq_true.mp hall, Or.inr ⟨heq, h.symm⟩, ?_, ?_⟩
        · rw [minInt_eq]; omega
        · have := maxInt_pos
          omega
  · rename_i rest heq
    simp only at h
    split at h
    · simp at h
    · rename_i hbody
      have hne : rest ≠ [] := fun hh => hbody (Or.inl hh)
      have hall : rest.all Char.isDigit = true := by
        by_contra hh
        exact hbody (Or.inr hh)
      simp only [Bool.false_eq_true, if_false] at h
      split at h
      · simp at h
      · rename_i hr
        simp only [Prod.mk.injEq, and_true] at h
        refine ⟨rest, hne, List.all_eq_true.mp hall, Or.inl ⟨Or.inr heq, h.symm⟩, ?_, ?_⟩
        · rw [minInt_eq]
          have : (0 : Int) < (2 : Int) ^ (intSize - 1) := by decide
          omega
        · rw [maxInt_eq]; omega
  · rename_i cs _ _
    simp only at h
    split at h
    · simp at h
    · rename_i hbody
      have hne : s.data ≠ [] := fun hh => hbody (Or.inl hh)
      have hall : s.data.all Char.isDigit = true := by
        by_contra hh
        exact hbody (Or.inr hh)
      simp only [Bool.false_eq_true, if_false] at h
      split at h
      · simp at h
      · rename_i hr
        simp only [Prod.mk.injEq, and_true] at h
        refine ⟨s.data, hne, List.all_eq_true.mp hall, Or.inl ⟨Or.inl rfl, h.symm⟩, ?_, ?_⟩
        · rw [minInt_eq]
          have : (0 : Int) < (2 : Int) ^ (intSize - 1) := by decide
          omega
        · rw [maxInt_eq]; omega

/-- A decimal integer is accepted by `Atoi` with its value. -/
theorem Atoi_of_isDecimalInteger (s : String) (n : Int) (h : IsDecimalInteger s n) :
    Atoi s = (n, none) := by
  obtain ⟨ds, hne, hall, hform, hmin, hmax⟩ := h
  have hs : ∀ cs, s.data = cs → s = String.mk cs := fun cs hcs => by
    cases s; simp_all
  rw [minInt_eq] at hmin
  rw [maxInt_eq] at hmax
  rcases hform with ⟨hd | hd, hn⟩ | ⟨hd, hn⟩
  · rw [hs _ hd, Atoi_of_digits ds hne hall]
    have : ¬ ((2 : Int) ^ (intSize - 1) ≤ digitsValue ds) := by omega
    simp [this, hn]
  · rw [hs _ hd, Atoi_of_plus_digits ds hne hall]
    have : ¬ ((2 : Int) ^ (intSize - 1) ≤ digitsValue ds) := by omega
    simp [this, hn]
  · rw [hs _ hd, Atoi_of_minus_digits ds hne hall]
    have : ¬ ((2 : Int) ^ (intSize - 1) < digitsValue ds) := by omega
    simp [this, hn]

theorem takeWhile_digits_append_dash (a b : List Char) (ha : ∀ c ∈ a, c.isDigit = true) :
    (a ++ '-' :: b).takeWhile Char.isDigit = a := by
  induction a with
  | nil => simp [List.takeWhile_cons]
  | cons c cs ih =>
    have hc := ha c (List.mem_cons_self c cs)
    simp only [List.cons_append, List.takeWhile_cons, hc, if_true]
    rw [ih (fun x hx => ha x (List.mem_cons_of_mem c hx))]

theorem dropWhile_digits_append_dash (a b : List Char) (ha : ∀ c ∈ a, c.isDigit = true) :
    (a ++ '-' :: b).dropWhile Char.isDigit = '-' :: b := by
  induction a with
  | nil => simp [List.dropWhile_cons]
  | cons c cs ih =>
    have hc := ha c (List.mem_cons_self c cs)
    simp only [List.cons_append, List.dropWhile_cons, hc, if_true]
    rw [ih (fun x hx => ha x (List.mem_cons_of_mem c hx))]

/-- The pattern matches the texts `a-b` with `a` and `b` non-empty runs of
digits, and only them; the groups are `a` and `b`. -/
theorem findPortRangeSubmatch_eq_some_iff (s m1 m2 : String) :
    findPortRangeSubmatch s = some (m1, m2) ↔
      s.data = m1.data ++ '-' :: m2.data ∧ m1.data ≠ [] ∧ m2.data ≠ [] ∧
        (∀ c ∈ m1.data, c.isDigit = true) ∧ (∀ c ∈ m2.data, c.isDigit = true) := by
  constructor
  · intro h
    unfold findPortRangeSubmatch at h
    split at h
    · rename_i rest heq
      split at h
      · rename_i hc
        simp only [Option.some.injEq, Prod.mk.injEq] at h
        obtain ⟨h1, h2⟩ := h
        subst h1 h2
        refine ⟨?_, hc.1, hc.2.1, ?_, List.all_eq_true.mp hc.2.2⟩
        · have := List.takeWhile_append_dropWhile Char.isDigit s.data
          rw [heq] at this
          exact this.symm
        · intro c hc2
          exact (List.mem_takeWhile_imp hc2)
      · simp at h
    · simp at h
  · rintro ⟨hs, h1, h2, hd1, hd2⟩
    unfold findPortRangeSubmatch
    rw [hs, dropWhile_digits_append_dash _ _ hd1, takeWhile_digits_append_dash _ _ hd1]
    have : m2.data.all Char.isDigit = true := List.all_eq_true.mpr hd2
    simp [h1, h2, this]

/-- C10: `portStringToRange s` parses the `-port` flag. If `s` is a decimal
integer `n > 0` (an optional sign and decimal digits, within the range of
`int`) it returns `(n, n, nil)`; otherwise, if `s` has the form `a-b` with `a`
and `b` non-empty strings of decimal digits within the range of `int`, it
returns `(a, b, nil)`; for every other `s` it returns `(0, 0, err)` with the
text `Could not parse port definition <s>`. -/
theorem C10_portStringToRange_cases (s : String) :
    (∀ n, IsDecimalInteger s n → 0 < n → portStringToRange s = (n, n, none)) ∧
    (∀ a b, IsPortRangeText s a b →
      (¬ ∃ n, IsDecimalInteger s n ∧ 0 < n) ∧
      portStringToRange s = ((digitsValue a : Int), (digitsValue b : Int), none)) ∧
    ((¬ ∃ n, IsDecimalInteger s n ∧ 0 < n) → (¬ ∃ a b, IsPortRangeText s a b) →
      portStringToRange s = (0, 0, some ("Could not parse port definition " ++ s))) := by
  refine ⟨?_, ?_, ?_⟩
  · intro n hdec hpos
    have h := Atoi_of_isDecimalInteger s n hdec
    simp [portStringToRange, h, hpos]
  · rintro a b ⟨hs, ha, hb, hda, hdb, hra, hrb⟩
    have hnot : ¬ ∃ n, IsDecimalInteger s n ∧ 0 < n := by
      rintro ⟨n, ⟨ds, hne, hall, hform, -, -⟩, hpos⟩
      have hdash : '-' ∈ s.data := by rw [hs]; simp
      have hnd : ¬ ('-' ∈ ds) := fun hm => absurd (hall _ hm) (by decide)
      rcases hform with ⟨hd | hd, -⟩ | ⟨hd, hn⟩
      · rw [hd] at hdash; exact hnd hdash
      · rw [hd] at hdash
        simp at hdash
        exact hnd hdash
      · omega
    refine ⟨hnot, ?_⟩
    have hA : ¬ ((Atoi s).2 = none ∧ (Atoi s).1 > 0) := by
      rintro ⟨h1, h2⟩
      exact hnot ⟨(Atoi s).1, Atoi_ok_isDecimalInteger s _ (by rw [← h1]), h2⟩
    have hm : findPortRangeSubmatch s = some (String.mk a, String.mk b) :=
      (findPortRangeSubmatch_eq_some_iff s _ _).mpr ⟨hs, ha, hb, hda, hdb⟩
    rw [maxInt_eq] at hra hrb
    have h1 : Atoi (String.mk a) = ((digitsValue a : Int), none) := by
      rw [Atoi_of_digits a ha hda]
      have : ¬ ((2 : Int) ^ (intSize - 1) ≤ digitsValue a) := by omega
      simp [this]
    have h2 : Atoi (String.mk b) = ((digitsValue b : Int), none) := by
      rw [Atoi_of_digits b hb hdb]
      have : ¬ ((2 : Int) ^ (intSize - 1) ≤ digitsValue b) := by omega
      simp [this]
    simp [portStringToRange, hA, hm, h1, h2]
  · intro hnot hnor
    have hA : ¬ ((Atoi s).2 = none ∧ (Atoi s).1 > 0) := by
      rintro ⟨h1, h2⟩
      exact hnot ⟨(Atoi s).1, Atoi_ok_isDecimalInteger s _ (by rw [← h1]), h2⟩
    unfold portStringToRange
    rw [if_neg hA]
    cases hm : findPortRangeSubmatch s with
    | none => rfl
    | some m =>
      obtain ⟨m1, m2⟩ := m
      obtain ⟨hs, h1, h2, hd1, hd2⟩ := (findPortRangeSubmatch_eq_some_iff s m1 m2).mp hm
      have e1 : Atoi m1 = _ := Atoi_of_digits m1.data h1 hd1
      have e2 : Atoi m2 = _ := Atoi_of_digits m2.data h2 hd2
      have hpos := maxInt_pos
      simp only
      by_cases r1 : (2 : Int) ^ (intSize - 1) ≤ digitsValue m1.data
      · rw [if_pos r1] at e1
        simp [e1, hpos]
      · rw [if_neg r1] at e1
        by_cases r2 : (2 : Int) ^ (intSize - 1) ≤ digitsValue m2.data
        · rw [if_pos r2] at e2
          simp [e1, e2, hpos]
        · exfalso
          refine hnor ⟨m1.data, m2.data, hs, h1, h2, hd1, hd2, ?_, ?_⟩
          · rw [maxInt_eq]; omega
          · rw [maxInt_eq]; omega

/-- Instances of C10: a port, a signed port, a range, and texts that are
neither. -/
theorem C10_portStringToRange_cases_witness :
    portStringToRange "80" = (80, 80, none) ∧
    portStringToRange "+80" = (80, 80, none) ∧
    portStringToRange "8080-8090" = (8080, 8090, none) ∧
    portStringToRange "0" = (0, 0, some "Could not parse port definition 0") ∧
    portStringToRange "80-" = (0, 0, some "Could not parse port definition 80-") ∧
    portStringToRange "http" = (0, 0, some "Could not parse port definition http") :=
  ⟨(C10_portStringToRange_cases "80").1 80
      ⟨['8', '0'], by decide, by decide, Or.inl ⟨Or.inl rfl, rfl⟩, by decide, by decide⟩
      (by decide),
    by decide, by decide, by decide, by decide, by decide⟩

/-! ### C11: parsing of the `-source` and `-destination` flags -/

theorem splitChars_ne_nil (sep : Char) (cs : List Char) : splitChars sep cs ≠ [] := by
  cases cs with
  | nil => simp [splitChars]
  | cons c cs =>
    unfold splitChars
    split
    · simp
    · split <;> simp

/-- A text without the separator is one piece. -/
theorem splitChars_of_not_mem (sep : Char) (cs : List Char) (h : sep ∉ cs) :
    splitChars sep cs = [cs] := by
  induction cs with
  | nil => rfl
  | cons c cs ih =>
    have hc : c ≠ sep := fun e => h (e ▸ List.mem_cons_self c cs)
    have hcs : sep ∉ cs := fun e => h (List.mem_cons_of_mem c e)
    simp [splitChars, hc, ih hcs]

/-- The first piece is what stands before the first separator. -/
theorem splitChars_append (sep : Char) (a b : List Char) (h : sep ∉ a) :
    splitChars sep (a ++ sep :: b) = a :: splitChars sep b := by
  induction a with
  | nil => simp [splitChars]
  | cons c cs ih =>
    have hc : c ≠ sep := fun e => h (e ▸ List.mem_cons_self c cs)
    have hcs : sep ∉ cs := fun e => h (List.mem_cons_of_mem c e)
    simp [splitChars, hc, ih hcs]

/-- A text with a separator has a first one. -/
theorem exists_first_sep (sep : Char) (l : List Char) (h : sep ∈ l) :
    ∃ a b, l = a ++ sep :: b ∧ sep ∉ a := by
  induction l with
  | nil => simp at h
  | cons c cs ih =>
    by_cases hc : c = sep
    · exact ⟨[], cs, by simp [hc], by simp⟩
    · have hcs : sep ∈ cs := by
        rcases List.mem_cons.mp h with e | e
        · exact absurd e.symm hc
        · exact e
      obtain ⟨a, b, hab, ha⟩ := ih hcs
      refine ⟨c :: a, b, by simp [hab], ?_⟩
      intro hm
      rcases List.mem_cons.mp hm with e | e
      · exact hc e.symm
      · exact ha e

theorem string_mk_eq_empty (a : List Char) : String.mk a = "" ↔ a = [] := by
  constructor
  · intro h
    have := congrArg String.data h
    simpa using this
  · rintro rfl
    rfl

theorem string_eq_empty_iff (s : String) : s = "" ↔ s.data = [] := by
  cases s
  exact string_mk_eq_empty _

/-- C11: `addressStringToRange s` parses the `-source` / `-destination` flag.
For `s = ""` it returns the error `address cannot be empty`; for every non-empty
`s` without a dash it returns `(s, s, nil)`; for every `s` with exactly one dash
and non-empty text on both sides it returns `(text before the dash, text after
the dash, nil)`; for every other `s` (a leading or trailing dash, two or more
dashes) it returns `("", "", err)` with the text `cannot parse address <s>`. -/
theorem C11_addressStringToRange_cases (s : String) :
    (s = "" → addressStringToRange s = ("", "", some "address cannot be empty")) ∧
    (s ≠ "" → '-' ∉ s.data → addressStringToRange s = (s, s, none)) ∧
    (∀ a b : List Char, s.data = a ++ '-' :: b → '-' ∉ a → '-' ∉ b → a ≠ [] → b ≠ [] →
      addressStringToRange s = (String.mk a, String.mk b, none)) ∧
    (s ≠ "" → '-' ∈ s.data →
      (¬ ∃ a b : List Char, s.data = a ++ '-' :: b ∧ '-' ∉ a ∧ '-' ∉ b ∧ a ≠ [] ∧ b ≠ []) →
      addressStringToRange s = ("", "", some ("cannot parse address " ++ s))) ∧
    (∀ a b : List Char, s.data = a ++ '-' :: b → (a = [] ∨ b = [] ∨ '-' ∈ a ∨ '-' ∈ b) →
      addressStringToRange s = ("", "", some ("cannot parse address " ++ s))) := by
  have hother : s ≠ "" → '-' ∈ s.data →
      (¬ ∃ a b : List Char, s.data = a ++ '-' :: b ∧ '-' ∉ a ∧ '-' ∉ b ∧ a ≠ [] ∧ b ≠ []) →
      addressStringToRange s = ("", "", some ("cannot parse address " ++ s)) := by
    intro hne hmem hnot
    obtain ⟨a, b, hab, ha⟩ := exists_first_sep '-' s.data hmem
    have hsplit : splitChars '-' s.data = a :: splitChars '-' b := by
      rw [hab]; exact splitChars_append '-' a b ha
    by_cases hb : '-' ∈ b
    · obtain ⟨a2, b2, hab2, ha2⟩ := exists_first_sep '-' b hb
      have hsplit2 : splitChars '-' b = a2 :: splitChars '-' b2 := by
        rw [hab2]; exact splitChars_append '-' a2 b2 ha2
      rcases hrest : splitChars '-' b2 with _ | ⟨p, ps⟩
      · exact absurd hrest (splitChars_ne_nil '-' b2)
      · simp [addressStringToRange, hne, stringsSplit, hsplit, hsplit2, hrest]
    · have hsplit2 : splitChars '-' b = [b] := splitChars_of_not_mem '-' b hb
      have hor : a = [] ∨ b = [] := by
        by_contra hcon
        push_neg at hcon
        exact hnot ⟨a, b, hab, ha, hb, hcon.1, hcon.2⟩
      have hor2 : String.mk a = "" ∨ String.mk b = "" := by
        rcases hor with h | h
        · exact Or.inl ((string_mk_eq_empty a).mpr h)
        · exact Or.inr ((string_mk_eq_empty b).mpr h)
      simp [addressStringToRange, hne, stringsSplit, hsplit, hsplit2, hor2]
  refine ⟨?_, ?_, ?_, hother, ?_⟩
  · intro h
    simp [addressStringToRange, h]
  · intro hne hno
    have hsplit := splitChars_of_not_mem '-' s.data hno
    simp [addressStringToRange, hne, stringsSplit, hsplit]
  · intro a b hab ha hb hane hbne
    have hne : s ≠ "" := by
      intro h
      rw [(string_eq_empty_iff s).mp h] at hab
      simp at hab
    have hsplit : splitChars '-' s.data = [a, b] := by
      rw [hab, splitChars_append '-' a b ha, splitChars_of_not_mem '-' b hb]
    have h1 : ¬ String.mk a = "" := fun h => hane ((string_mk_eq_empty a).mp h)
    have h2 : ¬ String.mk b = "" := fun h => hbne ((string_mk_eq_empty b).mp h)
    simp [addressStringToRange, hne, stringsSplit, hsplit, h1, h2]
  · intro a b hab hbad
    have hne : s ≠ "" := by
      intro h
      rw [(string_eq_empty_iff s).mp h] at hab
      simp at hab
    have hmem : '-' ∈ s.data := by rw [hab]; simp
    apply hother hne hmem
    rintro ⟨a2, b2, hab2, ha2, hb2, hane, hbne⟩
    have hcount : s.data.count '-' = 1 := by
      rw [hab2]
      simp [List.count_append, List.count_cons, List.count_eq_zero_of_not_mem ha2,
        List.count_eq_zero_of_not_mem hb2]
    have hsplit : splitChars '-' s.data = [a2, b2] := by
      rw [hab2, splitChars_append '-' a2 b2 ha2, splitChars_of_not_mem '-' b2 hb2]
    rcases hbad with h | h | h | h
    · subst h
      rw [hab] at hsplit
      simp [splitChars] at hsplit
      exact hane hsplit.1
    · subst h
      have hc : (a ++ ['-']).count '-' = 1 := by rw [← hab]; exact hcount
      have ha0 : '-' ∉ a := by
        intro hm
        have := List.count_pos_iff.mpr hm
        simp [List.count_append] at hc
        omega
      rw [hab, splitChars_append '-' a [] ha0] at hsplit
      simp [splitChars] at hsplit
      exact hbne hsplit.2
    · have := List.count_pos_iff.mpr h
      rw [hab] at hcount
      simp [List.count_append, List.count_cons] at hcount
      omega
    · have := List.count_pos_iff.mpr h
      rw [hab] at hcount
      simp [List.count_append, List.count_cons] at hcount
      omega

/-- Instances of C11: the empty text, one address, a range, and malformed
ranges. -/
theorem C11_addressStringToRange_cases_witness :
    addressStringToRange "" = ("", "", some "address cannot be empty") ∧
    addressStringToRange "10.0.0.1" = ("10.0.0.1", "10.0.0.1", none) ∧
    addressStringToRange "10.0.0.1-10.0.0.9" = ("10.0.0.1", "10.0.0.9", none) ∧
    addressStringToRange "-10.0.0.9" = ("", "", some "cannot parse address -10.0.0.9") ∧
    addressStringToRange "10.0.0.1-" = ("", "", some "cannot parse address 10.0.0.1-") ∧
    addressStringToRange "a-b-c" = ("", "", some "cannot parse address a-b-c") :=
  ⟨(C11_addressStringToRange_cases "").1 rfl,
    (C11_addressStringToRange_cases "10.0.0.1").2.1 (by decide) (by decide),
    by decide, by decide, by decide, by decide⟩

/-! ### C12 to C14: infrastructure get and list -/

/-- The loop of `GetInfrastructureByIdOrLabel` stops at the first entry whose
label or converted id is the argument. -/
theorem findInfrastructure_eq (ctx : ApiContext) (data : List Infrastructure) (arg : String) :
    findInfrastructure ctx data arg =
      (data.find? (matchesIdOrLabel ctx arg)).getD Infrastructure.zero := by
  unfold findInfrastructure
  simp only [Id.run]
  induction data with
  | nil => rfl
  | cons i is ih =>
    simp only [List.forIn_cons, List.find?_cons, matchesIdOrLabel] at ih ⊢
    by_cases h1 : i.Label = arg
    · simp [h1]
    · by_cases h2 : Itoa (i.Id.toInt ctx.intOfUnrepresentable) = arg
      · simp [h2]
      · have hb : (i.Label == arg ||
            Itoa (i.Id.toInt ctx.intOfUnrepresentable) == arg) = false := by simp [h1, h2]
        simp only [hb]
        simpa [h1, h2] using ih

/-- `int(f)` of an integral `float32` within the range of `int` is that
integer. -/
theorem Float32.toInt_integral (unrepresentable : Float32 → Int) (negative : Bool) (m : Nat)
    (hm : (m : Int) ≤ maxInt) :
    Float32.toInt unrepresentable (.finite negative m 0) =
      if negative then -(m : Int) else (m : Int) := by
  rw [maxInt_eq] at hm
  cases negative
  · have h1 : minInt ≤ (m : Int) := by rw [minInt_eq]; omega
    have h2 : (m : Int) ≤ maxInt := by rw [maxInt_eq]; omega
    simp [Float32.toInt, h1, h2]
  · have h1 : minInt ≤ -(m : Int) := by rw [minInt_eq]; omega
    have h2 : -(m : Int) ≤ maxInt := by rw [maxInt_eq]; omega
    simp [Float32.toInt, h1, h2]

theorem find?_first_match {α : Type} (p : α → Bool) (pre post : List α) (i : α)
    (hpre : ∀ j ∈ pre, p j = false) (hi : p i = true) :
    (pre ++ i :: post).find? p = some i := by
  induction pre with
  | nil => simp [List.find?_cons, hi]
  | cons j js ih =>
    have hj := hpre j (List.mem_cons_self j js)
    simp only [List.cons_append, List.find?_cons, hj]
    exact ih (fun k hk => hpre k (List.mem_cons_of_mem j hk))

theorem find?_no_match {α : Type} (p : α → Bool) (l : List α) (h : ∀ j ∈ l, p j = false) :
    l.find? p = none := by
  induction l with
  | nil => rfl
  | cons j js ih =>
    have hj := h j (List.mem_cons_self j js)
    simp only [List.find?_cons, hj]
    exact ih (fun k hk => h k (List.mem_cons_of_mem j hk))

/-- `GetInfrastructureByIdOrLabel` in terms of the first match of the search
result. -/
theorem GetInfrastructureByIdOrLabel_result (ctx : ApiContext) (arg : String)
    (data : List Infrastructure)
    (hexec : ctx.Execute (GetInfrastructures.Search arg) = .ok data) :
    (GetInfrastructureByIdOrLabel ctx arg).requests = [GetInfrastructures.Search arg] ∧
    (GetInfrastructureByIdOrLabel ctx arg).result =
      match data.find? (matchesIdOrLabel ctx arg) with
      | none => .error ("infrastructure '" ++ arg ++ "' not found")
      | some i =>
        if i.Id.isZero = true then .error ("infrastructure '" ++ arg ++ "' not found")
        else .ok i := by
  unfold GetInfrastructureByIdOrLabel
  rw [hexec]
  simp only [findInfrastructure_eq]
  by_cases hlen : data.length = 0
  · have : data = [] := List.length_eq_zero.mp hlen
    subst this
    simp
  · simp only [hlen, if_false]
    cases hf : data.find? (matchesIdOrLabel ctx arg) with
    | none => simp [Infrastructure.zero, Float32.zero, Float32.isZero]
    | some i =>
      by_cases hz : i.Id.isZero = true
      · simp [hz]
      · simp [hz]

/-- C12 as stated fails: the search result holds one infrastructure, labelled
`web`, with id 0; its label is the argument, and `GetInfrastructureByIdOrLabel`
answers that it is not found. -/
theorem C12_match_with_id_zero_is_not_found :
    matchesIdOrLabel (exampleContext []) "web" (exampleInfrastructure 0 "web") = true ∧
    (exampleInfrastructure 0 "web").Id = Float32.zero ∧
    (GetInfrastructureByIdOrLabel (exampleContext [exampleInfrastructure 0 "web"])
      "web").result = .error "infrastructure 'web' not found" :=
  ⟨by decide, rfl, rfl⟩

/-- C12, amended: infrastructure get accepts either an id or a label. The id of
an infrastructure is a `float32`; `int(id)` is the id with its fraction
discarded, and is the id itself when the id is an integer within the range of
`int`. For every search result and argument, when the result holds an
infrastructure whose label is the argument or whose `int(id)` written in decimal
is the argument, and the id of the first such infrastructure in list order is
not 0, `GetInfrastructureByIdOrLabel` returns that infrastructure and no error;
when the id of the first such infrastructure is 0, when the list is empty, and
when it holds no such infrastructure, it returns the error `infrastructure
'<arg>' not found`. One search request is sent. -/
theorem C12_get_by_id_or_label (ctx : ApiContext) (arg : String) (data : List Infrastructure)
    (hexec : ctx.Execute (GetInfrastructures.Search arg) = .ok data) :
    (∀ pre i post, data = pre ++ i :: post →
      (∀ j ∈ pre, j.Label ≠ arg ∧ Itoa (j.Id.toInt ctx.intOfUnrepresentable) ≠ arg) →
      (i.Label = arg ∨ Itoa (i.Id.toInt ctx.intOfUnrepresentable) = arg) →
      (i.Id.isZero = false → (GetInfrastructureByIdOrLabel ctx arg).result = .ok i) ∧
      (i.Id.isZero = true → (GetInfrastructureByIdOrLabel ctx arg).result =
        .error ("infrastructure '" ++ arg ++ "' not found"))) ∧
    (data = [] → (GetInfrastructureByIdOrLabel ctx arg).result =
      .error ("infrastructure '" ++ arg ++ "' not found")) ∧
    ((∀ j ∈ data, j.Label ≠ arg ∧ Itoa (j.Id.toInt ctx.intOfUnrepresentable) ≠ arg) →
      (GetInfrastructureByIdOrLabel ctx arg).result =
        .error ("infrastructure '" ++ arg ++ "' not found")) ∧
    (GetInfrastructureByIdOrLabel ctx arg).requests = [GetInfrastructures.Search arg] ∧
    (∀ (negative : Bool) (m : Nat), (m : Int) ≤ maxInt →
      Float32.toInt ctx.intOfUnrepresentable (.finite negative m 0) =
        if negative then -(m : Int) else (m : Int)) ∧
    (∀ (negative : Bool) (m : Nat) (e : Int),
      Float32.isZero (.finite negative m e) = true ↔ m = 0) := by
  obtain ⟨hreq, hres⟩ := GetInfrastructureByIdOrLabel_result ctx arg data hexec
  have hno : ∀ l : List Infrastructure,
      (∀ j ∈ l, j.Label ≠ arg ∧ Itoa (j.Id.toInt ctx.intOfUnrepresentable) ≠ arg) →
      ∀ j ∈ l, matchesIdOrLabel ctx arg j = false := by
    intro l h j hj
    simp [matchesIdOrLabel, (h j hj).1, (h j hj).2]
  refine ⟨?_, ?_, ?_, hreq,
    fun negative m hm => Float32.toInt_integral ctx.intOfUnrepresentable negative m hm,
    fun negative m e => by simp [Float32.isZero]⟩
  · intro pre i post hdata hpre hi
    have hm : matchesIdOrLabel ctx arg i = true := by
      rcases hi with h | h <;> simp [matchesIdOrLabel, h]
    have hfind : data.find? (matchesIdOrLabel ctx arg) = some i := by
      rw [hdata]
      exact find?_first_match _ pre post i (hno pre hpre) hm
    rw [hres, hfind]
    constructor
    · intro hz
      simp [hz]
    · intro hz
      simp [hz]
  · intro hnil
    rw [hres, hnil]
    rfl
  · intro hall
    rw [hres, find?_no_match _ data (hno data hall)]

/-- Witness of C12: among `db` (5), `web` (7) and an infrastructure labelled `7`
(8), the argument `7` gives `web`, the first entry that matches; and an
infrastructure with id 7.5 (`15 * 2^-1`) is found by the argument `7`. -/
theorem C12_get_by_id_or_label_witness :
    (GetInfrastructureByIdOrLabel (exampleContext exampleInfrastructures) "7").result =
      .ok (exampleInfrastructure 7 "web") ∧
    (GetInfrastructureByIdOrLabel
      (exampleContext [⟨.finite false 15 (-1), "x", "active", Float32.zero, Float32.zero⟩])
      "7").result = .ok ⟨.finite false 15 (-1), "x", "active", Float32.zero, Float32.zero⟩ :=
  ⟨((C12_get_by_id_or_label (exampleContext exampleInfrastructures) "7" exampleInfrastructures
      rfl).1 [exampleInfrastructure 5 "db"] (exampleInfrastructure 7 "web")
      [exampleInfrastructure 8 "7"] rfl (by decide) (by decide)).1 (by decide),
    ((C12_get_by_id_or_label
      (exampleContext [⟨.finite false 15 (-1), "x", "active", Float32.zero, Float32.zero⟩])
      "7" [⟨.finite false 15 (-1), "x", "active", Float32.zero, Float32.zero⟩]
      rfl).1 [] ⟨.finite false 15 (-1), "x", "active", Float32.zero, Float32.zero⟩ [] rfl
      (by simp) (by decide)).1 (by decide)⟩

/-- `InfrastructureList` sends one request, `infrastructureListRequest`. -/
theorem InfrastructureList_requests (ctx : ApiContext) (showOwnOnly showOrdered showDeleted : Bool) :
    (InfrastructureList ctx showOwnOnly showOrdered showDeleted).requests =
      [infrastructureListRequest ctx.GetUserId showOwnOnly showOrdered showDeleted] := by
  cases showOwnOnly <;> cases showOrdered <;> cases showDeleted <;>
    simp [InfrastructureList, Id.run, infrastructureListRequest] <;>
    split <;> rfl

/-- C13: infrastructure list does not show ordered infrastructures unless
show-ordered is set and does not show deleted ones unless show-deleted is set.
For every `(showOrdered, showDeleted)` the service-status filter of the request
`InfrastructureList` sends is `$not:$eq:ordered` when show-ordered is not set
followed by `$not:$eq:deleted` when show-deleted is not set; no status filter is
applied when both are set; and the request is always sorted by `id:ASC`. -/
theorem C13_infrastructure_list_status_filter (ctx : ApiContext)
    (showOwnOnly showOrdered showDeleted : Bool) :
    ∃ r, (InfrastructureList ctx showOwnOnly showOrdered showDeleted).requests = [r] ∧
      r.filterServiceStatus =
        (if showOrdered = true ∧ showDeleted = true then none
         else some ((if showOrdered = true then [] else ["$not:$eq:ordered"]) ++
           (if showDeleted = true then [] else ["$not:$eq:deleted"]))) ∧
      r.sortBy = some ["id:ASC"] ∧
      (InfrastructureList ctx showOwnOnly false false).requests.map
          GetInfrastructuresRequest.filterServiceStatus =
        [some ["$not:$eq:ordered", "$not:$eq:deleted"]] ∧
      (InfrastructureList ctx showOwnOnly true true).requests.map
          GetInfrastructuresRequest.filterServiceStatus = [none] := by
  refine ⟨infrastructureListRequest ctx.GetUserId showOwnOnly showOrdered showDeleted,
    InfrastructureList_requests ctx showOwnOnly showOrdered showDeleted, ?_, rfl, ?_, ?_⟩
  · cases showOrdered <;> cases showDeleted <;> simp [infrastructureListRequest]
  · rw [InfrastructureList_requests]
    simp [infrastructureListRequest]
  · rw [InfrastructureList_requests]
    simp [infrastructureListRequest]

/-- C14 on the code: with `--show-all` set, the request `infrastructure list`
sends carries the owner filter `$eq:<current user>`; it carries none when the
flag is not set. The flag is handed to the parameter `showOwnOnly` of
`InfrastructureList`. -/
theorem C14_show_all_restricts_to_own (ctx : ApiContext) (showOrdered showDeleted : Bool) :
    (infrastructureListCmd ctx ⟨true, showOrdered, showDeleted⟩).requests.map
        GetInfrastructuresRequest.filterUserIdOwner = [some ["$eq:" ++ ctx.GetUserId]] ∧
    (infrastructureListCmd ctx ⟨false, showOrdered, showDeleted⟩).requests.map
        GetInfrastructuresRequest.filterUserIdOwner = [none] ∧
    (infrastructureListCmd (exampleContext []) ⟨true, false, false⟩).requests =
      [⟨none, some ["$eq:42"], some ["$not:$eq:ordered", "$not:$eq:deleted"],
        some ["id:ASC"]⟩] := by
  refine ⟨?_, ?_, ?_⟩
  · simp [infrastructureListCmd, InfrastructureList_requests, infrastructureListRequest]
  · simp [infrastructureListCmd, InfrastructureList_requests, infrastructureListRequest]
  · rfl


/-! ### C15 and C16: the operating-system flags of volume-template create -/

/-- C15: the operating-system flags of volume-template create are all-or-none.
`getOperatingSystemFromCommand` returns no error if and only if `os-type`,
`os-version` and `os-architecture` are all provided or all omitted; when all
are provided the result carries exactly those three values, and when all are
omitted it is the zero `OperatingSystem`. A flag is provided when
`GetStringParamOk` answers `ok` for it. -/
theorem C15_operating_system_flags_all_or_none (w : World) (c : Command) :
    ((∃ os, getOperatingSystemFromCommand w c = .ok os) ↔
      (((w.GetStringParamOk (c.Arguments "os_type")).2 = true ∧
        (w.GetStringParamOk (c.Arguments "os_version")).2 = true ∧
        (w.GetStringParamOk (c.Arguments "os_architecture")).2 = true) ∨
       ((w.GetStringParamOk (c.Arguments "os_type")).2 = false ∧
        (w.GetStringParamOk (c.Arguments "os_version")).2 = false ∧
        (w.GetStringParamOk (c.Arguments "os_architecture")).2 = false))) ∧
    ((w.GetStringParamOk (c.Arguments "os_type")).2 = true →
      (w.GetStringParamOk (c.Arguments "os_version")).2 = true →
      (w.GetStringParamOk (c.Arguments "os_architecture")).2 = true →
      getOperatingSystemFromCommand w c =
        .ok ⟨(w.GetStringParamOk (c.Arguments "os_type")).1,
          (w.GetStringParamOk (c.Arguments "os_version")).1,
          (w.GetStringParamOk (c.Arguments "os_architecture")).1⟩) ∧
    ((w.GetStringParamOk (c.Arguments "os_type")).2 = false →
      (w.GetStringParamOk (c.Arguments "os_version")).2 = false →
      (w.GetStringParamOk (c.Arguments "os_architecture")).2 = false →
      getOperatingSystemFromCommand w c = .ok OperatingSystem.zero) := by
  cases h1 : (w.GetStringParamOk (c.Arguments "os_type")).2 <;>
    cases h2 : (w.GetStringParamOk (c.Arguments "os_version")).2 <;>
    cases h3 : (w.GetStringParamOk (c.Arguments "os_architecture")).2 <;>
    simp [getOperatingSystemFromCommand, Id.run, h1, h2, h3, OperatingSystem.zero]

/-- C16 on the code: `volumeTemplateCreateFromDriveCmd` reads neither
`network_os` nor any `network_os_*` argument. Two commands that agree on every
other argument run alike; and `volume-template create -id 7 -label nos
-description "NOS template" -name NOS -network-os`, with none of the
`-network-os-*` flags, for which `getNetworkOperatingSystemFromCommand` answers
`network-os-switch-driver is required`, calls `VolumeTemplateCreateFromDrive`
and returns no error. -/
theorem C16_network_os_flags_are_not_checked :
    (∀ (w : World) (c c2 : Command) (client : Client),
      (∀ key, key ∉ networkOsKeys → c.Arguments key = c2.Arguments key) →
      volumeTemplateCreateFromDriveCmd w c client =
        volumeTemplateCreateFromDriveCmd w c2 client) ∧
    (exampleWorld true).GetBoolParam (createNetworkOsTemplateCommand.Arguments "network_os") =
      true ∧
    getNetworkOperatingSystemFromCommand (exampleWorld true) createNetworkOsTemplateCommand =
      .error "network-os-switch-driver is required" ∧
    (volumeTemplateCreateFromDriveCmd (exampleWorld true) createNetworkOsTemplateCommand
      exampleClient).run =
      (some ("", none),
        [.VolumeTemplateCreateFromDrive 7
          { VolumeTemplate.zero with
            VolumeTemplateLabel := "nos",
            VolumeTemplateDisplayName := "NOS",
            VolumeTemplateDescription := "NOS template",
            VolumeTemplateTags := [""] }]) := by
  refine ⟨?_, rfl, rfl, rfl⟩
  intro w c c2 client h
  have k1 := h "deprecation_status" (by decide)
  have k2 := h "boot_methods_supported" (by decide)
  have k3 := h "tags" (by decide)
  have k4 := h "boot_type" (by decide)
  have k5 := h "os_bootstrap_function_name" (by decide)
  have k6 := h "version" (by decide)
  have k7 := h "os_ready_method" (by decide)
  have k8 := h "drive_id" (by decide)
  have k9 := h "label" (by decide)
  have k10 := h "description" (by decide)
  have k11 := h "display_name" (by decide)
  have k12 := h "os_type" (by decide)
  have k13 := h "os_version" (by decide)
  have k14 := h "os_architecture" (by decide)
  have k15 := h "return_id" (by decide)
  simp only [volumeTemplateCreateFromDriveCmd, getOperatingSystemFromCommand,
    k1, k2, k3, k4, k5, k6, k7, k8, k9, k10, k11, k12, k13, k14, k15]

/-! ### C17: the rows of volume-template list -/

theorem intercalate_go_data (acc sep : String) (l : List String) :
    (String.intercalate.go acc sep l).data =
      acc.data ++ (l.map (fun a => sep.data ++ a.data)).flatten := by
  induction l generalizing acc with
  | nil => simp [String.intercalate.go]
  | cons a as ih =>
    simp [String.intercalate.go, ih, List.append_assoc]

theorem stringsJoin_cons_data (a : String) (l : List String) (sep : String) :
    (stringsJoin (a :: l) sep).data = a.data ++ (l.map (fun b => sep.data ++ b.data)).flatten := by
  simp [stringsJoin, String.intercalate, intercalate_go_data]

/-- Joining the pieces of a split gives the text back. -/
theorem splitChars_join (sep : Char) (cs : List Char) :
    ∃ p ps, splitChars sep cs = p :: ps ∧ p ++ (ps.map (fun q => sep :: q)).flatten = cs := by
  induction cs with
  | nil => exact ⟨[], [], rfl, rfl⟩
  | cons c cs ih =>
    obtain ⟨p, ps, hsplit, hjoin⟩ := ih
    by_cases hc : c = sep
    · refine ⟨[], p :: ps, by simp [splitChars, hc, hsplit], ?_⟩
      simp [hc, hjoin]
    · refine ⟨c :: p, ps, by simp [splitChars, hc, hsplit], ?_⟩
      simp [hjoin]

/-- The FLAGS text: the boot methods, split at the commas, followed by `local`
when the template supports local disk, joined with commas, is the boot methods
followed by `,local` when the template supports local disk. -/
theorem flags_text (boot : String) ( isLocal : Bool) :
    stringsJoin (stringsSplit boot ',' ++ (if isLocal then ["local"] else [])) "," =
      boot ++ (if isLocal then ",local" else "") := by
  obtain ⟨p, ps, hsplit, hjoin⟩ := splitChars_join ',' boot.data
  apply String.ext
  cases isLocal
  · simp only [stringsSplit, hsplit, List.map_cons, Bool.false_eq_true, if_false,
      List.append_nil, stringsJoin_cons_data, String.append_empty]
    rw [← hjoin]
    simp [List.map_map, Function.comp_def]
  · simp only [stringsSplit, hsplit, List.map_cons, if_true, List.cons_append,
      stringsJoin_cons_data, String.data_append]
    rw [← hjoin]
    simp [List.map_map, Function.comp_def]

/-- A loop that appends one row for each element it keeps is a filter followed
by a map. -/
theorem forIn_filter_map {α β : Type} (keep : α → Bool) (row : α → β)
    (f : α → List β → Id (ForInStep (List β)))
    (hf : ∀ a r, f a r = ForInStep.yield (if keep a = true then r ++ [row a] else r))
    (l : List α) (acc : List β) :
    forIn (m := Id) l acc f = acc ++ (l.filter keep).map row := by
  induction l generalizing acc with
  | nil => simp
  | cons a as ih =>
    simp only [List.forIn_cons, hf, List.filter_cons]
    by_cases hk : keep a = true
    · simp only [hk, if_true]
      show forIn (m := Id) as (acc ++ [row a]) f = _
      rw [ih]
      simp
    · simp only [hk, if_false]
      show forIn (m := Id) as acc f = _
      rw [ih]
      simp

/-- The loop of `volumeTemplatesListCmd` as a filter followed by a map. -/
theorem volumeTemplatesListRows_eq (localOnly pxeOnly : Bool) (vList : List VolumeTemplate) :
    volumeTemplatesListRows localOnly pxeOnly vList =
      (vList.filter (fun t =>
        (!localOnly || t.VolumeTemplateLocalDiskSupported) &&
        (!pxeOnly || stringsContains t.VolumeTemplateBootMethodsSupported "pxe_iscsi"))).map
      (fun t =>
        [.int t.VolumeTemplateID, .str t.VolumeTemplateLabel, .str t.VolumeTemplateDisplayName,
          .int t.VolumeTemplateSizeMBytes, .str t.VolumeTemplateDeprecationStatus,
          .str (t.VolumeTemplateBootMethodsSupported ++
            (if t.VolumeTemplateLocalDiskSupported then ",local" else ""))]) := by
  unfold volumeTemplatesListRows
  simp only [Id.run, bind_pure]
  rw [forIn_filter_map (fun t =>
        (!localOnly || t.VolumeTemplateLocalDiskSupported) &&
        (!pxeOnly || stringsContains t.VolumeTemplateBootMethodsSupported "pxe_iscsi"))
      (fun t =>
        [.int t.VolumeTemplateID, .str t.VolumeTemplateLabel, .str t.VolumeTemplateDisplayName,
          .int t.VolumeTemplateSizeMBytes, .str t.VolumeTemplateDeprecationStatus,
          .str (t.VolumeTemplateBootMethodsSupported ++
            (if t.VolumeTemplateLocalDiskSupported then ",local" else ""))])]
  · simp
  · intro v r
    have h0 := flags_text v.VolumeTemplateBootMethodsSupported false
    have h1 := flags_text v.VolumeTemplateBootMethodsSupported true
    simp only [if_true, Bool.false_eq_true, if_false, List.append_nil] at h0 h1
    cases hl : localOnly <;> cases hp : pxeOnly <;>
      cases hv : v.VolumeTemplateLocalDiskSupported <;>
      cases hc : stringsContains v.VolumeTemplateBootMethodsSupported "pxe_iscsi" <;>
      simp [h0, h1]


/-- C17: `volumeTemplatesListCmd` shows only the requested templates. For every
template list and flags, the rows built are exactly the templates `t` with (not
local-only or `t` supports local disk) and (not pxe-only or the boot methods of
`t` contain `pxe_iscsi`), one row per such template in the order of the list,
and the FLAGS cell of each row, the sixth, is the comma-separated boot methods
of `t` followed by `,local` exactly when `t` supports local disk. The handler
sorts these rows by `ID` and hands them to `RenderTable`. -/
theorem C17_volume_templates_list_rows (w : World) (c : Command) (client : Client)
    (vList : List VolumeTemplate) (localOnly pxeOnly : Bool)
    (hlist : client.VolumeTemplates = .ok vList)
    (hlocal : c.Arguments "local_only" = some (.bool localOnly) ∨
      (c.Arguments "local_only" = none ∧ localOnly = false))
    (hpxe : c.Arguments "pxe_only" = some (.bool pxeOnly) ∨
      (c.Arguments "pxe_only" = none ∧ pxeOnly = false)) :
    ∃ rows : List (List Cell),
      rows = (vList.filter (fun t =>
          (!localOnly || t.VolumeTemplateLocalDiskSupported) &&
          (!pxeOnly || stringsContains t.VolumeTemplateBootMethodsSupported "pxe_iscsi"))).map
        (fun t =>
          [.int t.VolumeTemplateID, .str t.VolumeTemplateLabel,
            .str t.VolumeTemplateDisplayName, .int t.VolumeTemplateSizeMBytes,
            .str t.VolumeTemplateDeprecationStatus,
            .str (t.VolumeTemplateBootMethodsSupported ++
              (if t.VolumeTemplateLocalDiskSupported then ",local" else ""))]) ∧
      volumeTemplatesListRows localOnly pxeOnly vList = rows ∧
      (volumeTemplatesListCmd w c client).run =
        (some (w.RenderTable
          { Data := w.TableSort volumeTemplatesListSchema "ID" rows,
            Schema := volumeTemplatesListSchema }
          "Volume templates" "" (w.GetStringParam (c.Arguments "format"))),
          [.VolumeTemplates]) ∧
      volumeTemplatesListSchema.map SchemaField.FieldName =
        ["ID", "LABEL", "NAME", "SIZE", "STATUS", "FLAGS"] := by
  refine ⟨_, rfl, volumeTemplatesListRows_eq localOnly pxeOnly vList, ?_, rfl⟩
  rw [← volumeTemplatesListRows_eq localOnly pxeOnly vList]
  have h1 : boolArgument c "local_only" = pure localOnly := by
    rcases hlocal with h | ⟨h, hb⟩
    · simp [boolArgument, h, Arg.asBool]
    · simp [boolArgument, h, hb]
  have h2 : boolArgument c "pxe_only" = pure pxeOnly := by
    rcases hpxe with h | ⟨h, hb⟩
    · simp [boolArgument, h, Arg.asBool]
    · simp [boolArgument, h, hb]
  simp [volumeTemplatesListCmd, M.run, M_bind_apply, M_pure_apply, remote_apply, hlist, h1, h2]

/-- Witness of C17: `volume-template list -local-only -pxe-only` on three
templates, of which only `ubuntu` has both local disk and `pxe_iscsi`. -/
theorem C17_volume_templates_list_rows_witness :
    (∃ rows : List (List Cell),
      rows = (exampleVolumeTemplates.filter (fun t =>
          (!true || t.VolumeTemplateLocalDiskSupported) &&
          (!true || stringsContains t.VolumeTemplateBootMethodsSupported "pxe_iscsi"))).map
        (fun t =>
          [.int t.VolumeTemplateID, .str t.VolumeTemplateLabel,
            .str t.VolumeTemplateDisplayName, .int t.VolumeTemplateSizeMBytes,
            .str t.VolumeTemplateDeprecationStatus,
            .str (t.VolumeTemplateBootMethodsSupported ++
              (if t.VolumeTemplateLocalDiskSupported then ",local" else ""))]) ∧
      volumeTemplatesListRows true true exampleVolumeTemplates = rows ∧
      (volumeTemplatesListCmd exampleRenderingWorld listLocalPxeCommand
        exampleTemplatesClient).run =
        (some (exampleRenderingWorld.RenderTable
          { Data := exampleRenderingWorld.TableSort volumeTemplatesListSchema "ID" rows,
            Schema := volumeTemplatesListSchema }
          "Volume templates" ""
          (exampleRenderingWorld.GetStringParam (listLocalPxeCommand.Arguments "format"))),
          [.VolumeTemplates]) ∧
      volumeTemplatesListSchema.map SchemaField.FieldName =
        ["ID", "LABEL", "NAME", "SIZE", "STATUS", "FLAGS"]) ∧
    volumeTemplatesListRows true true exampleVolumeTemplates =
      [[.int 3, .str "ubuntu", .str "", .int 0, .str "",
        .str "pxe_iscsi,local_drives,local"]] ∧
    volumeTemplatesListRows false false exampleVolumeTemplates =
      [[.int 1, .str "centos", .str "", .int 0, .str "", .str "pxe_iscsi"],
       [.int 2, .str "esxi", .str "", .int 0, .str "", .str "local_drives,local"],
       [.int 3, .str "ubuntu", .str "", .int 0, .str "",
        .str "pxe_iscsi,local_drives,local"]] :=
  ⟨C17_volume_templates_list_rows exampleRenderingWorld listLocalPxeCommand
      exampleTemplatesClient exampleVolumeTemplates true true rfl (Or.inl rfl) (Or.inl rfl),
    by decide, by decide⟩

/-! ### C18 and C19: the config url of datacenter get -/

set_option maxHeartbeats 4000000 in
/-- `datacenterGetCmd` in format `json`, without `-jsonpath`, when the config
url is asked for and the reads succeed: the row handed to `RenderTableAsJSON`
has the configuration text in cell 5. -/
theorem datacenterGetCmd_url_json (w : World) (c : Command) (client : Client)
    (name url configStr : String) (retDC : Datacenter) (u : User) (config : DatacenterConfig)
    (hname : w.GetStringParamOk (c.Arguments "datacenter_name") = (name, true))
    (hdc : client.DatacenterGet name = .ok retDC)
    (huser : retDC.UserID ≠ 0 → client.UserGet retDC.UserID = .ok u)
    (hflag : (w.GetBoolParam (c.Arguments "show_secret_config_url") ||
      w.GetBoolParam (c.Arguments "return_config_url")) = true)
    (hurl : client.DatacenterAgentsConfigJSONDownloadURL name true = .ok url)
    (hconf : client.DatacenterConfigGet name = .ok config)
    (hyaml : w.yamlMarshal config = .ok configStr)
    (configBytes : String)
    (hfmt : w.GetStringParam (c.Arguments "format") = "json" ∨
      w.GetStringParam (c.Arguments "format") = "JSON")
    (hjson : w.jsonMarshalIndent config = .ok configBytes)
    (hjp : (w.GetStringParamOk (c.Arguments "json_path")).2 = false) :
    (datacenterGetCmd w c client).run =
      (some (renderReturn (w.RenderTableAsJSON
        { Data := [datacenterGetRow retDC u (.str configBytes) config],
          Schema := datacenterGetSchema ++
            [⟨"CONFIG_URL", .TypeString, 15⟩, ⟨"CONFIG", .TypeInterface, 15⟩] })),
        datacenterGetReads retDC name) := by
  have hget : retDC.UserID = 0 ∨ client.UserGet retDC.UserID = .ok u := by
    by_cases h : retDC.UserID = 0
    · exact Or.inl h
    · exact Or.inr (huser h)
  have cJ : (w.GetStringParam (c.Arguments "format") = "json" ∨
      w.GetStringParam (c.Arguments "format") = "JSON") = True := eq_true hfmt
  by_cases hu : retDC.UserID = 0 <;>
  cases hm : retDC.DatacenterIsMaster <;> cases hmt : retDC.DatacenterIsMaintenance <;>
  cases hh : retDC.DatacenterHidden <;>
  simp only [hu, false_or] at hget <;>
  simp only [datacenterGetCmd, M.run, hname, ↓reduceIte, Bool.not_true, Bool.false_eq_true,
    M_bind_apply, remote_apply, hdc, hu, hm, hmt, hh, M_pure_apply, ne_eq, not_true_eq_false,
    not_false_eq_true, hflag, hurl, hconf, hyaml, hget, cJ, hjson, hjp] <;>
  simp only [setRow0Cell5, List.set, List.append_assoc, List.nil_append, List.cons_append,
    datacenterGetRow, datacenterGetReads, datacenterGetUserText, datacenterGetFlags, hu, hm,
    hmt, hh, ↓reduceIte, Bool.false_eq_true, renderReturn] <;>
  (generalize w.RenderTableAsJSON _ = r; rcases r with ⟨txt, _ | err⟩ <;> rfl)

set_option maxHeartbeats 4000000 in
/-- `datacenterGetCmd` in format `yaml` when the config url is asked for and the
reads succeed: the row handed to `RenderTableAsYAML` has the configuration text
in cell 5. -/
theorem datacenterGetCmd_url_yaml (w : World) (c : Command) (client : Client)
    (name url configStr : String) (retDC : Datacenter) (u : User) (config : DatacenterConfig)
    (hname : w.GetStringParamOk (c.Arguments "datacenter_name") = (name, true))
    (hdc : client.DatacenterGet name = .ok retDC)
    (huser : retDC.UserID ≠ 0 → client.UserGet retDC.UserID = .ok u)
    (hflag : (w.GetBoolParam (c.Arguments "show_secret_config_url") ||
      w.GetBoolParam (c.Arguments "return_config_url")) = true)
    (hurl : client.DatacenterAgentsConfigJSONDownloadURL name true = .ok url)
    (hconf : client.DatacenterConfigGet name = .ok config)
    (hyaml : w.yamlMarshal config = .ok configStr)
    (hfmt : w.GetStringParam (c.Arguments "format") = "yaml" ∨
      w.GetStringParam (c.Arguments "format") = "YAML") :
    (datacenterGetCmd w c client).run =
      (some (renderReturn (w.RenderTableAsYAML
        { Data := [datacenterGetRow retDC u (.str configStr) config],
          Schema := datacenterGetSchema ++
            [⟨"CONFIG_URL", .TypeString, 15⟩, ⟨"CONFIG", .TypeInterface, 15⟩] })),
        datacenterGetReads retDC name) := by
  have hget : retDC.UserID = 0 ∨ client.UserGet retDC.UserID = .ok u := by
    by_cases h : retDC.UserID = 0
    · exact Or.inl h
    · exact Or.inr (huser h)
  have cJ : (w.GetStringParam (c.Arguments "format") = "json" ∨
      w.GetStringParam (c.Arguments "format") = "JSON") = False := by
    rcases hfmt with h | h <;> rw [h] <;> exact eq_false (by decide)
  have cC : (w.GetStringParam (c.Arguments "format") = "csv" ∨
      w.GetStringParam (c.Arguments "format") = "CSV") = False := by
    rcases hfmt with h | h <;> rw [h] <;> exact eq_false (by decide)
  have cY : (w.GetStringParam (c.Arguments "format") = "yaml" ∨
      w.GetStringParam (c.Arguments "format") = "YAML") = True := eq_true hfmt
  by_cases hu : retDC.UserID = 0 <;>
  cases hm : retDC.DatacenterIsMaster <;> cases hmt : retDC.DatacenterIsMaintenance <;>
  cases hh : retDC.DatacenterHidden <;>
  simp only [hu, false_or] at hget <;>
  simp only [datacenterGetCmd, M.run, hname, ↓reduceIte, Bool.not_true, Bool.false_eq_true,
    M_bind_apply, remote_apply, hdc, hu, hm, hmt, hh, M_pure_apply, ne_eq, not_true_eq_false,
    not_false_eq_true, hflag, hurl, hconf, hyaml, hget, cJ, cC, cY, hyaml] <;>
  simp only [setRow0Cell5, List.set, List.append_assoc, List.nil_append, List.cons_append,
    datacenterGetRow, datacenterGetReads, datacenterGetUserText, datacenterGetFlags, hu, hm,
    hmt, hh, ↓reduceIte, Bool.false_eq_true, renderReturn] <;>
  (generalize w.RenderTableAsYAML _ = r; rcases r with ⟨txt, _ | err⟩ <;> rfl)

set_option maxHeartbeats 4000000 in
/-- `datacenterGetCmd` in format `csv` when the config url is asked for and the
reads succeed: the row handed to `RenderTableAsCSV` has the url in cell 5. -/
theorem datacenterGetCmd_url_csv (w : World) (c : Command) (client : Client)
    (name url configStr : String) (retDC : Datacenter) (u : User) (config : DatacenterConfig)
    (hname : w.GetStringParamOk (c.Arguments "datacenter_name") = (name, true))
    (hdc : client.DatacenterGet name = .ok retDC)
    (huser : retDC.UserID ≠ 0 → client.UserGet retDC.UserID = .ok u)
    (hflag : (w.GetBoolParam (c.Arguments "show_secret_config_url") ||
      w.GetBoolParam (c.Arguments "return_config_url")) = true)
    (hurl : client.DatacenterAgentsConfigJSONDownloadURL name true = .ok url)
    (hconf : client.DatacenterConfigGet name = .ok config)
    (hyaml : w.yamlMarshal config = .ok configStr)
    (hfmt : w.GetStringParam (c.Arguments "format") = "csv" ∨
      w.GetStringParam (c.Arguments "format") = "CSV") :
    (datacenterGetCmd w c client).run =
      (some (renderReturn (w.RenderTableAsCSV
        { Data := [datacenterGetRow retDC u (.str url) config],
          Schema := datacenterGetSchema ++
            [⟨"CONFIG_URL", .TypeString, 15⟩, ⟨"CONFIG", .TypeInterface, 15⟩] })),
        datacenterGetReads retDC name) := by
  have hget : retDC.UserID = 0 ∨ client.UserGet retDC.UserID = .ok u := by
    by_cases h : retDC.UserID = 0
    · exact Or.inl h
    · exact Or.inr (huser h)
  have cJ : (w.GetStringParam (c.Arguments "format") = "json" ∨
      w.GetStringParam (c.Arguments "format") = "JSON") = False := by
    rcases hfmt with h | h <;> rw [h] <;> exact eq_false (by decide)
  have cC : (w.GetStringParam (c.Arguments "format") = "csv" ∨
      w.GetStringParam (c.Arguments "format") = "CSV") = True := eq_true hfmt
  by_cases hu : retDC.UserID = 0 <;>
  cases hm : retDC.DatacenterIsMaster <;> cases hmt : retDC.DatacenterIsMaintenance <;>
  cases hh : retDC.DatacenterHidden <;>
  simp only [hu, false_or] at hget <;>
  simp only [datacenterGetCmd, M.run, hname, ↓reduceIte, Bool.not_true, Bool.false_eq_true,
    M_bind_apply, remote_apply, hdc, hu, hm, hmt, hh, M_pure_apply, ne_eq, not_true_eq_false,
    not_false_eq_true, hflag, hurl, hconf, hyaml, hget, cJ, cC, hyaml] <;>
  simp only [setRow0Cell5, List.set, List.append_assoc, List.nil_append, List.cons_append,
    datacenterGetRow, datacenterGetReads, datacenterGetUserText, datacenterGetFlags, hu, hm,
    hmt, hh, ↓reduceIte, Bool.false_eq_true, renderReturn] <;>
  (generalize w.RenderTableAsCSV _ = r; rcases r with ⟨txt, _ | err⟩ <;> rfl)

set_option maxHeartbeats 4000000 in
/-- `datacenterGetCmd` in the default format with `return_config_url`, when the
reads succeed: the url is returned. -/
theorem datacenterGetCmd_url_default (w : World) (c : Command) (client : Client)
    (name url configStr : String) (retDC : Datacenter) (u : User) (config : DatacenterConfig)
    (hname : w.GetStringParamOk (c.Arguments "datacenter_name") = (name, true))
    (hdc : client.DatacenterGet name = .ok retDC)
    (huser : retDC.UserID ≠ 0 → client.UserGet retDC.UserID = .ok u)
    (hurl : client.DatacenterAgentsConfigJSONDownloadURL name true = .ok url)
    (hconf : client.DatacenterConfigGet name = .ok config)
    (hyaml : w.yamlMarshal config = .ok configStr)
    (hfmt : w.GetStringParam (c.Arguments "format") ∉
      ["json", "JSON", "csv", "CSV", "yaml", "YAML"])
    (hret : w.GetBoolParam (c.Arguments "return_config_url") = true) :
    (datacenterGetCmd w c client).run = (some (url, none), datacenterGetReads retDC name) := by
  have hget : retDC.UserID = 0 ∨ client.UserGet retDC.UserID = .ok u := by
    by_cases h : retDC.UserID = 0
    · exact Or.inl h
    · exact Or.inr (huser h)
  have cJ : (w.GetStringParam (c.Arguments "format") = "json" ∨
      w.GetStringParam (c.Arguments "format") = "JSON") = False := by
    simp only [List.mem_cons, List.mem_singleton, List.not_mem_nil, or_false, not_or] at hfmt
    simp [hfmt]
  have cC : (w.GetStringParam (c.Arguments "format") = "csv" ∨
      w.GetStringParam (c.Arguments "format") = "CSV") = False := by
    simp only [List.mem_cons, List.mem_singleton, List.not_mem_nil, or_false, not_or] at hfmt
    simp [hfmt]
  have cY : (w.GetStringParam (c.Arguments "format") = "yaml" ∨
      w.GetStringParam (c.Arguments "format") = "YAML") = False := by
    simp only [List.mem_cons, List.mem_singleton, List.not_mem_nil, or_false, not_or] at hfmt
    simp [hfmt]
  by_cases hu : retDC.UserID = 0 <;>
  cases hm : retDC.DatacenterIsMaster <;> cases hmt : retDC.DatacenterIsMaintenance <;>
  cases hh : retDC.DatacenterHidden <;>
  simp only [hu, false_or] at hget <;>
  simp only [datacenterGetCmd, M.run, hname, ↓reduceIte, Bool.not_true, Bool.false_eq_true,
    M_bind_apply, remote_apply, hdc, hu, hm, hmt, hh, M_pure_apply, ne_eq, not_true_eq_false,
    not_false_eq_true, hurl, hconf, hyaml, hget, cJ, cC, cY, hret, Bool.or_true] <;>
  simp only [setRow0Cell5, List.set, List.append_assoc, List.nil_append, List.cons_append,
    datacenterGetRow, datacenterGetReads, datacenterGetUserText, datacenterGetFlags, hu, hm,
    hmt, hh, ↓reduceIte, Bool.false_eq_true, renderReturn]


/-- C18 on the code: with `return-config-url` set and the reads succeeding,
`datacenterGetCmd` returns exactly the URL obtained from
`DatacenterAgentsConfigJSONDownloadURL` when the format is none of `json`,
`csv`, `yaml`; in the formats `json` (without `-jsonpath`), `yaml` and `csv` it
returns what the renderer makes of the table, and the flag is not looked at. -/
theorem C18_return_config_url_honoured_in_default_format_only (w : World) (c : Command)
    (client : Client) (name url configStr : String) (retDC : Datacenter) (u : User)
    (config : DatacenterConfig)
    (hname : w.GetStringParamOk (c.Arguments "datacenter_name") = (name, true))
    (hdc : client.DatacenterGet name = .ok retDC)
    (huser : retDC.UserID ≠ 0 → client.UserGet retDC.UserID = .ok u)
    (hret : w.GetBoolParam (c.Arguments "return_config_url") = true)
    (hurl : client.DatacenterAgentsConfigJSONDownloadURL name true = .ok url)
    (hconf : client.DatacenterConfigGet name = .ok config)
    (hyaml : w.yamlMarshal config = .ok configStr) :
    (w.GetStringParam (c.Arguments "format") ∉ ["json", "JSON", "csv", "CSV", "yaml", "YAML"] →
      (datacenterGetCmd w c client).run = (some (url, none), datacenterGetReads retDC name)) ∧
    (∀ configBytes,
      (w.GetStringParam (c.Arguments "format") = "json" ∨
        w.GetStringParam (c.Arguments "format") = "JSON") →
      w.jsonMarshalIndent config = .ok configBytes →
      (w.GetStringParamOk (c.Arguments "json_path")).2 = false →
      (datacenterGetCmd w c client).run =
        (some (renderReturn (w.RenderTableAsJSON
          { Data := [datacenterGetRow retDC u (.str configBytes) config],
            Schema := (datacenterGetSchema ++
              [⟨"CONFIG_URL", .TypeString, 15⟩, ⟨"CONFIG", .TypeInterface, 15⟩]) })),
          datacenterGetReads retDC name)) ∧
    ((w.GetStringParam (c.Arguments "format") = "yaml" ∨
        w.GetStringParam (c.Arguments "format") = "YAML") →
      (datacenterGetCmd w c client).run =
        (some (renderReturn (w.RenderTableAsYAML
          { Data := [datacenterGetRow retDC u (.str configStr) config],
            Schema := (datacenterGetSchema ++
              [⟨"CONFIG_URL", .TypeString, 15⟩, ⟨"CONFIG", .TypeInterface, 15⟩]) })),
          datacenterGetReads retDC name)) ∧
    ((w.GetStringParam (c.Arguments "format") = "csv" ∨
        w.GetStringParam (c.Arguments "format") = "CSV") →
      (datacenterGetCmd w c client).run =
        (some (renderReturn (w.RenderTableAsCSV
          { Data := [datacenterGetRow retDC u (.str url) config],
            Schema := (datacenterGetSchema ++
              [⟨"CONFIG_URL", .TypeString, 15⟩, ⟨"CONFIG", .TypeInterface, 15⟩]) })),
          datacenterGetReads retDC name)) := by
  have hflag : (w.GetBoolParam (c.Arguments "show_secret_config_url") ||
      w.GetBoolParam (c.Arguments "return_config_url")) = true := by simp [hret]
  exact ⟨fun hfmt => datacenterGetCmd_url_default w c client name url configStr retDC u config
      hname hdc huser hurl hconf hyaml hfmt hret,
    fun configBytes hfmt hjson hjp => datacenterGetCmd_url_json w c client name url configStr
      retDC u config hname hdc huser hflag hurl hconf hyaml configBytes hfmt hjson hjp,
    fun hfmt => datacenterGetCmd_url_yaml w c client name url configStr retDC u config
      hname hdc huser hflag hurl hconf hyaml hfmt,
    fun hfmt => datacenterGetCmd_url_csv w c client name url configStr retDC u config
      hname hdc huser hflag hurl hconf hyaml hfmt⟩

/-- Witness of C18: `datacenter get -id dc1 -return-config-url -format json`
returns the rendering of the table, which is not the URL
`https://example.com/config`; without `-format` the URL is returned. -/
theorem C18_return_config_url_honoured_in_default_format_only_witness :
    (datacenterGetCmd exampleRenderingWorld getDatacenterReturnUrlJsonCommand
      exampleDatacenterClient).run =
      (some (renderReturn (exampleRenderingWorld.RenderTableAsJSON
        { Data := [datacenterGetRow ⟨"dc1", "", 0, false, false, false, [], "", "", "", ""⟩
            ⟨0, ""⟩ (.str "config of dc1") ⟨"config of dc1"⟩],
          Schema := (datacenterGetSchema ++
              [⟨"CONFIG_URL", .TypeString, 15⟩, ⟨"CONFIG", .TypeInterface, 15⟩]) })),
        datacenterGetReads ⟨"dc1", "", 0, false, false, false, [], "", "", "", ""⟩ "dc1") ∧
    (datacenterGetCmd exampleRenderingWorld getDatacenterReturnUrlJsonCommand
      exampleDatacenterClient).run.1 =
      some ("dc1|||||config of dc1|config of dc1", none) ∧
    (datacenterGetCmd exampleRenderingWorld getDatacenterReturnUrlCommand
      exampleDatacenterClient).run.1 = some ("https://example.com/config", none) :=
  ⟨(C18_return_config_url_honoured_in_default_format_only exampleRenderingWorld
      getDatacenterReturnUrlJsonCommand exampleDatacenterClient "dc1"
      "https://example.com/config" "config of dc1"
      ⟨"dc1", "", 0, false, false, false, [], "", "", "", ""⟩ ⟨0, ""⟩ ⟨"config of dc1"⟩
      rfl rfl (fun h => absurd rfl h) rfl rfl rfl rfl).2.1 "config of dc1" (Or.inl rfl) rfl rfl,
    by decide, by decide⟩

/-- C19 on the code: with `show-config-url` set and the reads succeeding, the
schema of `datacenterGetCmd` has `CONFIG_URL` at index 5 and `CONFIG` at index
6. In format `csv` the row handed to the renderer has the URL at index 5 and the
configuration at index 6; in the formats `json` (without `-jsonpath`) and `yaml`
the cell at index 5 is the text of the configuration, and the URL is in no
cell. -/
theorem C19_show_config_url_cell_overwritten_in_json_and_yaml (w : World) (c : Command)
    (client : Client) (name url configStr : String) (retDC : Datacenter) (u : User)
    (config : DatacenterConfig)
    (hname : w.GetStringParamOk (c.Arguments "datacenter_name") = (name, true))
    (hdc : client.DatacenterGet name = .ok retDC)
    (huser : retDC.UserID ≠ 0 → client.UserGet retDC.UserID = .ok u)
    (hshow : w.GetBoolParam (c.Arguments "show_secret_config_url") = true)
    (hurl : client.DatacenterAgentsConfigJSONDownloadURL name true = .ok url)
    (hconf : client.DatacenterConfigGet name = .ok config)
    (hyaml : w.yamlMarshal config = .ok configStr) :
    (datacenterGetSchema ++
        [(⟨"CONFIG_URL", .TypeString, 15⟩ : SchemaField), ⟨"CONFIG", .TypeInterface, 15⟩]).map
        SchemaField.FieldName =
      ["LABEL", "TITLE", "OWNER", "PARENT", "FLAGS", "CONFIG_URL", "CONFIG"] ∧
    (∀ cell, (datacenterGetRow retDC u cell config).get? 5 = some cell ∧
      (datacenterGetRow retDC u cell config).get? 6 = some (.config config) ∧
      (datacenterGetRow retDC u cell config).length = 7) ∧
    (∀ configBytes,
      (w.GetStringParam (c.Arguments "format") = "json" ∨
        w.GetStringParam (c.Arguments "format") = "JSON") →
      w.jsonMarshalIndent config = .ok configBytes →
      (w.GetStringParamOk (c.Arguments "json_path")).2 = false →
      (datacenterGetCmd w c client).run =
        (some (renderReturn (w.RenderTableAsJSON
          { Data := [datacenterGetRow retDC u (.str configBytes) config],
            Schema := (datacenterGetSchema ++
              [⟨"CONFIG_URL", .TypeString, 15⟩, ⟨"CONFIG", .TypeInterface, 15⟩]) })),
          datacenterGetReads retDC name)) ∧
    ((w.GetStringParam (c.Arguments "format") = "yaml" ∨
        w.GetStringParam (c.Arguments "format") = "YAML") →
      (datacenterGetCmd w c client).run =
        (some (renderReturn (w.RenderTableAsYAML
          { Data := [datacenterGetRow retDC u (.str configStr) config],
            Schema := (datacenterGetSchema ++
              [⟨"CONFIG_URL", .TypeString, 15⟩, ⟨"CONFIG", .TypeInterface, 15⟩]) })),
          datacenterGetReads retDC name)) ∧
    ((w.GetStringParam (c.Arguments "format") = "csv" ∨
        w.GetStringParam (c.Arguments "format") = "CSV") →
      (datacenterGetCmd w c client).run =
        (some (renderReturn (w.RenderTableAsCSV
          { Data := [datacenterGetRow retDC u (.str url) config],
            Schema := (datacenterGetSchema ++
              [⟨"CONFIG_URL", .TypeString, 15⟩, ⟨"CONFIG", .TypeInterface, 15⟩]) })),
          datacenterGetReads retDC name)) := by
  have hflag : (w.GetBoolParam (c.Arguments "show_secret_config_url") ||
      w.GetBoolParam (c.Arguments "return_config_url")) = true := by simp [hshow]
  exact ⟨rfl, fun cell => ⟨rfl, rfl, rfl⟩,
    fun configBytes hfmt hjson hjp => datacenterGetCmd_url_json w c client name url configStr
      retDC u config hname hdc huser hflag hurl hconf hyaml configBytes hfmt hjson hjp,
    fun hfmt => datacenterGetCmd_url_yaml w c client name url configStr retDC u config
      hname hdc huser hflag hurl hconf hyaml hfmt,
    fun hfmt => datacenterGetCmd_url_csv w c client name url configStr retDC u config
      hname hdc huser hflag hurl hconf hyaml hfmt⟩

/-- Witness of C19: `datacenter get -id dc1 -show-config-url -format json` hands
the renderer a row whose cell 5 is the configuration text, and the rendering
does not hold the URL; with `-format csv` cell 5 is the URL. -/
theorem C19_show_config_url_cell_overwritten_in_json_and_yaml_witness :
    (datacenterGetCmd exampleRenderingWorld getDatacenterShowUrlJsonCommand
      exampleDatacenterClient).run =
      (some (renderReturn (exampleRenderingWorld.RenderTableAsJSON
        { Data := [datacenterGetRow ⟨"dc1", "", 0, false, false, false, [], "", "", "", ""⟩
            ⟨0, ""⟩ (.str "config of dc1") ⟨"config of dc1"⟩],
          Schema := (datacenterGetSchema ++
              [⟨"CONFIG_URL", .TypeString, 15⟩, ⟨"CONFIG", .TypeInterface, 15⟩]) })),
        datacenterGetReads ⟨"dc1", "", 0, false, false, false, [], "", "", "", ""⟩ "dc1") ∧
    (datacenterGetCmd exampleRenderingWorld getDatacenterShowUrlJsonCommand
      exampleDatacenterClient).run.1 =
      some ("dc1|||||config of dc1|config of dc1", none) ∧
    (datacenterGetCmd exampleRenderingWorld getDatacenterShowUrlCsvCommand
      exampleDatacenterClient).run.1 =
      some ("dc1|||||https://example.com/config|config of dc1", none) :=
  ⟨(C19_show_config_url_cell_overwritten_in_json_and_yaml exampleRenderingWorld
      getDatacenterShowUrlJsonCommand exampleDatacenterClient "dc1"
      "https://example.com/config" "config of dc1"
      ⟨"dc1", "", 0, false, false, false, [], "", "", "", ""⟩ ⟨0, ""⟩ ⟨"config of dc1"⟩
      rfl rfl (fun h => absurd rfl h) rfl rfl rfl rfl).2.2.1 "config of dc1" (Or.inl rfl)
      rfl rfl,
    by decide, by decide⟩

/-! ### C20: the confirmation message and `os.Args[0]` -/

/-- The prompt of `workflowDeleteCmd`: once the workflow is resolved, without
autoconfirm, `requestConfirmation` is called once, with `workflowDeleteMessage`. -/
theorem workflowDeleteCmd_confirmations (w : World) (c : Command) (client : Client)
    (wf : Workflow) (reads : List Call)
    (hget : getWorkflowFromCommand w "id" c client [] = (some (.ok wf), reads))
    (hauto : w.GetBoolParam (c.Arguments "autoconfirm") = false) :
    (workflowDeleteCmd w c client).run.2.filter Call.isConfirmation =
      [.requestConfirmation (workflowDeleteMessage w wf)] := by
  obtain ⟨r, reads2, hget2, hreads⟩ := getWorkflowFromCommand_run w "id" c client []
  rw [List.nil_append, hget] at hget2
  simp only [Prod.mk.injEq, Option.some.injEq] at hget2
  obtain ⟨hr, hrd⟩ := hget2
  subst hr
  subst hrd
  obtain ⟨-, hconf, -⟩ := workflow_reads_filter _ reads hreads
  rw [workflowDeleteCmd_prompting w c client wf reads hget hauto]
  rcases hrc : w.requestConfirmation (workflowDeleteMessage w wf) with ⟨b, e⟩
  cases e <;> cases b <;> simp [List.filter_append, hconf, Call.isConfirmation]

/-- The prompt of `workflowDeleteStageCmd`: once the stage, its workflow and its
stage definition are read, without autoconfirm, `requestConfirmation` is called
once, with `workflowDeleteStageMessage`. -/
theorem workflowDeleteStageCmd_confirmations (w : World) (c : Command) (client : Client)
    (id : Int) (st : WorkflowStageDefinitionReference) (wf : Workflow) (sd : StageDefinition)
    (hid : w.GetIntParamOk (c.Arguments "workflow_stage_id") = (id, true))
    (hst : client.WorkflowStageGet id = .ok st)
    (hauto : w.GetBoolParam (c.Arguments "autoconfirm") = false)
    (hwf : client.WorkflowGet st.WorkflowID = .ok wf)
    (hsd : client.StageDefinitionGet st.StageDefinitionID = .ok sd) :
    (workflowDeleteStageCmd w c client).run.2.filter Call.isConfirmation =
      [.requestConfirmation (workflowDeleteStageMessage w wf sd)] := by
  rw [workflowDeleteStageCmd_run]
  simp only [hid, hst, hauto, hwf, hsd, Bool.true_eq_false, Bool.false_eq_true, if_false]
  rcases hrc : w.requestConfirmation (workflowDeleteStageMessage w wf sd) with ⟨b, e⟩
  cases e <;> cases b <;> simp [List.filter_cons, Call.isConfirmation]

/-- C20 as stated fails: two runs of `workflow delete -id test`, and two of
`workflow delete-stage -id 103`, that differ only in `os.Args[0]`
(`metalcloud-cli` and `metalcloud-cli.test`) pass different messages to
`requestConfirmation`: the formatted text and the empty text. -/
theorem C20_confirmation_message_depends_on_argv0 :
    exampleTestBinaryWorld false =
      { exampleWorld false with osArgs0 := "metalcloud-cli.test" } ∧
    (workflowDeleteCmd (exampleWorld false) deleteWorkflowCommand
      exampleClient).run.2.filter Call.isConfirmation =
      [.requestConfirmation
        "Deleting workflow  Test workflow (10).  Are you sure? Type \"yes\" to continue:"] ∧
    (workflowDeleteCmd (exampleTestBinaryWorld false) deleteWorkflowCommand
      exampleClient).run.2.filter Call.isConfirmation = [.requestConfirmation ""] ∧
    (workflowDeleteStageCmd (exampleWorld false) deleteStageCommand
      exampleClient).run.2.filter Call.isConfirmation =
      [.requestConfirmation ("Deleting stage Test workflow (10) from workflow Test (30)." ++
        "  Are you sure? Type \"yes\" to continue:")] ∧
    (workflowDeleteStageCmd (exampleTestBinaryWorld false) deleteStageCommand
      exampleClient).run.2.filter Call.isConfirmation = [.requestConfirmation ""] :=
  ⟨rfl, by decide, by decide, by decide, by decide⟩

/-- C20, amended: the confirmation prompt is suppressed by inspecting
`os.Args[0]`. For `workflowDeleteCmd` and `workflowDeleteStageCmd`, when the
target is resolved and autoconfirm is not set, `requestConfirmation` is called
exactly once, and the message passed is the empty text when `os.Args[0]` ends in
`.test` and the text the handler formats otherwise (`Deleting workflow  <title>
(<id>). ...` for the one; the format `Deleting stage %s (%d) from workflow %s
(%d). ...` filled with the title and id of the workflow and then those of the
stage definition for the other). Two runs that differ only in the value of
`os.Args[0]`, both ending in `.test` or neither, run alike: same result, same
calls, same confirmation message. -/
theorem C20_confirmation_message_depends_on_test_suffix_only (w : World) (a : String)
    (c : Command) (client : Client)
    (h : stringsHasSuffix a ".test" = stringsHasSuffix w.osArgs0 ".test") :
    (workflowDeleteCmd { w with osArgs0 := a } c client).run =
      (workflowDeleteCmd w c client).run ∧
    (workflowDeleteStageCmd { w with osArgs0 := a } c client).run =
      (workflowDeleteStageCmd w c client).run ∧
    (stringsHasSuffix w.osArgs0 ".test" = true →
      ∀ msg, Call.requestConfirmation msg ∈ (workflowDeleteCmd w c client).run.2 → msg = "") ∧
    (stringsHasSuffix w.osArgs0 ".test" = true →
      ∀ msg, Call.requestConfirmation msg ∈ (workflowDeleteStageCmd w c client).run.2 →
        msg = "") ∧
    (∀ wf reads, getWorkflowFromCommand w "id" c client [] = (some (.ok wf), reads) →
      w.GetBoolParam (c.Arguments "autoconfirm") = false →
      (workflowDeleteCmd w c client).run.2.filter Call.isConfirmation =
        [.requestConfirmation
          (if stringsHasSuffix w.osArgs0 ".test" = true then ""
           else "Deleting workflow  " ++ wf.WorkflowTitle ++ " (" ++ toString wf.WorkflowID ++
             ").  Are you sure? Type \"yes\" to continue:")]) ∧
    (∀ id st wf sd, w.GetIntParamOk (c.Arguments "workflow_stage_id") = (id, true) →
      client.WorkflowStageGet id = .ok st →
      w.GetBoolParam (c.Arguments "autoconfirm") = false →
      client.WorkflowGet st.WorkflowID = .ok wf →
      client.StageDefinitionGet st.StageDefinitionID = .ok sd →
      (workflowDeleteStageCmd w c client).run.2.filter Call.isConfirmation =
        [.requestConfirmation
          (if stringsHasSuffix w.osArgs0 ".test" = true then ""
           else "Deleting stage " ++ wf.WorkflowTitle ++ " (" ++ toString wf.WorkflowID ++
             ") from workflow " ++ sd.StageDefinitionTitle ++ " (" ++
             toString sd.StageDefinitionID ++
             ").  Are you sure? Type \"yes\" to continue:")]) := by
  refine ⟨?_, ?_, ?_, ?_,
    fun wf reads hget hauto => workflowDeleteCmd_confirmations w c client wf reads hget hauto,
    fun id st wf sd hid hst hauto hwf hsd =>
      workflowDeleteStageCmd_confirmations w c client id st wf sd hid hst hauto hwf hsd⟩
  · simp only [workflowDeleteCmd, getWorkflowFromCommand, h]
  · simp only [workflowDeleteStageCmd, h]
  · intro hs msg hmem
    obtain ⟨r, reads, hget, hreads⟩ := getWorkflowFromCommand_run w "id" c client []
    rw [List.nil_append] at hget
    obtain ⟨-, hconf, -⟩ := workflow_reads_filter r reads hreads
    have hnot : Call.requestConfirmation msg ∉ reads := by
      intro hin
      have : Call.requestConfirmation msg ∈ reads.filter Call.isConfirmation :=
        List.mem_filter.mpr ⟨hin, rfl⟩
      rw [hconf] at this
      exact absurd this (List.not_mem_nil _)
    have hempty : ∀ wf, workflowDeleteMessage w wf = "" := by
      intro wf
      simp [workflowDeleteMessage, hs]
    cases r with
    | error e =>
      rw [workflowDeleteCmd_unresolved w c client e reads hget] at hmem
      exact absurd hmem hnot
    | ok wf =>
      by_cases hauto : w.GetBoolParam (c.Arguments "autoconfirm") = true
      · rw [workflowDeleteCmd_autoconfirm w c client wf reads hget hauto] at hmem
        simp only [List.mem_append, List.mem_singleton] at hmem
        rcases hmem with hin | hin
        · exact absurd hin hnot
        · cases hin
      · have hauto2 : w.GetBoolParam (c.Arguments "autoconfirm") = false := by
          simpa using hauto
        rw [workflowDeleteCmd_prompting w c client wf reads hget hauto2, hempty wf] at hmem
        rcases hrc : w.requestConfirmation "" with ⟨b, e⟩
        rw [hrc] at hmem
        have hor : Call.requestConfirmation msg ∈ reads ∨ msg = "" := by
          cases e <;> cases b <;> simpa using hmem
        exact hor.resolve_left hnot
  · intro hs msg hmem
    have hempty : ∀ wf sd, workflowDeleteStageMessage w wf sd = "" := by
      intro wf sd
      simp [workflowDeleteStageMessage, hs]
    rw [workflowDeleteStageCmd_run] at hmem
    split at hmem
    · simp at hmem
    · cases hst : client.WorkflowStageGet
          (w.GetIntParamOk (c.Arguments "workflow_stage_id")).1 with
      | error e => simp [hst] at hmem
      | ok st =>
        simp only [hst] at hmem
        split at hmem
        · simp at hmem
        · cases hwf : client.WorkflowGet st.WorkflowID with
          | error e => simp [hwf] at hmem
          | ok wf =>
            simp only [hwf] at hmem
            cases hsd : client.StageDefinitionGet st.StageDefinitionID with
            | error e => simp [hsd] at hmem
            | ok sd =>
              simp only [hsd, hempty wf sd] at hmem
              rcases hrc : w.requestConfirmation "" with ⟨b, e⟩
              rw [hrc] at hmem
              cases e <;> cases b <;> simp at hmem <;> exact hmem

/-- Witness of C20: `workflow delete -id test` run as `metalcloud-cli` and as
`/usr/local/bin/metalcloud-cli`, neither ending in `.test`, passes the formatted
message in both runs; run as `metalcloud-cli.test` it passes the empty
message. -/
theorem C20_confirmation_message_depends_on_test_suffix_only_witness :
    (workflowDeleteCmd { exampleWorld false with osArgs0 := "/usr/local/bin/metalcloud-cli" }
      deleteWorkflowCommand exampleClient).run =
      (workflowDeleteCmd (exampleWorld false) deleteWorkflowCommand exampleClient).run ∧
    (workflowDeleteCmd { exampleWorld false with osArgs0 := "/usr/local/bin/metalcloud-cli" }
      deleteWorkflowCommand exampleClient).run.2 =
      [.Workflows, .requestConfirmation
        "Deleting workflow  Test workflow (10).  Are you sure? Type \"yes\" to continue:"] ∧
    (workflowDeleteCmd (exampleWorld false) deleteWorkflowCommand
      exampleClient).run.2.filter Call.isConfirmation =
      [.requestConfirmation
        (if stringsHasSuffix (exampleWorld false).osArgs0 ".test" = true then ""
         else "Deleting workflow  " ++ "Test workflow" ++ " (" ++ toString (10 : Int) ++
           ").  Are you sure? Type \"yes\" to continue:")] ∧
    (workflowDeleteCmd (exampleTestBinaryWorld false) deleteWorkflowCommand
      exampleClient).run.2.filter Call.isConfirmation =
      [.requestConfirmation
        (if stringsHasSuffix (exampleTestBinaryWorld false).osArgs0 ".test" = true then ""
         else "Deleting workflow  " ++ "Test workflow" ++ " (" ++ toString (10 : Int) ++
           ").  Are you sure? Type \"yes\" to continue:")] ∧
    stringsHasSuffix (exampleWorld false).osArgs0 ".test" = false ∧
    stringsHasSuffix (exampleTestBinaryWorld false).osArgs0 ".test" = true :=
  ⟨(C20_confirmation_message_depends_on_test_suffix_only (exampleWorld false)
      "/usr/local/bin/metalcloud-cli" deleteWorkflowCommand exampleClient (by decide)).1,
    by decide,
    (C20_confirmation_message_depends_on_test_suffix_only (exampleWorld false)
      "metalcloud-cli" deleteWorkflowCommand exampleClient rfl).2.2.2.2.1
      ⟨10, "test", "Test workflow", "", "asdsd", false, ""⟩ [.Workflows] rfl rfl,
    (C20_confirmation_message_depends_on_test_suffix_only (exampleTestBinaryWorld false)
      "metalcloud-cli.test" deleteWorkflowCommand exampleClient rfl).2.2.2.2.1
      ⟨10, "test", "Test workflow", "", "asdsd", false, ""⟩ [.Workflows] rfl rfl,
    by decide, by decide⟩

/-! ### C21: the text of the confirmation messages -/

/-- C21 on the code: when a prompt is needed (autoconfirm is not set, and
`os.Args[0]` does not end in `.test`), `workflowDeleteCmd` passes `Deleting
workflow  <workflow title> (<workflow id>). ...` to `requestConfirmation`, and
`workflowDeleteStageCmd` passes `Deleting stage <workflow title> (<workflow id>)
from workflow <stage definition title> (<stage definition id>). ...`: the title
and id of the workflow fill the stage position, and those of the stage
definition fill the workflow position. -/
theorem C21_delete_stage_message_swaps_stage_and_workflow (w : World) (c : Command)
    (client : Client)
    (hauto : w.GetBoolParam (c.Arguments "autoconfirm") = false)
    (hs : stringsHasSuffix w.osArgs0 ".test" = false) :
    (∀ wf reads, getWorkflowFromCommand w "id" c client [] = (some (.ok wf), reads) →
      (workflowDeleteCmd w c client).run.2.filter Call.isConfirmation =
        [.requestConfirmation ("Deleting workflow  " ++ wf.WorkflowTitle ++ " (" ++
          toString wf.WorkflowID ++ ").  Are you sure? Type \"yes\" to continue:")]) ∧
    (∀ id st wf sd, w.GetIntParamOk (c.Arguments "workflow_stage_id") = (id, true) →
      client.WorkflowStageGet id = .ok st →
      client.WorkflowGet st.WorkflowID = .ok wf →
      client.StageDefinitionGet st.StageDefinitionID = .ok sd →
      (workflowDeleteStageCmd w c client).run.2.filter Call.isConfirmation =
        [.requestConfirmation ("Deleting stage " ++ wf.WorkflowTitle ++ " (" ++
          toString wf.WorkflowID ++ ") from workflow " ++ sd.StageDefinitionTitle ++ " (" ++
          toString sd.StageDefinitionID ++ ").  Are you sure? Type \"yes\" to continue:")]) := by
  constructor
  · intro wf reads hget
    obtain ⟨r, reads2, hget2, hreads⟩ := getWorkflowFromCommand_run w "id" c client []
    rw [List.nil_append, hget] at hget2
    simp only [Prod.mk.injEq, Option.some.injEq] at hget2
    obtain ⟨hr, hrd⟩ := hget2
    subst hr
    subst hrd
    obtain ⟨-, hconf, -⟩ := workflow_reads_filter _ reads hreads
    have hmsg : workflowDeleteMessage w wf = "Deleting workflow  " ++ wf.WorkflowTitle ++ " (" ++
        toString wf.WorkflowID ++ ").  Are you sure? Type \"yes\" to continue:" := by
      simp [workflowDeleteMessage, hs]
    rw [workflowDeleteCmd_prompting w c client wf reads hget hauto, hmsg]
    rcases hrc : w.requestConfirmation ("Deleting workflow  " ++ wf.WorkflowTitle ++ " (" ++
      toString wf.WorkflowID ++ ").  Are you sure? Type \"yes\" to continue:") with ⟨b, e⟩
    cases e <;> cases b <;> simp [List.filter_append, hconf, Call.isConfirmation]
  · intro id st wf sd hid hst hwf hsd
    have hmsg : workflowDeleteStageMessage w wf sd = "Deleting stage " ++ wf.WorkflowTitle ++
        " (" ++ toString wf.WorkflowID ++ ") from workflow " ++ sd.StageDefinitionTitle ++
        " (" ++ toString sd.StageDefinitionID ++
        ").  Are you sure? Type \"yes\" to continue:" := by
      simp [workflowDeleteStageMessage, hs]
    rw [workflowDeleteStageCmd_run]
    simp only [hid, hst, hauto, hwf, hsd, hmsg, Bool.true_eq_false, Bool.false_eq_true, if_false]
    rcases hrc : w.requestConfirmation ("Deleting stage " ++ wf.WorkflowTitle ++
        " (" ++ toString wf.WorkflowID ++ ") from workflow " ++ sd.StageDefinitionTitle ++
        " (" ++ toString sd.StageDefinitionID ++
        ").  Are you sure? Type \"yes\" to continue:") with ⟨b, e⟩
    cases e <;> cases b <;> simp [List.filter_cons, Call.isConfirmation]

/-- Witness of C21: `workflow delete-stage -id 103`, where stage 103 belongs to
workflow 10, `Test workflow`, and has stage definition 30, `Test`; and `workflow
delete -id test`. -/
theorem C21_delete_stage_message_swaps_stage_and_workflow_witness :
    (workflowDeleteStageCmd (exampleWorld false) deleteStageCommand
      exampleClient).run.2.filter Call.isConfirmation =
      [.requestConfirmation ("Deleting stage " ++ "Test workflow" ++ " (" ++
        toString (10 : Int) ++ ") from workflow " ++ "Test" ++ " (" ++
        toString (30 : Int) ++ ").  Are you sure? Type \"yes\" to continue:")] ∧
    (workflowDeleteCmd (exampleWorld false) deleteWorkflowCommand
      exampleClient).run.2.filter Call.isConfirmation =
      [.requestConfirmation ("Deleting workflow  " ++ "Test workflow" ++ " (" ++
        toString (10 : Int) ++ ").  Are you sure? Type \"yes\" to continue:")] :=
  ⟨(C21_delete_stage_message_swaps_stage_and_workflow (exampleWorld false) deleteStageCommand
      exampleClient rfl (by decide)).2 103 ⟨103, 10, 30, 1⟩
      ⟨10, "test", "Test workflow", "", "asdsd", false, ""⟩ ⟨30, "test", "Test"⟩
      rfl rfl rfl rfl,
    (C21_delete_stage_message_swaps_stage_and_workflow (exampleWorld false)
      deleteWorkflowCommand exampleClient rfl (by decide)).1
      ⟨10, "test", "Test workflow", "", "asdsd", false, ""⟩ [.Workflows] rfl⟩

/-! ### C22: the range of the ports accepted -/

/-- What `portStringToRange` returns when it returns no error: a decimal integer
above 0, twice, or the two numbers of a text `a-b`. -/
theorem portStringToRange_ok (s : String) (h : (portStringToRange s).2.2 = none) :
    (∃ n, IsDecimalInteger s n ∧ 0 < n ∧ portStringToRange s = (n, n, none)) ∨
    (∃ a b, IsPortRangeText s a b ∧
      portStringToRange s = ((digitsValue a : Int), (digitsValue b : Int), none)) := by
  by_cases hA : (Atoi s).2 = none ∧ (Atoi s).1 > 0
  · left
    have hat : Atoi s = ((Atoi s).1, none) := by
      rw [← hA.1]
    refine ⟨(Atoi s).1, Atoi_ok_isDecimalInteger s _ hat, hA.2, ?_⟩
    simp [portStringToRange, hA]
  · right
    cases hm : findPortRangeSubmatch s with
    | none => simp [portStringToRange, hA, hm] at h
    | some m =>
      obtain ⟨m1, m2⟩ := m
      obtain ⟨hs, h1, h2, hd1, hd2⟩ := (findPortRangeSubmatch_eq_some_iff s m1 m2).mp hm
      have e1 := Atoi_of_digits m1.data h1 hd1
      have e2 := Atoi_of_digits m2.data h2 hd2
      have hpos := maxInt_pos
      by_cases r1 : (2 : Int) ^ (intSize - 1) ≤ digitsValue m1.data
      · rw [if_pos r1] at e1
        simp [portStringToRange, hA, hm, e1, hpos] at h
      · rw [if_neg r1] at e1
        by_cases r2 : (2 : Int) ^ (intSize - 1) ≤ digitsValue m2.data
        · rw [if_pos r2] at e2
          simp [portStringToRange, hA, hm, e1, e2, hpos] at h
        · rw [if_neg r2] at e2
          refine ⟨m1.data, m2.data, ⟨hs, h1, h2, hd1, hd2, ?_, ?_⟩, ?_⟩
          · rw [maxInt_eq]; omega
          · rw [maxInt_eq]; omega
          · simp [portStringToRange, hA, hm, e1, e2]

/-- C22 as stated fails: `portStringToRange` returns `70000`, `5-3` and `0-0`
without error, as `(70000, 70000)`, `(5, 3)` and `(0, 0)`; none satisfies
`1 <= start <= end <= 65535`. -/
theorem C22_accepted_ports_outside_the_valid_range :
    (portStringToRange "70000" = (70000, 70000, none) ∧
      ¬ (1 ≤ (portStringToRange "70000").1 ∧
        (portStringToRange "70000").1 ≤ (portStringToRange "70000").2.1 ∧
        (portStringToRange "70000").2.1 ≤ 65535)) ∧
    (portStringToRange "5-3" = (5, 3, none) ∧
      ¬ (1 ≤ (portStringToRange "5-3").1 ∧
        (portStringToRange "5-3").1 ≤ (portStringToRange "5-3").2.1 ∧
        (portStringToRange "5-3").2.1 ≤ 65535)) ∧
    (portStringToRange "0-0" = (0, 0, none) ∧
      ¬ (1 ≤ (portStringToRange "0-0").1 ∧
        (portStringToRange "0-0").1 ≤ (portStringToRange "0-0").2.1 ∧
        (portStringToRange "0-0").2.1 ≤ 65535)) :=
  ⟨⟨by decide, by decide⟩, ⟨by decide, by decide⟩, ⟨by decide, by decide⟩⟩

/-- C22, amended: whenever `portStringToRange` returns without error, the two
values are in the range of `int` and not negative: `0 <= start <= maxInt` and
`0 <= end <= maxInt`. The text is either a decimal integer `n >= 1`, and then
`start = end = n`, or a text `a-b`, and then `start` is the number `a` and `end`
the number `b`; a text without a dash gives `1 <= start = end`. Neither the
order of the two values of a range nor the bound 65535 is checked. -/
theorem C22_accepted_ports_are_nonnegative_ints (s : String)
    (h : (portStringToRange s).2.2 = none) :
    ((∃ n, IsDecimalInteger s n ∧ 0 < n ∧ portStringToRange s = (n, n, none)) ∨
      (∃ a b, IsPortRangeText s a b ∧
        portStringToRange s = ((digitsValue a : Int), (digitsValue b : Int), none))) ∧
    0 ≤ (portStringToRange s).1 ∧ (portStringToRange s).1 ≤ maxInt ∧
    0 ≤ (portStringToRange s).2.1 ∧ (portStringToRange s).2.1 ≤ maxInt ∧
    ('-' ∉ s.data →
      1 ≤ (portStringToRange s).1 ∧ (portStringToRange s).1 = (portStringToRange s).2.1) := by
  have hok := portStringToRange_ok s h
  refine ⟨hok, ?_⟩
  rcases hok with ⟨n, ⟨ds, -, -, -, -, hmax⟩, hpos, hres⟩ | ⟨a, b, ⟨hs, -, -, -, -, ha, hb⟩, hres⟩
  · rw [hres]
    refine ⟨by simp; omega, hmax, by simp; omega, hmax, fun _ => ⟨by simp; omega, rfl⟩⟩
  · rw [hres]
    refine ⟨by simp, ha, by simp, hb, fun hnd => ?_⟩
    exact absurd (by rw [hs]; simp) hnd

/-- Witness of C22: the range `8080-8090`. -/
theorem C22_accepted_ports_are_nonnegative_ints_witness :
    0 ≤ (portStringToRange "8080-8090").1 ∧ (portStringToRange "8080-8090").1 ≤ maxInt ∧
    0 ≤ (portStringToRange "8080-8090").2.1 ∧ (portStringToRange "8080-8090").2.1 ≤ maxInt ∧
    ('-' ∉ "8080-8090".data →
      1 ≤ (portStringToRange "8080-8090").1 ∧
        (portStringToRange "8080-8090").1 = (portStringToRange "8080-8090").2.1) :=
  (C22_accepted_ports_are_nonnegative_ints "8080-8090" (by decide)).2

end MetalcloudCli
